import Mathlib

/-! MediaTek misc drivers: the audio IPI DMA transport and the ST54 SPI
character device.

Shallow embedding of

* `drivers/misc/mediatek/audio_ipi/common/framework/audio_ipi_dma.h`
  (the path enumeration, `struct aud_ptr_t`, and the contract of the region
  allocator and ring channel declared there), and
* `drivers/misc/mediatek/nfc/st54spi.c` (the SPI character device).

Part 1 holds the definitions, part 2 the theorems.
-/

set_option autoImplicit false

/-! ## Part 1: definitions -/

namespace AudioIpiDma

/-! ### `audio_ipi_dma.h`: the path enumeration -/

/-- Enumerator `AUDIO_IPI_DMA_AP_TO_SCP = 0` of `audio_ipi_dma_path_t`. -/
def AUDIO_IPI_DMA_AP_TO_SCP : Nat := 0

/-- Enumerator `AUDIO_IPI_DMA_SCP_TO_AP = 1` of `audio_ipi_dma_path_t`. -/
def AUDIO_IPI_DMA_SCP_TO_AP : Nat := 1

/-- Enumerator `NUM_AUDIO_IPI_DMA_PATH`: it has no initialiser, so C gives it the
value of the enumerator before it plus one. -/
def NUM_AUDIO_IPI_DMA_PATH : Nat := AUDIO_IPI_DMA_SCP_TO_AP + 1

/-- The enumerators of `audio_ipi_dma_path_t` that name a path, in declaration
order (`NUM_AUDIO_IPI_DMA_PATH` is the count, not a path). -/
def audio_ipi_dma_paths : List Nat :=
  [AUDIO_IPI_DMA_AP_TO_SCP, AUDIO_IPI_DMA_SCP_TO_AP]

/-- The two directions of a channel. -/
inductive Direction where
  | AP_TO_SCP
  | SCP_TO_AP
  deriving DecidableEq, Repr

/-- The enumerator value of a direction. -/
def Direction.toPath : Direction → Nat
  | .AP_TO_SCP => AUDIO_IPI_DMA_AP_TO_SCP
  | .SCP_TO_AP => AUDIO_IPI_DMA_SCP_TO_AP

/-! ### `audio_ipi_dma.h`: `struct aud_ptr_t`

```c
struct aud_ptr_t {
	union {
		uint8_t *addr;
		unsigned long addr_val; /* the value of address */
		uint32_t dummy[2];      /* work between 32/64 bit environment */
	};
};
```

The union is 8 bytes of storage, seen through `dummy` as two 32-bit words.
All members start at offset 0.  `unsigned long` is 4 bytes for a 32-bit
consumer (ILP32) and 8 bytes for a 64-bit consumer (LP64); both sides are
little-endian (the byte order of the ARM kernels this driver is built for),
so `dummy[0]` is the low word of a 64-bit `addr_val`.
-/

/-- The storage of `struct aud_ptr_t`, as the two words of `dummy`. -/
structure aud_ptr_t where
  dummy0 : Nat
  dummy1 : Nat
  deriving DecidableEq, Repr

/-- The width of a consumer: the size of its `unsigned long`. -/
inductive Consumer where
  | bits32
  | bits64
  deriving DecidableEq, Repr

/-- The structure occupies `sizeof(uint32_t[2]) = 8` bytes: the union is as
large as its largest member, and `addr_val` takes 4 or 8 bytes. -/
def aud_ptr_sizeof (c : Consumer) : Nat :=
  match c with
  | .bits32 => max 4 (2 * 4)
  | .bits64 => max 8 (2 * 4)

/-- The assignment `p.addr_val = v` done by a consumer of width `c`: a 32-bit
consumer stores the low 4 bytes and leaves `dummy[1]` as it was, a 64-bit
consumer stores all 8 bytes. -/
def write_addr_val (c : Consumer) (p : aud_ptr_t) (v : Nat) : aud_ptr_t :=
  match c with
  | .bits32 => { dummy0 := v % 2 ^ 32, dummy1 := p.dummy1 }
  | .bits64 => { dummy0 := v % 2 ^ 32, dummy1 := v / 2 ^ 32 % 2 ^ 32 }

/-- The value of `p.addr_val` read by a consumer of width `c`. -/
def read_addr_val (c : Consumer) (p : aud_ptr_t) : Nat :=
  match c with
  | .bits32 => p.dummy0 % 2 ^ 32
  | .bits64 => p.dummy0 % 2 ^ 32 + 2 ^ 32 * (p.dummy1 % 2 ^ 32)

/-- The width in bits of `unsigned long` for a consumer. -/
def unsigned_long_bits : Consumer → Nat
  | .bits32 => 32
  | .bits64 => 64

/-- The value that arrives in the parameter `phy_addr_val` of
`void *get_audio_ipi_dma_vir_addr(uint32_t opendsp_id, unsigned long phy_addr_val);`
when a caller of width `c` passes the address value `v`: the conversion to
`unsigned long` keeps the low bits. -/
def phy_addr_val_param (c : Consumer) (v : Nat) : Nat :=
  v % 2 ^ unsigned_long_bits c

/-! ### The region allocator and the ring channel

`audio_ipi_dma.h` only declares `audio_ipi_dma_alloc_region`,
`audio_ipi_dma_free_region`, `audio_ipi_dma_write_region`,
`audio_ipi_dma_read_region` and `audio_ipi_dma_drop_region`; their bodies
(`audio_ipi_dma.c`) are not among the sources.  The definitions below follow
the specification, sections 3, 4.1, 4.2, 4.3, 6 and 7.
-/

/-- A byte of a DMA buffer. -/
abbrev Byte := Fin 256

/-- The error kinds of section 7 of the specification. -/
inductive DmaError where
  | InvalidArgument
  | AlreadyExists
  | NotFound
  | OutOfMemory
  | WouldOverflow
  | WouldUnderflow
  | Fault
  | Shutdown
  deriving DecidableEq, Repr

/-- Modelled from the spec: the platform constants the specification names
without giving them a value: the bound on task identifiers ("small bounded
unsigned identifier"), the "platform DMA alignment" and the "platform ceiling"
on a requested size. -/
structure Platform where
  num_tasks : Nat
  align : Nat
  ceiling : Nat
  align_pos : 0 < align

/-- Modelled from the spec: rounding a requested size "to the platform DMA
alignment": the least multiple of `align` that is not below `n`. -/
def round_to_align (P : Platform) (n : Nat) : Nat :=
  (n + P.align - 1) / P.align * P.align

/-- Modelled from the spec: a DMA region (section 3): a physically contiguous
buffer with "a fixed size (set at allocation, never resized), a write cursor
and a read-tracking convention, each held modulo region size".  `phys` is the
physical base of the buffer and `virt` the host-virtual base that backs it,
`data` the bytes of the buffer. -/
structure Region where
  phys : Nat
  virt : Nat
  size : Nat
  write : Nat
  read : Nat
  data : List Byte
  deriving DecidableEq, Repr

/-- Modelled from the spec: "available-to-read = (write − read) mod size"
(section 3), computed in the naturals: `size - read % size` is `−read`
modulo `size`. -/
def Region.available_to_read (r : Region) : Nat :=
  (r.write + (r.size - r.read % r.size)) % r.size

/-- Modelled from the spec: "available-to-write = size − available-to-read − 1
(one slot permanently reserved to disambiguate full from empty)". -/
def Region.available_to_write (r : Region) : Nat :=
  r.size - r.available_to_read - 1

/-- Modelled from the spec: "the distance from `read_idx` to the current write
cursor" (section 4.3), the number of bytes that lie between the caller-supplied
ring offset and the write cursor, modulo the region size. -/
def Region.distance (r : Region) (read_idx : Nat) : Nat :=
  (r.write + (r.size - read_idx % r.size)) % r.size

/-- The two regions of one task, one per direction. -/
structure TaskRegions where
  ap_to_scp : Region
  scp_to_ap : Region
  deriving DecidableEq, Repr

/-- The region of a direction. -/
def TaskRegions.get (t : TaskRegions) : Direction → Region
  | .AP_TO_SCP => t.ap_to_scp
  | .SCP_TO_AP => t.scp_to_ap

/-- Replace the region of a direction. -/
def TaskRegions.set (t : TaskRegions) (d : Direction) (r : Region) : TaskRegions :=
  match d with
  | .AP_TO_SCP => { t with ap_to_scp := r }
  | .SCP_TO_AP => { t with scp_to_ap := r }

/-- Modelled from the spec: the task registry (section 4.4): which task
identifiers have live regions.  A task has at most one entry. -/
structure DmaState where
  regions : Nat → Option TaskRegions

/-- The registry at subsystem initialisation: no task owns a region. -/
def DmaState.empty : DmaState := { regions := fun _ => none }

/-- Replace the entry of one task. -/
def DmaState.update (s : DmaState) (task : Nat) (e : Option TaskRegions) : DmaState :=
  { regions := fun t => if t = task then e else s.regions t }

/-- What an operation leaves behind: the state after the call and the status
it returns. -/
structure Outcome (α : Type) where
  state : DmaState
  result : Except DmaError α

/-- A physically contiguous block handed out by the physical pool, which the
specification leaves outside its scope: physical base and host-virtual base. -/
structure Block where
  phys : Nat
  virt : Nat
  deriving DecidableEq, Repr

/-- A fresh region over a block: zeroed cursors, zeroed bytes. -/
def Region.fresh (b : Block) (size : Nat) : Region :=
  { phys := b.phys, virt := b.virt, size := size, write := 0, read := 0,
    data := List.replicate size 0 }

/-- Modelled from the spec: `alloc_region(task, size_ap_to_dsp, size_dsp_to_ap)`
(section 4.1), whose body is not among the sources.  `pool` is what the
physical pool answers to the request for the two buffers (`none`: it "cannot
satisfy the request").  "Fails with `AlreadyExists` if the task already owns a
region, `InvalidArgument` if either size is zero or exceeds a platform ceiling
[or the task id is bad, section 7], `OutOfMemory` if the physical pool cannot
satisfy the request.  On success, registers the region with the Task Registry
and zeroes both cursors." -/
def alloc_region (P : Platform) (s : DmaState) (task : Nat)
    (size_ap_to_dsp size_dsp_to_ap : Nat) (pool : Option (Block × Block)) :
    Outcome Unit :=
  if P.num_tasks ≤ task then ⟨s, .error .InvalidArgument⟩
  else if (s.regions task).isSome then ⟨s, .error .AlreadyExists⟩
  else if size_ap_to_dsp = 0 ∨ size_dsp_to_ap = 0
      ∨ P.ceiling < size_ap_to_dsp ∨ P.ceiling < size_dsp_to_ap then
    ⟨s, .error .InvalidArgument⟩
  else
    match pool with
    | none => ⟨s, .error .OutOfMemory⟩
    | some (b1, b2) =>
      ⟨s.update task (some
          { ap_to_scp := Region.fresh b1 (round_to_align P size_ap_to_dsp),
            scp_to_ap := Region.fresh b2 (round_to_align P size_dsp_to_ap) }),
        .ok ()⟩

/-- Modelled from the spec: `free_region(task)` (section 4.1), whose body is
not among the sources: "releases both directions' buffers.  Fails with
`NotFound` if the task owns none". -/
def free_region (P : Platform) (s : DmaState) (task : Nat) : Outcome Unit :=
  if P.num_tasks ≤ task then ⟨s, .error .InvalidArgument⟩
  else
    match s.regions task with
    | none => ⟨s, .error .NotFound⟩
    | some _ => ⟨s.update task none, .ok ()⟩

/-- Copy `src` into `dst` starting at offset `off` (a `memcpy` into the
buffer). -/
def copy_at (dst : List Byte) (off : Nat) (src : List Byte) : List Byte :=
  dst.take off ++ src ++ dst.drop (off + src.length)

/-- Modelled from the spec: the copy into the ring of `write_region`, "splitting
the copy across the buffer boundary on wraparound": the first
`min len (size - w)` bytes go to offset `w`, the rest to offset 0. -/
def ring_put (data : List Byte) (size w : Nat) (buf : List Byte) : List Byte :=
  copy_at (copy_at data w (buf.take (min buf.length (size - w)))) 0
    (buf.drop (min buf.length (size - w)))

/-- Modelled from the spec: the copy out of the ring of `read_region`,
"honoring wraparound": `min n (size - start)` bytes from offset `start`, the
rest from offset 0. -/
def ring_take (data : List Byte) (size start n : Nat) : List Byte :=
  (data.drop start).take (min n (size - start)) ++ data.take (n - min n (size - start))

/-- Modelled from the spec: `write_region(task, data, size) -> write_idx`
(section 4.3), whose body is not among the sources; `data_buf` carries the
`size` bytes.  "copies `size` bytes from the caller's buffer into the ring
starting at the current producer cursor, splitting the copy across the buffer
boundary on wraparound; advances the cursor by `size` modulo region size;
returns the post-write cursor [...].  Fails with `WouldOverflow` if `size`
exceeds currently available free space; on failure, no bytes are committed".
The channel is the one of `(task, d)` (sections 4.3 and 6). -/
def write_region (P : Platform) (s : DmaState) (task : Nat) (d : Direction)
    (data_buf : List Byte) : Outcome Nat :=
  if P.num_tasks ≤ task then ⟨s, .error .InvalidArgument⟩
  else
    match s.regions task with
    | none => ⟨s, .error .NotFound⟩
    | some t =>
      let r := t.get d
      if r.available_to_write < data_buf.length then ⟨s, .error .WouldOverflow⟩
      else
        let write_idx := (r.write + data_buf.length) % r.size
        ⟨s.update task (some (t.set d
            { r with write := write_idx, data := ring_put r.data r.size r.write data_buf })),
          .ok write_idx⟩

/-- Modelled from the spec: `read_region(task, data, size, read_idx)`
(section 4.3), whose body is not among the sources; the result carries the
`size` bytes copied to the caller's buffer.  "copies `size` bytes starting at
the caller-supplied absolute ring offset `read_idx` into the caller's buffer,
honoring wraparound.  Does not advance any cursor.  Fails with
`WouldUnderflow` if the requested span [...] exceeds the distance from
`read_idx` to the current write cursor". -/
def read_region (P : Platform) (s : DmaState) (task : Nat) (d : Direction)
    (data_size read_idx : Nat) : Outcome (List Byte) :=
  if P.num_tasks ≤ task then ⟨s, .error .InvalidArgument⟩
  else
    match s.regions task with
    | none => ⟨s, .error .NotFound⟩
    | some t =>
      let r := t.get d
      if r.distance read_idx < data_size then ⟨s, .error .WouldUnderflow⟩
      else
        ⟨s, .ok (ring_take r.data r.size (read_idx % r.size) data_size)⟩

/-- Modelled from the spec: `drop_region(task, size, read_idx)` (section 4.3),
whose body is not among the sources: "logically discards `size` bytes starting
at `read_idx` without copying [...].  Same `WouldUnderflow` condition as
read."  Discarding the span that starts at `read_idx` leaves the region's
read-tracking position at its end, `read_idx + size` modulo the region size;
a drop of 0 bytes discards nothing: "`drop_region(T, 0, idx)` never changes
observable state (true no-op)" (section 8).  The status is the number of bytes
processed (section 6). -/
def drop_region (P : Platform) (s : DmaState) (task : Nat) (d : Direction)
    (data_size read_idx : Nat) : Outcome Nat :=
  if P.num_tasks ≤ task then ⟨s, .error .InvalidArgument⟩
  else
    match s.regions task with
    | none => ⟨s, .error .NotFound⟩
    | some t =>
      let r := t.get d
      if r.distance read_idx < data_size then ⟨s, .error .WouldUnderflow⟩
      else if data_size = 0 then ⟨s, .ok 0⟩
      else
        ⟨s.update task (some (t.set d { r with read := (read_idx + data_size) % r.size })),
          .ok data_size⟩

/-- Modelled from the spec: the entry of the translator table for one region
(section 4.2, "a table of (physical range → virtual base) with one entry per
live region; lookup by range containment"): the host-virtual address that
backs `phys_value` when it lies inside the region. -/
def Region.translate (r : Region) (phys_value : Nat) : Option Nat :=
  if r.phys ≤ phys_value ∧ phys_value < r.phys + r.size then
    some (r.virt + (phys_value - r.phys))
  else none

/-- The translation through the two regions of one task. -/
def TaskRegions.translate (t : TaskRegions) (phys_value : Nat) : Option Nat :=
  (t.ap_to_scp.translate phys_value).orElse (fun _ => t.scp_to_ap.translate phys_value)

/-- Modelled from the spec: `get_virtual_address(dsp_instance_id, phys_value)`
(section 4.2), whose body is not among the sources: "returns the host-virtual
address currently backing `phys_value` for the named coprocessor instance, or
a null result if the address is not inside any region this subsystem tracks",
by a linear search through the live regions of the task identifiers
`0 .. num_tasks - 1`.  The specification keeps one table for the subsystem;
`dsp_instance_id` names the coordinate space of `phys_value`. -/
def get_virtual_address (P : Platform) (s : DmaState) (_dsp_instance_id : Nat)
    (phys_value : Nat) : Option Nat :=
  (List.range P.num_tasks).findSome?
    (fun task => (s.regions task).bind (fun t => t.translate phys_value))

/-- The states the subsystem can be in: the empty registry of subsystem
initialisation, followed by any sequence of `alloc_region`, `free_region`,
`write_region`, `read_region` and `drop_region` calls, with any arguments and
any answer of the physical pool. -/
inductive Reachable (P : Platform) : DmaState → Prop where
  | init : Reachable P DmaState.empty
  | alloc {s : DmaState} (task a b : Nat) (pool : Option (Block × Block)) :
      Reachable P s → Reachable P (alloc_region P s task a b pool).state
  | free {s : DmaState} (task : Nat) :
      Reachable P s → Reachable P (free_region P s task).state
  | write {s : DmaState} (task : Nat) (d : Direction) (data_buf : List Byte) :
      Reachable P s → Reachable P (write_region P s task d data_buf).state
  | read {s : DmaState} (task : Nat) (d : Direction) (data_size read_idx : Nat) :
      Reachable P s → Reachable P (read_region P s task d data_size read_idx).state
  | drop {s : DmaState} (task : Nat) (d : Direction) (data_size read_idx : Nat) :
      Reachable P s → Reachable P (drop_region P s task d data_size read_idx).state

/-- A region in good order: a buffer of `size > 0` bytes and both cursors
inside it. -/
def Region.WF (r : Region) : Prop :=
  0 < r.size ∧ r.write < r.size ∧ r.read < r.size ∧ r.data.length = r.size

/-- Every live region of the registry is in good order, and only task
identifiers below the platform bound own regions. -/
def DmaState.WF (P : Platform) (s : DmaState) : Prop :=
  ∀ task t, s.regions task = some t →
    task < P.num_tasks ∧ ∀ d : Direction, (t.get d).WF

/-! ### Concrete inputs used by the examples -/

/-- A platform with 4 task identifiers, 8-byte alignment and a 4096-byte
ceiling. -/
def demo_platform : Platform :=
  { num_tasks := 4, align := 8, ceiling := 4096, align_pos := by decide }

/-- Task 1 has just been given two 8-byte regions. -/
def demo_allocated : DmaState :=
  (alloc_region demo_platform DmaState.empty 1 8 8
    (some (⟨4096, 0⟩, ⟨8192, 100⟩))).state

/-- The two regions of task 1 in `demo_allocated`. -/
def demo_regions : TaskRegions :=
  { ap_to_scp := Region.fresh ⟨4096, 0⟩ 8, scp_to_ap := Region.fresh ⟨8192, 100⟩ 8 }

/-- Six bytes were written to the AP-to-SCP ring of task 1 and dropped again:
both cursors stand at offset 6, near the end of the 8-byte buffer. -/
def demo_near_end : DmaState :=
  (drop_region demo_platform
    (write_region demo_platform demo_allocated 1 .AP_TO_SCP [9, 9, 9, 9, 9, 9]).state
    1 .AP_TO_SCP 6 0).state

/-- Five bytes to write. -/
def demo_first : List Byte := [1, 2, 3, 4, 5]

/-- Five more bytes to write. -/
def demo_second : List Byte := [6, 7, 8, 9, 10]

/-- The two regions of task 1 in `demo_near_end`. -/
def demo_near_end_regions : TaskRegions :=
  { ap_to_scp :=
      { phys := 4096, virt := 0, size := 8, write := 6, read := 6,
        data := [9, 9, 9, 9, 9, 9, 0, 0] },
    scp_to_ap := Region.fresh ⟨8192, 100⟩ 8 }

end AudioIpiDma

namespace St54Spi

/-! ### `st54spi.c`: constants of the kernel headers

The driver includes `<linux/errno.h>`, `<linux/ioctl.h>`, `<linux/spi/spi.h>`
and `<linux/spi/spidev.h>`, which are not among the sources; the constants
below are the values those headers define (asm-generic layout of an ioctl
number: 8 bits number, 8 bits type, 14 bits size, 2 bits direction).
-/

/-- A byte of a bounce buffer. -/
abbrev u8 := Fin 256

def ENXIO : Int := 6
def ENOMEM : Int := 12
def EFAULT : Int := 14
def ENODEV : Int := 19
def EINVAL : Int := 22
def ENOTTY : Int := 25
def EMSGSIZE : Int := 90
def ESHUTDOWN : Int := 108

/-- The largest value of a C `int`. -/
def INT_MAX : Nat := 2147483647

/-- One more than the largest value of a C `unsigned`. -/
def UINT_RANGE : Nat := 4294967296

/-- The conversion of an `unsigned` value to `int` (two's complement): values
above `INT_MAX` come out negative. -/
def int_of_unsigned (x : Nat) : Int :=
  if x % UINT_RANGE ≤ INT_MAX then ((x % UINT_RANGE : Nat) : Int)
  else ((x % UINT_RANGE : Nat) : Int) - (UINT_RANGE : Int)

def _IOC_NRSHIFT : Nat := 0
def _IOC_TYPESHIFT : Nat := 8
def _IOC_SIZESHIFT : Nat := 16
def _IOC_DIRSHIFT : Nat := 30
def _IOC_NRMASK : Nat := 0xFF
def _IOC_TYPEMASK : Nat := 0xFF
def _IOC_SIZEMASK : Nat := 0x3FFF
def _IOC_DIRMASK : Nat := 0x3
def _IOC_NONE : Nat := 0
def _IOC_WRITE : Nat := 1
def _IOC_READ : Nat := 2

def _IOC (dir type nr size : Nat) : Nat :=
  (dir <<< _IOC_DIRSHIFT) ||| (type <<< _IOC_TYPESHIFT) ||| (nr <<< _IOC_NRSHIFT)
    ||| (size <<< _IOC_SIZESHIFT)

def _IOR (type nr size : Nat) : Nat := _IOC _IOC_READ type nr size
def _IOW (type nr size : Nat) : Nat := _IOC _IOC_WRITE type nr size

def _IOC_DIR (cmd : Nat) : Nat := (cmd >>> _IOC_DIRSHIFT) &&& _IOC_DIRMASK
def _IOC_TYPE (cmd : Nat) : Nat := (cmd >>> _IOC_TYPESHIFT) &&& _IOC_TYPEMASK
def _IOC_NR (cmd : Nat) : Nat := (cmd >>> _IOC_NRSHIFT) &&& _IOC_NRMASK
def _IOC_SIZE (cmd : Nat) : Nat := (cmd >>> _IOC_SIZESHIFT) &&& _IOC_SIZEMASK

/-- The magic `'k'` of the SPI ioctls. -/
def SPI_IOC_MAGIC : Nat := 107

/-- The value of `sizeof(struct spi_ioc_transfer)`. -/
def sizeof_spi_ioc_transfer : Nat := 32

def SPI_MSGSIZE (N : Nat) : Nat :=
  if N * sizeof_spi_ioc_transfer < 1 <<< 14 then N * sizeof_spi_ioc_transfer else 0

def SPI_IOC_MESSAGE (N : Nat) : Nat := _IOW SPI_IOC_MAGIC 0 (SPI_MSGSIZE N)
def SPI_IOC_RD_MODE : Nat := _IOR SPI_IOC_MAGIC 1 1
def SPI_IOC_WR_MODE : Nat := _IOW SPI_IOC_MAGIC 1 1
def SPI_IOC_RD_LSB_FIRST : Nat := _IOR SPI_IOC_MAGIC 2 1
def SPI_IOC_WR_LSB_FIRST : Nat := _IOW SPI_IOC_MAGIC 2 1
def SPI_IOC_RD_BITS_PER_WORD : Nat := _IOR SPI_IOC_MAGIC 3 1
def SPI_IOC_WR_BITS_PER_WORD : Nat := _IOW SPI_IOC_MAGIC 3 1
def SPI_IOC_RD_MAX_SPEED_HZ : Nat := _IOR SPI_IOC_MAGIC 4 4
def SPI_IOC_WR_MAX_SPEED_HZ : Nat := _IOW SPI_IOC_MAGIC 4 4
def SPI_IOC_RD_MODE32 : Nat := _IOR SPI_IOC_MAGIC 5 4
def SPI_IOC_WR_MODE32 : Nat := _IOW SPI_IOC_MAGIC 5 4

/-- `#define ST54SPI_IOC_RD_POWER _IOR(SPI_IOC_MAGIC, 99, __u32)`. -/
def ST54SPI_IOC_RD_POWER : Nat := _IOR SPI_IOC_MAGIC 99 4

/-- `#define ST54SPI_IOC_WR_POWER _IOW(SPI_IOC_MAGIC, 99, __u32)`. -/
def ST54SPI_IOC_WR_POWER : Nat := _IOW SPI_IOC_MAGIC 99 4

def SPI_CPHA : Nat := 0x01
def SPI_CPOL : Nat := 0x02
def SPI_CS_HIGH : Nat := 0x04
def SPI_LSB_FIRST : Nat := 0x08
def SPI_3WIRE : Nat := 0x10
def SPI_LOOP : Nat := 0x20
def SPI_NO_CS : Nat := 0x40
def SPI_READY : Nat := 0x80
def SPI_TX_DUAL : Nat := 0x100
def SPI_TX_QUAD : Nat := 0x200
def SPI_RX_DUAL : Nat := 0x400
def SPI_RX_QUAD : Nat := 0x800

/-- `#define SPI_MODE_MASK (SPI_CPHA | SPI_CPOL | ... | SPI_RX_QUAD)`. -/
def SPI_MODE_MASK : Nat :=
  SPI_CPHA ||| SPI_CPOL ||| SPI_CS_HIGH ||| SPI_LSB_FIRST ||| SPI_3WIRE ||| SPI_LOOP
    ||| SPI_NO_CS ||| SPI_READY ||| SPI_TX_DUAL ||| SPI_TX_QUAD ||| SPI_RX_DUAL
    ||| SPI_RX_QUAD

def VERIFY_READ : Nat := 0
def VERIFY_WRITE : Nat := 1

/-! ### `st54spi.c`: data -/

/-- The fields of `struct mtk_chip_config` (`<linux/platform_data/spi-mt65xx.h>`,
not among the sources) the driver reads and writes; all are `u32`. -/
structure mtk_chip_config where
  rx_mlsb : Nat := 0
  tx_mlsb : Nat := 0
  cs_pol : Nat := 0
  sample_sel : Nat := 0
  cs_setuptime : Nat := 0
  cs_holdtime : Nat := 0
  cs_idletime : Nat := 0
  deriving DecidableEq, Repr

/-- The fields of `struct spi_device` the driver reads and writes;
`controller_data` points to a `struct mtk_chip_config` or is NULL. -/
structure spi_device where
  mode : Nat := 0
  bits_per_word : Nat := 0
  max_speed_hz : Nat := 0
  controller_data : Option mtk_chip_config := none
  deriving DecidableEq, Repr

/-- The `struct spi_ioc_transfer` of `<linux/spi/spidev.h>`: one user transfer.
`tx_buf` and `rx_buf` are user addresses (0 is NULL), `len` is a `__u32`. -/
structure spi_ioc_transfer where
  tx_buf : Nat := 0
  rx_buf : Nat := 0
  len : Nat := 0
  speed_hz : Nat := 0
  delay_usecs : Nat := 0
  bits_per_word : Nat := 0
  cs_change : Nat := 0
  tx_nbits : Nat := 0
  rx_nbits : Nat := 0
  deriving DecidableEq, Repr

/-- The fields of the kernel's `struct spi_transfer` the driver fills in.
`tx_buf` and `rx_buf` point into the bounce buffers: `some off` is the address
`off` bytes past the start of `tx_buffer` (`rx_buffer`), `none` is NULL.
`tx_nbits` and `rx_nbits` are the bit-fields `unsigned tx_nbits:3` and
`unsigned rx_nbits:3`: a store keeps the low 3 bits. -/
structure spi_transfer where
  tx_buf : Option Nat := none
  rx_buf : Option Nat := none
  len : Nat := 0
  cs_change : Nat := 0
  tx_nbits : Nat := 0
  rx_nbits : Nat := 0
  bits_per_word : Nat := 0
  delay_usecs : Nat := 0
  speed_hz : Nat := 0
  deriving DecidableEq, Repr

/-- The fields of `struct st54spi_data` other than the locks and list links.
A buffer pointer is `none` when NULL and carries the bytes of the buffer
otherwise. -/
structure st54spi_data where
  spi : Option spi_device := none
  spi_reset : Option spi_device := none
  users : Nat := 0
  tx_buffer : Option (List u8) := none
  rx_buffer : Option (List u8) := none
  speed_hz : Nat := 0
  power_gpio : Int := 0
  deriving DecidableEq, Repr

/-- What the driver does to the world outside `struct st54spi_data`, in the
order it does it. -/
inductive Event where
  | spi_sync (spi : spi_device) (xfers : List spi_transfer)
  | copy_from_user (from_addr : Nat) (n : Nat)
  | copy_to_user (to_addr : Nat) (bytes : List u8)
  | get_user (addr size : Nat)
  | put_user (addr size value : Nat)
  | spi_setup (spi : spi_device)
  | gpio_get_value (gpio : Int)
  | st21nfc_unregister_reset_cb
  | device_destroy
  | kfree_st54spi
  | gpio_set_value (gpio : Int) (value : Int)
  deriving DecidableEq, Repr

/-- The driver data of one device together with the trace of its calls into
the rest of the kernel, and the levels the driver has set on GPIO lines with
`gpio_set_value`, the latest first. -/
structure State where
  dev : st54spi_data
  log : List Event := []
  gpio : List (Int × Int) := []
  deriving DecidableEq, Repr

/-- What `spi_sync` hands back: its status, the `actual_length` it left in the
message, and the bytes of the RX bounce buffer after the transfer. -/
structure SpiSyncResult where
  status : Int
  actual_length : Nat
  rx_bytes : List u8

/-- The rest of the kernel, as far as the driver's results depend on it: the
module parameter `bufsiz` and the answers of the functions the driver calls. -/
structure Kernel where
  /-- `static unsigned bufsiz = 4096; module_param(bufsiz, uint, S_IRUGO);` -/
  bufsiz : Nat
  /-- `spi_sync(spi, message)`, given the RX bounce buffer before the call. -/
  spi_sync : spi_device → List spi_transfer → Option (List u8) → SpiSyncResult
  /-- `copy_to_user(to, from, n)`: the number of bytes that could not be copied. -/
  copy_to_user : Nat → List u8 → Nat
  /-- `copy_from_user(to, from, n)`: the number of bytes that could not be
  copied and the bytes that arrive in the destination. -/
  copy_from_user : Nat → Nat → Nat × List u8
  /-- `access_ok(type, addr, size)`. -/
  access_ok : Nat → Nat → Nat → Bool
  /-- `__get_user(x, ptr)` of `size` bytes: the value read, `none` on a fault. -/
  get_user : Nat → Nat → Option Nat
  /-- `__put_user(x, ptr)` of `size` bytes: `true` when the store succeeds. -/
  put_user : Nat → Nat → Nat → Bool
  /-- `spi_setup(spi)`. -/
  spi_setup : spi_device → Int
  /-- `gpio_get_value(gpio)` for a line the driver has not set. -/
  gpio_get_value : Int → Int
  /-- `kcalloc(n, size, GFP_KERNEL) != NULL`. -/
  kcalloc : Nat → Bool
  /-- `kmalloc(size, GFP_KERNEL) != NULL`. -/
  kmalloc : Nat → Bool
  /-- The `i`-th `struct spi_ioc_transfer` of the user array at an address. -/
  user_xfer : Nat → Nat → spi_ioc_transfer
  /-- `__copy_from_user(ioc, u_ioc, tmp) == 0`. -/
  copy_ioc : Nat → Nat → Bool

/-- A `memcpy` of `src` to offset `off` of a buffer. -/
def write_at (buf : List u8) (off : Nat) (src : List u8) : List u8 :=
  buf.take off ++ src ++ buf.drop (off + src.length)

/-! ### `st54spi.c`: functions -/

/-- The function `st54spi_sync`.
```c
static ssize_t
st54spi_sync(struct st54spi_data *st54spi, struct spi_message *message)
{
	int status;
	struct spi_device *spi;

	spi = st54spi->spi;
	if (spi == NULL)
		status = -ESHUTDOWN;
	else
		status = spi_sync(spi, message);
	if (status == 0)
		status = message->actual_length;
	return status;
}
```
`message` is the list of its transfers.  `spi_message_init` zeroes the message,
so `actual_length` is 0 when `spi_sync` is not called. -/
def st54spi_sync (K : Kernel) (st : State) (message : List spi_transfer) : Int × State :=
  let r : Int × Nat × State :=
    match st.dev.spi with
    | none => (-ESHUTDOWN, 0, st)
    | some spi =>
      let a := K.spi_sync spi message st.dev.rx_buffer
      (a.status, a.actual_length,
        { st with
          dev := { st.dev with rx_buffer := st.dev.rx_buffer.map (fun _ => a.rx_bytes) },
          log := st.log ++ [Event.spi_sync spi message] })
  let status : Int := if r.1 = 0 then int_of_unsigned r.2.1 else r.1
  (status, r.2.2)

/-- `st54spi_sync_write`: one transfer `{ .tx_buf = st54spi->tx_buffer,
.len = len, .speed_hz = st54spi->speed_hz }`. -/
def st54spi_sync_write (K : Kernel) (st : State) (len : Nat) : Int × State :=
  st54spi_sync K st
    [{ tx_buf := st.dev.tx_buffer.map (fun _ => 0), len := len % UINT_RANGE,
       speed_hz := st.dev.speed_hz }]

/-- `st54spi_sync_read`: one transfer `{ .rx_buf = st54spi->rx_buffer,
.len = len, .speed_hz = st54spi->speed_hz }`. -/
def st54spi_sync_read (K : Kernel) (st : State) (len : Nat) : Int × State :=
  st54spi_sync K st
    [{ rx_buf := st.dev.rx_buffer.map (fun _ => 0), len := len % UINT_RANGE,
       speed_hz := st.dev.speed_hz }]

/-- The function `st54spi_read`.
```c
	if (count > bufsiz)
		return -EMSGSIZE;
	st54spi = filp->private_data;
	status = st54spi_sync_read(st54spi, count);
	if (status > 0) {
		unsigned long	missing;

		missing = copy_to_user(buf, st54spi->rx_buffer, status);
		if (missing == status)
			status = -EFAULT;
		else
			status = status - missing;
	}
	return status;
```
-/
def st54spi_read (K : Kernel) (st : State) (buf count : Nat) : Int × State :=
  if count > K.bufsiz then (-EMSGSIZE, st)
  else
    let (status, st1) := st54spi_sync_read K st count
    if status > 0 then
      let bytes := (st1.dev.rx_buffer.getD []).take status.toNat
      let missing := K.copy_to_user buf bytes
      let st2 := { st1 with log := st1.log ++ [Event.copy_to_user buf bytes] }
      if (missing : Int) = status then (-EFAULT, st2)
      else (status - (missing : Int), st2)
    else (status, st1)

/-- The function `st54spi_write`.
```c
	if (count > bufsiz)
		return -EMSGSIZE;
	st54spi = filp->private_data;
	missing = copy_from_user(st54spi->tx_buffer, buf, count);
	if (missing == 0)
		status = st54spi_sync_write(st54spi, count);
	else
		status = -EFAULT;
	return status;
```
-/
def st54spi_write (K : Kernel) (st : State) (buf count : Nat) : Int × State :=
  if count > K.bufsiz then (-EMSGSIZE, st)
  else
    let (missing, bytes) := K.copy_from_user buf count
    let st1 : State :=
      { st with
        dev := { st.dev with tx_buffer := st.dev.tx_buffer.map (fun b => write_at b 0 bytes) },
        log := st.log ++ [Event.copy_from_user buf count] }
    if missing = 0 then st54spi_sync_write K st1 count
    else (-EFAULT, st1)

/-- The local variables of the construction loop of `st54spi_message`:
`total`, `tx_total`, `rx_total`, the cursors `tx_buf` and `rx_buf` (as offsets
from the start of the bounce buffers), the kernel transfers added to the
message so far, and the state. -/
structure MsgLoop where
  total : Nat := 0
  tx_total : Nat := 0
  rx_total : Nat := 0
  tx_buf : Nat := 0
  rx_buf : Nat := 0
  k_xfers : List spi_transfer := []
  st : State

/-- One pass of the construction loop of `st54spi_message` over the user
transfer `u_tmp`; `Except.error` is a `goto done` with that status.
```c
		k_tmp->len = u_tmp->len;
		total += k_tmp->len;
		if (total > INT_MAX || k_tmp->len > INT_MAX) {
			status = -EMSGSIZE;
			goto done;
		}
		if (u_tmp->rx_buf) {
			rx_total += k_tmp->len;
			if (rx_total > bufsiz) {
				status = -EMSGSIZE;
				goto done;
			}
			k_tmp->rx_buf = rx_buf;
			if (!access_ok(VERIFY_WRITE, (u8 __user *)
						(uintptr_t) u_tmp->rx_buf,
						u_tmp->len))
				goto done;
			rx_buf += k_tmp->len;
		}
		if (u_tmp->tx_buf) {
			tx_total += k_tmp->len;
			if (tx_total > bufsiz) {
				status = -EMSGSIZE;
				goto done;
			}
			k_tmp->tx_buf = tx_buf;
			if (copy_from_user(tx_buf, (const u8 __user *)
						(uintptr_t) u_tmp->tx_buf,
					u_tmp->len))
				goto done;
			tx_buf += k_tmp->len;
		}
		k_tmp->cs_change = !!u_tmp->cs_change;
		k_tmp->tx_nbits = u_tmp->tx_nbits;
		k_tmp->rx_nbits = u_tmp->rx_nbits;
		k_tmp->bits_per_word = u_tmp->bits_per_word;
		k_tmp->delay_usecs = u_tmp->delay_usecs;
		k_tmp->speed_hz = u_tmp->speed_hz;
		if (!k_tmp->speed_hz)
			k_tmp->speed_hz = st54spi->speed_hz;
		spi_message_add_tail(k_tmp, &msg);
```
The status is `-EFAULT` from its initialisation unless set before the jump. -/
def st54spi_message_step (K : Kernel) (l : MsgLoop) (u_tmp : spi_ioc_transfer) :
    Except (Int × State) MsgLoop :=
  let len := u_tmp.len
  let total := (l.total + len) % UINT_RANGE
  if total > INT_MAX ∨ len > INT_MAX then .error (-EMSGSIZE, l.st)
  else
    -- the RX half
    let rx : Except (Int × State) (Nat × Nat × Option Nat) :=
      if u_tmp.rx_buf ≠ 0 then
        let rx_total := (l.rx_total + len) % UINT_RANGE
        if rx_total > K.bufsiz then .error (-EMSGSIZE, l.st)
        else if !K.access_ok VERIFY_WRITE u_tmp.rx_buf u_tmp.len then .error (-EFAULT, l.st)
        else .ok (rx_total, l.rx_buf + len, some l.rx_buf)
      else .ok (l.rx_total, l.rx_buf, none)
    match rx with
    | .error e => .error e
    | .ok (rx_total, rx_buf, k_rx_buf) =>
      -- the TX half
      let tx : Except (Int × State) (Nat × Nat × Option Nat × State) :=
        if u_tmp.tx_buf ≠ 0 then
          let tx_total := (l.tx_total + len) % UINT_RANGE
          if tx_total > K.bufsiz then .error (-EMSGSIZE, l.st)
          else
            let (missing, bytes) := K.copy_from_user u_tmp.tx_buf u_tmp.len
            let st1 : State :=
              { l.st with
                dev := { l.st.dev with
                  tx_buffer := l.st.dev.tx_buffer.map (fun b => write_at b l.tx_buf bytes) },
                log := l.st.log ++ [Event.copy_from_user u_tmp.tx_buf u_tmp.len] }
            if missing ≠ 0 then .error (-EFAULT, st1)
            else .ok (tx_total, l.tx_buf + len, some l.tx_buf, st1)
        else .ok (l.tx_total, l.tx_buf, none, l.st)
      match tx with
      | .error e => .error e
      | .ok (tx_total, tx_buf, k_tx_buf, st1) =>
        let k_tmp : spi_transfer :=
          { tx_buf := k_tx_buf, rx_buf := k_rx_buf, len := len,
            cs_change := if u_tmp.cs_change ≠ 0 then 1 else 0,
            tx_nbits := u_tmp.tx_nbits % 8, rx_nbits := u_tmp.rx_nbits % 8,
            bits_per_word := u_tmp.bits_per_word, delay_usecs := u_tmp.delay_usecs,
            speed_hz := if u_tmp.speed_hz = 0 then l.st.dev.speed_hz else u_tmp.speed_hz }
        .ok { total := total, tx_total := tx_total, rx_total := rx_total,
              tx_buf := tx_buf, rx_buf := rx_buf, k_xfers := l.k_xfers ++ [k_tmp],
              st := st1 }

/-- The construction loop of `st54spi_message`: `for (n = n_xfers, ...; n;
n--, k_tmp++, u_tmp++)` over the user transfers, stopping at the first
`goto done`. -/
def st54spi_message_build (K : Kernel) (l : MsgLoop) :
    List spi_ioc_transfer → Except (Int × State) MsgLoop
  | [] => .ok l
  | u_tmp :: rest =>
    match st54spi_message_step K l u_tmp with
    | .error e => .error e
    | .ok l1 => st54spi_message_build K l1 rest

/-- The loop of `st54spi_message` that copies RX data out of the bounce buffer;
`rx_buf` is the offset of the cursor; `Except.error` is the `goto done` with
`status = -EFAULT`.
```c
	for (n = n_xfers, u_tmp = u_xfers; n; n--, u_tmp++) {
		if (u_tmp->rx_buf) {
			if (__copy_to_user((u8 __user *)
					(uintptr_t) u_tmp->rx_buf, rx_buf,
					u_tmp->len)) {
				status = -EFAULT;
				goto done;
			}
			rx_buf += u_tmp->len;
		}
	}
```
-/
def st54spi_message_copy_out (K : Kernel) (st : State) (rx_buf : Nat) :
    List spi_ioc_transfer → Except (Int × State) State
  | [] => .ok st
  | u_tmp :: rest =>
    if u_tmp.rx_buf ≠ 0 then
      let bytes := ((st.dev.rx_buffer.getD []).drop rx_buf).take u_tmp.len
      let st1 : State := { st with log := st.log ++ [Event.copy_to_user u_tmp.rx_buf bytes] }
      if K.copy_to_user u_tmp.rx_buf bytes ≠ 0 then .error (-EFAULT, st1)
      else st54spi_message_copy_out K st1 (rx_buf + u_tmp.len) rest
    else st54spi_message_copy_out K st rx_buf rest

/-- The function `st54spi_message(st54spi, u_xfers, n_xfers)`; the array
`u_xfers` is the list of its `n_xfers` elements.
```c
	int			status = -EFAULT;

	spi_message_init(&msg);
	k_xfers = kcalloc(n_xfers, sizeof(*k_tmp), GFP_KERNEL);
	if (k_xfers == NULL)
		return -ENOMEM;
	... construction loop ...
	status = st54spi_sync(st54spi, &msg);
	if (status < 0)
		goto done;
	... copy-out loop ...
	status = total;
done:
	kfree(k_xfers);
	return status;
```
-/
def st54spi_message (K : Kernel) (st : State) (u_xfers : List spi_ioc_transfer) :
    Int × State :=
  if !K.kcalloc u_xfers.length then (-ENOMEM, st)
  else
    match st54spi_message_build K { st := st } u_xfers with
    | .error e => e
    | .ok l =>
      let (status, st1) := st54spi_sync K l.st l.k_xfers
      if status < 0 then (status, st1)
      else
        match st54spi_message_copy_out K st1 0 u_xfers with
        | .error e => e
        | .ok st2 => (int_of_unsigned l.total, st2)

/-- What `st54spi_get_ioc_message` returns: an `ERR_PTR`, NULL, or the scratch
copy of the user array. -/
inductive IocMessage where
  | err_ptr (e : Int)
  | null
  | ioc (xs : List spi_ioc_transfer)
  deriving DecidableEq, Repr

/-- The function `st54spi_get_ioc_message(cmd, u_ioc, &n_ioc)`: the pointer it
returns and the value it stores in `*n_ioc` (`none` when it stores nothing).
```c
	if (_IOC_TYPE(cmd) != SPI_IOC_MAGIC
			|| _IOC_NR(cmd) != _IOC_NR(SPI_IOC_MESSAGE(0))
			|| _IOC_DIR(cmd) != _IOC_WRITE)
		return ERR_PTR(-ENOTTY);

	tmp = _IOC_SIZE(cmd);
	if ((tmp % sizeof(struct spi_ioc_transfer)) != 0)
		return ERR_PTR(-EINVAL);
	*n_ioc = tmp / sizeof(struct spi_ioc_transfer);
	if (*n_ioc == 0)
		return NULL;

	ioc = kmalloc(tmp, GFP_KERNEL);
	if (!ioc)
		return ERR_PTR(-ENOMEM);
	if (__copy_from_user(ioc, u_ioc, tmp)) {
		kfree(ioc);
		return ERR_PTR(-EFAULT);
	}
	return ioc;
```
-/
def st54spi_get_ioc_message (K : Kernel) (cmd u_ioc : Nat) : IocMessage × Option Nat :=
  if _IOC_TYPE cmd ≠ SPI_IOC_MAGIC ∨ _IOC_NR cmd ≠ _IOC_NR (SPI_IOC_MESSAGE 0)
      ∨ _IOC_DIR cmd ≠ _IOC_WRITE then
    (.err_ptr (-ENOTTY), none)
  else
    let tmp := _IOC_SIZE cmd
    if tmp % sizeof_spi_ioc_transfer ≠ 0 then (.err_ptr (-EINVAL), none)
    else
      let n_ioc := tmp / sizeof_spi_ioc_transfer
      if n_ioc = 0 then (.null, some n_ioc)
      else if !K.kmalloc tmp then (.err_ptr (-ENOMEM), some n_ioc)
      else if !K.copy_ioc u_ioc tmp then (.err_ptr (-EFAULT), some n_ioc)
      else (.ioc ((List.range n_ioc).map (K.user_xfer u_ioc)), some n_ioc)

/-- The level `gpio_get_value(gpio)` reads: the level the driver last set
with `gpio_set_value`, or what the line held when the driver never set it. -/
def gpio_level (K : Kernel) (st : State) (gpio : Int) : Int :=
  match st.gpio.lookup gpio with
  | some v => v
  | none => K.gpio_get_value gpio

/-- A call `gpio_set_value(gpio, value)`: the line is driven to 1 when `value`
is non-zero and to 0 otherwise. -/
def gpio_set (st : State) (gpio value : Int) : State :=
  { st with
    gpio := (gpio, if value ≠ 0 then 1 else 0) :: st.gpio,
    log := st.log ++ [Event.gpio_set_value gpio value] }

/-- The function `st54spi_power_set`: the GPIO write is commented out in the
source, only the `pr_info` is left.
```c
	if (debug_enabled)
		pr_info("st54spi se_pwr_req DISABLED: %d\n", val);
	/* set gpio-power accordingly to val */
	//if (st54spi->power_gpio)
	//    gpio_set_value(st54spi->power_gpio, val ? 1 : 0);
```
-/
def st54spi_power_set (st : State) (_val : Int) : State := st

/-- The function `st54spi_power_get`.
```c
	if (st54spi->power_gpio)
	    return gpio_get_value(st54spi->power_gpio);
	return 0;
```
-/
def st54spi_power_get (K : Kernel) (st : State) : Int × State :=
  if st.dev.power_gpio ≠ 0 then
    (gpio_level K st st.dev.power_gpio,
      { st with log := st.log ++ [Event.gpio_get_value st.dev.power_gpio] })
  else (0, st)

/-- A `__put_user(value, ptr)` of `size` bytes at `addr`: the status 0 or
`-EFAULT`, and the call in the trace.  The store keeps the low `size` bytes. -/
def put_user_status (K : Kernel) (st : State) (value addr size : Nat) : Int × State :=
  (if K.put_user addr size (value % 2 ^ (8 * size)) then 0 else -EFAULT,
    { st with log := st.log ++ [Event.put_user addr size (value % 2 ^ (8 * size))] })

/-- A `__get_user(tmp, ptr)` of `size` bytes at `addr`: the status 0 or
`-EFAULT`, the value of `tmp` after it, and the call in the trace. -/
def get_user_status (K : Kernel) (st : State) (addr size : Nat) : Int × Nat × State :=
  let st1 : State := { st with log := st.log ++ [Event.get_user addr size] }
  match K.get_user addr size with
  | none => (-EFAULT, 0, st1)
  | some v => (0, v % 2 ^ (8 * size), st1)

/-- Store the fields of `*spi` back into the state. -/
def State.set_spi (st : State) (spi : spi_device) : State :=
  { st with dev := { st.dev with spi := some spi } }

/-- A call of `spi_setup(spi)`: its status, and the call in the trace. -/
def spi_setup_status (K : Kernel) (st : State) (spi : spi_device) : Int × State :=
  (K.spi_setup spi, { st with log := st.log ++ [Event.spi_setup spi] })

/-- The complement `~x` of a 32-bit value. -/
def not32 (x : Nat) : Nat := (UINT_RANGE - 1) ^^^ (x % UINT_RANGE)

/-- The `switch (cmd)` of `st54spi_ioctl`, entered with `spi` non-NULL; the
result is `retval` and the state at the `break`. -/
def st54spi_ioctl_switch (K : Kernel) (st : State) (spi : spi_device) (cmd arg : Nat) :
    Int × State :=
  /- read requests -/
  if cmd = SPI_IOC_RD_MODE then
    put_user_status K st (spi.mode &&& SPI_MODE_MASK) arg 1
  else if cmd = SPI_IOC_RD_MODE32 then
    put_user_status K st (spi.mode &&& SPI_MODE_MASK) arg 4
  else if cmd = SPI_IOC_RD_LSB_FIRST then
    put_user_status K st (if spi.mode &&& SPI_LSB_FIRST ≠ 0 then 1 else 0) arg 1
  else if cmd = SPI_IOC_RD_BITS_PER_WORD then
    put_user_status K st spi.bits_per_word arg 1
  else if cmd = SPI_IOC_RD_MAX_SPEED_HZ then
    put_user_status K st st.dev.speed_hz arg 4
  else if cmd = ST54SPI_IOC_RD_POWER then
    let (v, st1) := st54spi_power_get K st
    put_user_status K st1 (v % (UINT_RANGE : Int)).toNat arg 4
  /- write requests -/
  else if cmd = SPI_IOC_WR_MODE ∨ cmd = SPI_IOC_WR_MODE32 then
    let (retval, tmp, st1) :=
      if cmd = SPI_IOC_WR_MODE then get_user_status K st arg 1
      else get_user_status K st arg 4
    if retval = 0 then
      let save := spi.mode
      if tmp &&& not32 SPI_MODE_MASK ≠ 0 then (-EINVAL, st1)
      else
        let tmp1 := tmp ||| (spi.mode &&& not32 SPI_MODE_MASK)
        let spi1 := { spi with mode := tmp1 % 2 ^ 16 }
        let (retval1, st2) := spi_setup_status K (st1.set_spi spi1) spi1
        if retval1 < 0 then (retval1, st2.set_spi { spi1 with mode := save })
        else (retval1, st2)
    else (retval, st1)
  else if cmd = SPI_IOC_WR_LSB_FIRST then
    let (retval, tmp, st1) := get_user_status K st arg 1
    if retval = 0 then
      let save := spi.mode
      let spi1 :=
        if tmp ≠ 0 then { spi with mode := spi.mode ||| SPI_LSB_FIRST }
        else { spi with mode := spi.mode &&& (not32 SPI_LSB_FIRST % 2 ^ 16) }
      let (retval1, st2) := spi_setup_status K (st1.set_spi spi1) spi1
      if retval1 < 0 then (retval1, st2.set_spi { spi1 with mode := save })
      else (retval1, st2)
    else (retval, st1)
  else if cmd = SPI_IOC_WR_BITS_PER_WORD then
    let (retval, tmp, st1) := get_user_status K st arg 1
    if retval = 0 then
      let save := spi.bits_per_word
      let spi1 := { spi with bits_per_word := tmp % 2 ^ 8 }
      let (retval1, st2) := spi_setup_status K (st1.set_spi spi1) spi1
      if retval1 < 0 then (retval1, st2.set_spi { spi1 with bits_per_word := save })
      else (retval1, st2)
    else (retval, st1)
  else if cmd = SPI_IOC_WR_MAX_SPEED_HZ then
    let (retval, tmp, st1) := get_user_status K st arg 4
    if retval = 0 then
      let save := spi.max_speed_hz
      let spi1 := { spi with max_speed_hz := tmp }
      let (retval1, st2) := spi_setup_status K (st1.set_spi spi1) spi1
      let st3 : State :=
        if retval1 ≥ 0 then { st2 with dev := { st2.dev with speed_hz := tmp } } else st2
      (retval1, { st3 with dev := { st3.dev with spi := some { spi1 with max_speed_hz := save } } })
    else (retval, st1)
  else if cmd = ST54SPI_IOC_WR_POWER then
    let (retval, tmp, st1) := get_user_status K st arg 4
    if retval = 0 then (retval, st54spi_power_set st1 (if tmp ≠ 0 then 1 else 0))
    else (retval, st1)
  else
    /- segmented and/or full-duplex I/O request -/
    match (st54spi_get_ioc_message K cmd arg).1 with
    | .err_ptr e => (e, st)
    | .null => (0, st)
    | .ioc xs => st54spi_message K st xs

/-- The function `st54spi_ioctl(filp, cmd, arg)`, on the `st54spi_data` in
`filp->private_data`.
```c
	int			err = 0;
	int			retval = 0;

	if (_IOC_TYPE(cmd) != SPI_IOC_MAGIC)
		return -ENOTTY;

	if (_IOC_DIR(cmd) & _IOC_READ)
		err = !access_ok(VERIFY_WRITE,
				(void __user *)arg, _IOC_SIZE(cmd));
	if (err == 0 && _IOC_DIR(cmd) & _IOC_WRITE)
		err = !access_ok(VERIFY_READ,
				(void __user *)arg, _IOC_SIZE(cmd));
	if (err)
		return -EFAULT;

	st54spi = filp->private_data;
	spi = spi_dev_get(st54spi->spi);
	if (spi == NULL)
		return -ESHUTDOWN;

	switch (cmd) { ... }
	return retval;
```
-/
def st54spi_ioctl (K : Kernel) (st : State) (cmd arg : Nat) : Int × State :=
  if _IOC_TYPE cmd ≠ SPI_IOC_MAGIC then (-ENOTTY, st)
  else
    let err0 : Bool :=
      if _IOC_DIR cmd &&& _IOC_READ ≠ 0 then !K.access_ok VERIFY_WRITE arg (_IOC_SIZE cmd)
      else false
    let err : Bool :=
      if err0 = false ∧ _IOC_DIR cmd &&& _IOC_WRITE ≠ 0 then
        !K.access_ok VERIFY_READ arg (_IOC_SIZE cmd)
      else err0
    if err then (-EFAULT, st)
    else
      match st.dev.spi with
      | none => (-ESHUTDOWN, st)
      | some spi => st54spi_ioctl_switch K st spi cmd arg

/-- The function `st54spi_remove(spi)`, on the driver data of `spi`.
```c
	st21nfc_unregister_reset_cb();

	/* make sure ops on existing fds can abort cleanly */
	st54spi->spi = NULL;

	/* prevent new opens */
	list_del(&st54spi->device_entry);
	device_destroy(st54spi_class, st54spi->devt);
	clear_bit(MINOR(st54spi->devt), minors);
	if (st54spi->users == 0)
		kfree(st54spi);
	return 0;
```
-/
def st54spi_remove (st : State) : Int × State :=
  let st1 : State :=
    { st with
      dev := { st.dev with spi := none },
      log := st.log ++ [Event.st21nfc_unregister_reset_cb, Event.device_destroy] }
  if st1.dev.users = 0 then (0, { st1 with log := st1.log ++ [Event.kfree_st54spi] })
  else (0, st1)

/-- The function `st54spi_open(inode, filp)`.  `found` tells whether the walk
over `device_list` finds the device whose `devt` is `inode->i_rdev` (the state
is the driver data of that device); `tx_alloc` and `rx_alloc` are what the two
`kmalloc(bufsiz, GFP_KERNEL)` calls return when they are reached (`none` is
NULL, otherwise the buffer with whatever bytes it holds).
```c
	int			status = -ENXIO;

	list_for_each_entry(st54spi, &device_list, device_entry) {
		if (st54spi->devt == inode->i_rdev) {
			status = 0;
			break;
		}
	}
	if (status)
		goto err_find_dev;

	if (!st54spi->tx_buffer) {
		st54spi->tx_buffer = kmalloc(bufsiz, GFP_KERNEL);
		if (!st54spi->tx_buffer) {
			status = -ENOMEM;
			goto err_find_dev;
		}
	}
	if (!st54spi->rx_buffer) {
		st54spi->rx_buffer = kmalloc(bufsiz, GFP_KERNEL);
		if (!st54spi->rx_buffer) {
			status = -ENOMEM;
			goto err_alloc_rx_buf;
		}
	}
	st54spi->users++;
	filp->private_data = st54spi;
	return 0;

err_alloc_rx_buf:
	kfree(st54spi->tx_buffer);
	st54spi->tx_buffer = NULL;
err_find_dev:
	return status;
```
-/
def st54spi_open (st : State) (found : Bool) (tx_alloc rx_alloc : Option (List u8)) :
    Int × State :=
  if !found then (- ENXIO, st)
  else
    let st1 : State :=
      if st.dev.tx_buffer.isNone then { st with dev := { st.dev with tx_buffer := tx_alloc } }
      else st
    if st1.dev.tx_buffer.isNone then (-ENOMEM, st1)
    else
      let st2 : State :=
        if st1.dev.rx_buffer.isNone then
          { st1 with dev := { st1.dev with rx_buffer := rx_alloc } }
        else st1
      if st2.dev.rx_buffer.isNone then
        (-ENOMEM, { st2 with dev := { st2.dev with tx_buffer := none } })
      else
        (0, { st2 with dev := { st2.dev with users := (st2.dev.users + 1) % UINT_RANGE } })

/-- The decrement `x--` of an `unsigned` value `x`: it is `x - 1` modulo
`2 ^ 32`, so that `0` wraps to `UINT_MAX`. -/
def unsigned_dec (x : Nat) : Nat :=
  if x = 0 then UINT_RANGE - 1 else x - 1

/-- The function `st54spi_release(inode, filp)`, on the driver data in
`filp->private_data`; `users` is an `unsigned`.
```c
	st54spi = filp->private_data;
	filp->private_data = NULL;

	/* last close? */
	st54spi->users--;
	if (!st54spi->users) {
		int		dofree;

		kfree(st54spi->tx_buffer);
		st54spi->tx_buffer = NULL;

		kfree(st54spi->rx_buffer);
		st54spi->rx_buffer = NULL;

		if (st54spi->spi)
			st54spi->speed_hz = st54spi->spi->max_speed_hz;

		/* ... after we unbound from the underlying device? */
		dofree = ((st54spi->spi == NULL)
			&& (st54spi->spi_reset == NULL));

		if (dofree)
			kfree(st54spi);
	}
	return 0;
```
-/
def st54spi_release (st : State) : Int × State :=
  let users := unsigned_dec st.dev.users
  let st1 : State := { st with dev := { st.dev with users := users } }
  if st1.dev.users = 0 then
    let st2 : State :=
      { st1 with dev := { st1.dev with tx_buffer := none, rx_buffer := none } }
    let st3 : State :=
      match st2.dev.spi with
      | some spi => { st2 with dev := { st2.dev with speed_hz := spi.max_speed_hz } }
      | none => st2
    let dofree : Bool := st3.dev.spi.isNone && st3.dev.spi_reset.isNone
    if dofree then (0, { st3 with log := st3.log ++ [Event.kfree_st54spi] })
    else (0, st3)
  else (0, st1)

/-- The states of a device between probe and removal, as far as its file
operations open and close it: a freshly probed device (no users, both buffers
NULL), followed by any sequence of `st54spi_open` calls, each with any outcome
of the device lookup and of the two allocations, and of `st54spi_release` calls
on a device that has a user.  The `unsigned` counter `users` is taken not to
wrap: fewer than `2 ^ 32 - 1` files are open at a time. -/
inductive OpenReachable : State → Prop where
  | probed (st : State) :
      st.dev.users = 0 → st.dev.tx_buffer = none → st.dev.rx_buffer = none →
      OpenReachable st
  | opened {st : State} (found : Bool) (tx_alloc rx_alloc : Option (List u8)) :
      OpenReachable st → st.dev.users + 1 < UINT_RANGE →
      OpenReachable (st54spi_open st found tx_alloc rx_alloc).2
  | released {st : State} :
      OpenReachable st → 0 < st.dev.users → OpenReachable (st54spi_release st).2

/-- The bounce buffers match the open count: both are NULL when the device has
no user, and both are allocated when it has one. -/
def BuffersMatchUsers (st : State) : Prop :=
  (st.dev.users = 0 → st.dev.tx_buffer = none ∧ st.dev.rx_buffer = none) ∧
  (0 < st.dev.users → st.dev.tx_buffer.isSome = true ∧ st.dev.rx_buffer.isSome = true)

/-- The zero-length transfer `{ .tx_buf = NULL, .len = 0, .speed_hz =
st54spi->speed_hz }` the reset callback sends. -/
def reset_cb_transfer (st : State) : spi_transfer :=
  { tx_buf := none, len := 0, speed_hz := st.dev.speed_hz }

/-- The function `st54spi_st21nfc_reset_cb(dir, data)`; `data` is the
`struct st54spi_data *` registered with the st21nfc driver (`none` is NULL).
The `usleep_range` calls are left out.
```c
	struct st54spi_data	*st54spi = (struct st54spi_data	*)data;

	if (!st54spi)
		return;

	if (dir == 1) {
		if (st54spi->spi && st54spi->spi->controller_data) {
			struct mtk_chip_config *orig_chip_config =
				st54spi->spi->controller_data;
			struct mtk_chip_config st54spi_chip_info = {
				.rx_mlsb = orig_chip_config->rx_mlsb,
				.tx_mlsb = orig_chip_config->tx_mlsb,
				.cs_pol = 1 - orig_chip_config->cs_pol,
				.sample_sel = orig_chip_config->sample_sel,
			};
			struct spi_transfer	t = {
					.tx_buf		= NULL,
					.len		= 0,
					.speed_hz	= st54spi->speed_hz,
				};
			struct spi_message	m;

			spi_message_init(&m);
			spi_message_add_tail(&t, &m);

			st54spi->spi->controller_data = &st54spi_chip_info;
			st54spi_sync(st54spi, &m);
			st54spi->spi->controller_data = orig_chip_config;
		}
		if (st54spi->power_gpio)
			gpio_set_value(st54spi->power_gpio, 0);

		if (st54spi->spi) {
			st54spi->spi_reset = st54spi->spi;
			st54spi->spi = NULL;
		}
	} else {
		if (st54spi->power_gpio)
			gpio_set_value(st54spi->power_gpio, 1);

		if (st54spi->spi_reset) {
			st54spi->spi = st54spi->spi_reset;
			st54spi->spi_reset = NULL;
		}
		if (st54spi->spi) {
			struct spi_transfer	t = {
					.tx_buf		= NULL,
					.len		= 0,
					.speed_hz	= st54spi->speed_hz,
				};
			struct spi_message	m;

			spi_message_init(&m);
			spi_message_add_tail(&t, &m);
			st54spi_sync(st54spi, &m);
		}
	}
```
-/
def st54spi_st21nfc_reset_cb (K : Kernel) (dir : Int) (data : Option State) :
    Option State :=
  match data with
  | none => none
  | some st =>
    if dir = 1 then
      let st1 : State :=
        match st.dev.spi with
        | none => st
        | some spi =>
          match spi.controller_data with
          | none => st
          | some orig_chip_config =>
            let st54spi_chip_info : mtk_chip_config :=
              { rx_mlsb := orig_chip_config.rx_mlsb,
                tx_mlsb := orig_chip_config.tx_mlsb,
                cs_pol := (1 + (UINT_RANGE - orig_chip_config.cs_pol % UINT_RANGE)) % UINT_RANGE,
                sample_sel := orig_chip_config.sample_sel }
            let sta := st.set_spi { spi with controller_data := some st54spi_chip_info }
            let stb := (st54spi_sync K sta [reset_cb_transfer st]).2
            match stb.dev.spi with
            | none => stb
            | some spi_b => stb.set_spi { spi_b with controller_data := some orig_chip_config }
      let st2 : State :=
        if st1.dev.power_gpio ≠ 0 then gpio_set st1 st1.dev.power_gpio 0 else st1
      let st3 : State :=
        match st2.dev.spi with
        | none => st2
        | some spi => { st2 with dev := { st2.dev with spi_reset := some spi, spi := none } }
      some st3
    else
      let st1 : State :=
        if st.dev.power_gpio ≠ 0 then gpio_set st st.dev.power_gpio 1 else st
      let st2 : State :=
        match st1.dev.spi_reset with
        | none => st1
        | some spi_reset =>
          { st1 with dev := { st1.dev with spi := some spi_reset, spi_reset := none } }
      let st3 : State :=
        match st2.dev.spi with
        | none => st2
        | some _ => (st54spi_sync K st2 [reset_cb_transfer st2]).2
      some st3

/-- The bytes a user transfer takes in the RX bounce buffer: `len` when it has
an `rx_buf`, none otherwise. -/
def rx_len (u : spi_ioc_transfer) : Nat := if u.rx_buf ≠ 0 then u.len else 0

/-- The bytes a user transfer takes in the TX bounce buffer: `len` when it has
a `tx_buf`, none otherwise. -/
def tx_len (u : spi_ioc_transfer) : Nat := if u.tx_buf ≠ 0 then u.len else 0

/-- What the construction loop of `st54spi_message` keeps true of its local
variables: `total` is at most `INT_MAX`, `rx_total` and `tx_total` are at most
`total` and at most `bufsiz`, and each cursor stands as many bytes into its
bounce buffer as its total counts. -/
def MsgLoop.Inv (K : Kernel) (l : MsgLoop) : Prop :=
  l.total ≤ INT_MAX ∧ l.rx_total ≤ l.total ∧ l.tx_total ≤ l.total ∧
  l.rx_total ≤ K.bufsiz ∧ l.tx_total ≤ K.bufsiz ∧
  l.rx_buf = l.rx_total ∧ l.tx_buf = l.tx_total

/-- The argument of an ioctl passes the `access_ok` checks at the head of
`st54spi_ioctl`. -/
def arg_accessible (K : Kernel) (cmd arg : Nat) : Prop :=
  (_IOC_DIR cmd &&& _IOC_READ ≠ 0 → K.access_ok VERIFY_WRITE arg (_IOC_SIZE cmd) = true) ∧
  (_IOC_DIR cmd &&& _IOC_WRITE ≠ 0 → K.access_ok VERIFY_READ arg (_IOC_SIZE cmd) = true)

/-! ### Concrete inputs used by the examples -/

/-- A kernel with 16-byte bounce buffers in which every call succeeds and a
transfer moves all of its bytes. -/
def demo_kernel : Kernel :=
  { bufsiz := 16,
    spi_sync := fun _ xs rx =>
      { status := 0, actual_length := (xs.map (·.len)).sum, rx_bytes := rx.getD [] },
    copy_to_user := fun _ _ => 0,
    copy_from_user := fun _ n => (0, List.replicate n 0),
    access_ok := fun _ _ _ => true,
    get_user := fun _ _ => some 0,
    put_user := fun _ _ _ => true,
    spi_setup := fun _ => 0,
    gpio_get_value := fun _ => 0,
    kcalloc := fun _ => true,
    kmalloc := fun _ => true,
    user_xfer := fun _ _ => {},
    copy_ioc := fun _ _ => true }

/-- An opened device bound to its SPI device. -/
def demo_open : State :=
  { dev :=
      { spi := some { max_speed_hz := 1000000 }, users := 1,
        tx_buffer := some (List.replicate 16 0), rx_buffer := some (List.replicate 16 0),
        speed_hz := 1000000 } }

/-- Two user transfers: 3 bytes to send, then 5 bytes to receive. -/
def demo_xfers : List spi_ioc_transfer :=
  [{ tx_buf := 4096, len := 3 }, { rx_buf := 8192, len := 5 }]

/-- Two user transfers, the second one longer than `INT_MAX`. -/
def demo_xfers_long : List spi_ioc_transfer :=
  [{ tx_buf := 4096, len := 3 }, { rx_buf := 8192, len := 2147483648 }]

/-- The same device after `st54spi_remove`: still open, no SPI device. -/
def demo_removed : State := (st54spi_remove demo_open).2

/-- Two user transfers: 3 bytes to receive, then 5 bytes to send and receive. -/
def demo_xfers_duplex : List spi_ioc_transfer :=
  [{ rx_buf := 8192, len := 3 }, { tx_buf := 4096, rx_buf := 8200, len := 5 }]

/-- The local variables of `st54spi_message` after its construction loop over
`demo_xfers_duplex` on the opened device. -/
def demo_loop : MsgLoop :=
  match st54spi_message_build demo_kernel { st := demo_open } demo_xfers_duplex with
  | .ok l => l
  | .error e => { st := e.2 }

/-- A device bound to its SPI device that nobody has opened. -/
def demo_probed : State :=
  { dev := { spi := some { max_speed_hz := 1000000 }, speed_hz := 1000000 } }

/-- The device of `demo_probed` after one `st54spi_open` whose two allocations
succeed. -/
def demo_opened : State :=
  (st54spi_open demo_probed true (some (List.replicate 16 0))
    (some (List.replicate 16 0))).2

/-- The kernel of `demo_kernel` in which `__get_user` reads the value 1. -/
def demo_kernel_one : Kernel := { demo_kernel with get_user := fun _ _ => some 1 }

/-- The opened device with its power-request line on GPIO 5; the line is low. -/
def demo_power : State := { demo_open with dev := { demo_open.dev with power_gpio := 5 } }

/-- The device of `demo_power` once the line has been driven high with
`gpio_set_value(st54spi->power_gpio, 1)`, as `st54spi_probe` and the reset
callback with `dir != 1` do. -/
def demo_power_on : State := gpio_set demo_power 5 1

/-- The value of `*((char *) p)` for the byte `b`: the byte itself where `char`
is unsigned (the ARM ABIs this driver is built for), and the byte minus 256
from `0x80` on where `char` is signed. -/
def char_of_u8 (char_signed : Bool) (b : u8) : Int :=
  if char_signed = true ∧ 128 ≤ b.val then (b.val : Int) - 256 else (b.val : Int)

/-- The inner loop of `spi_loopback_check` over the transmitted byte `tx`,
starting from `value = 0`.
```c
			for (j = 7; j >= 0; j--)
				value |= ((*((u8 *)trans->tx_buf + i)
					  & (1 << j)) >> j) << (7-j);
```
-/
def loopback_reversed (tx : Nat) : Nat :=
  [7, 6, 5, 4, 3, 2, 1, 0].foldl
    (fun value j => value ||| (((tx &&& (1 <<< j)) >>> j) <<< (7 - j))) 0

/-- The `value` that `spi_loopback_check` expects for the transmitted byte.
```c
		value = 0;
		if (chip_config->tx_mlsb ^ chip_config->rx_mlsb) {
			... the inner loop ...
		} else {
			value = *((u8 *) trans->tx_buf + i);
		}
```
-/
def loopback_value (chip_config : mtk_chip_config) (tx : u8) : Int :=
  if chip_config.tx_mlsb ^^^ chip_config.rx_mlsb ≠ 0 then (loopback_reversed tx.val : Int)
  else (tx.val : Int)

/-- The function `spi_loopback_check(spi, trans)`, on `spi->controller_data`,
`trans->len` and the bytes of `trans->tx_buf` and `trans->rx_buf`; the `int`
counter `err` is kept modulo `2 ^ 32`.  The `pr_info` output is left out.
```c
	int i, j, value, err = 0;
	struct mtk_chip_config *chip_config = spi->controller_data;

	for (i = 0; i < trans->len; i++) {
		... value ...
		if (value != *((char *) trans->rx_buf + i))
			err++;
	}
	...
	if (err)
		return -1;
	else
		return 0;
```
-/
def spi_loopback_check (char_signed : Bool) (chip_config : mtk_chip_config) (len : Nat)
    (tx_buf rx_buf : List u8) : Int :=
  let err : Nat :=
    (List.range len).foldl
      (fun err i =>
        if loopback_value chip_config (tx_buf.getD i 0)
            ≠ char_of_u8 char_signed (rx_buf.getD i 0) then (err + 1) % UINT_RANGE
        else err) 0
  if err ≠ 0 then -1 else 0

/-- The function `spi_transfer_malloc(trans)`: the two zeroed buffers of
`trans->len` bytes, the first filled with `i + 0x1` stored as a `char`.
```c
	trans->tx_buf = kzalloc(trans->len, GFP_KERNEL);
	trans->rx_buf = kzalloc(trans->len, GFP_KERNEL);

	for (i = 0; i < trans->len; i++)
		*((char *)trans->tx_buf + i) = i + 0x1;
```
-/
def spi_transfer_malloc (len : Nat) : List u8 × List u8 :=
  ((List.range len).map (fun i => Fin.ofNat (i + 1)), List.replicate len 0)

/-! ### `st54spi.c`: `st54spi_probe` -/

/-- `#define N_SPI_MINORS 1`. -/
def N_SPI_MINORS : Nat := 1

/-- The fields of `struct st54spi_data` that `st54spi_probe` reads or writes. -/
inductive DataField where
  | spi
  | spi_lock
  | buf_lock
  | device_entry
  | devt
  | speed_hz
  | power_gpio
  deriving DecidableEq, Repr

/-- What `st54spi_probe` does with the driver data it allocated and with the
rest of the kernel, in the order it does it: `store f` is a write to
`st54spi->f` and `load f` a read of it. -/
inductive ProbeEvent where
  | store (f : DataField)
  | load (f : DataField)
  | device_create
  | set_bit
  | list_add
  | spi_set_drvdata
  | kfree
  | gpio_request (gpio : Int)
  | gpio_direction_output (gpio : Int) (value : Int)
  | gpio_set_value (gpio : Int) (value : Int)
  | st21nfc_register_reset_cb
  deriving DecidableEq, Repr

/-- What `st54spi_parse_dt` finds in the device tree: no `"st,st54spi"` node,
a node without a usable power GPIO, or the number of the power GPIO. -/
inductive DtLookup where
  | no_node
  | no_gpio
  | gpio (g : Int)
  deriving DecidableEq, Repr

/-- The function `st54spi_parse_dt(dev, pdata)`: its return value, the driver
data after it, and its accesses to the driver data.
```c
	np = of_find_compatible_node(NULL, NULL, "st,st54spi");

	if (np) {
		r = of_get_named_gpio(np, "gpio-power-std", 0);
		if (r < 0)
			pr_info("%s: get ST54 failed (%d)", __FILE__, r);
		else
			pdata->power_gpio = r;
		r = 0;
	} else {
		pr_info("%s : get num err.\n", __func__);
		return -1;
	}

	pr_info(
	    "[dsc]%s : get power_gpio[%d]\n",
	    __func__, pdata->power_gpio);
	return r;
```
With `CONFIG_MTK_GPIO` the store is made by `of_property_read_u32_array(np,
"gpio-power", &(pdata->power_gpio), 1)` instead. -/
def st54spi_parse_dt (dt : DtLookup) (pdata : st54spi_data) :
    Int × st54spi_data × List ProbeEvent :=
  match dt with
  | .no_node => (-1, pdata, [])
  | .no_gpio => (0, pdata, [.load .power_gpio])
  | .gpio g => (0, { pdata with power_gpio := g }, [.store .power_gpio, .load .power_gpio])

/-- What `st54spi_probe` leaves behind: its return value, the driver data as
last written (`none` when it was never allocated), whether the driver data was
freed, whether it was made the `drvdata` of the SPI device, whether the reset
callback was registered with the driver data as its argument, the SPI device,
and the trace. -/
structure ProbeResult where
  status : Int
  data : Option st54spi_data
  freed : Bool
  drvdata : Bool
  registered : Bool
  spi : spi_device
  trace : List ProbeEvent

/-- The function `st54spi_probe(spi)`.  `kzalloc_ok` tells whether the
allocation of the driver data succeeds, `minor` is what
`find_first_zero_bit(minors, N_SPI_MINORS)` returns, `device_create` is
`PTR_ERR_OR_ZERO(dev)` of the `device_create` call, `dt` is what the device
tree holds.
```c
	struct mtk_chip_config *chip_config = spi->controller_data;

	st54spi = kzalloc(sizeof(*st54spi), GFP_KERNEL);
	if (!st54spi)
		return -ENOMEM;

	st54spi->spi = spi;
	spin_lock_init(&st54spi->spi_lock);
	mutex_init(&st54spi->buf_lock);
	INIT_LIST_HEAD(&st54spi->device_entry);

	minor = find_first_zero_bit(minors, N_SPI_MINORS);
	if (minor < N_SPI_MINORS) {
		st54spi->devt = MKDEV(spidev_major, minor);
		dev = device_create(st54spi_class, &spi->dev, st54spi->devt,
				    st54spi, "st54spi");
		status = PTR_ERR_OR_ZERO(dev);
	} else {
		status = -ENODEV;
	}
	if (status == 0) {
		set_bit(minor, minors);
		list_add(&st54spi->device_entry, &device_list);
	}

	st54spi->speed_hz = spi->max_speed_hz;
	{
		int period = DIV_ROUND_UP(109200000, st54spi->speed_hz);

		st54spi_chip_info.cs_idletime = period;
		st54spi_chip_info.cs_holdtime = period;
	}

	if (chip_config == NULL) {
		spi->controller_data = (void *)&st54spi_chip_info;
	} else {
		chip_config->cs_setuptime = st54spi_chip_info.cs_setuptime;
		chip_config->cs_idletime = st54spi_chip_info.cs_idletime;
		chip_config->cs_holdtime = st54spi_chip_info.cs_holdtime;
	}

	if (status == 0)
		spi_set_drvdata(spi, st54spi);
	else
		kfree(st54spi);

	spi_create_attribute(&spi->dev);

	(void)st54spi_parse_dt(&spi->dev, st54spi);

	if (st54spi->power_gpio != 0) {
		ret = gpio_request(st54spi->power_gpio, "gpio-power-std");
		pr_info("%s : power GPIO = %d\n", __func__, st54spi->power_gpio);
		ret = gpio_direction_output(st54spi->power_gpio, 1);
		/* active high */
		gpio_set_value(st54spi->power_gpio, 1);
	}

	st21nfc_register_reset_cb(st54spi_st21nfc_reset_cb, st54spi);

	return status;
```
The static `st54spi_chip_info` is `{ .cs_setuptime = 12012 }`. -/
def st54spi_probe (spi : spi_device) (kzalloc_ok : Bool) (minor : Nat) (device_create : Int)
    (dt : DtLookup) : ProbeResult :=
  if !kzalloc_ok then
    { status := -ENOMEM, data := none, freed := false, drvdata := false,
      registered := false, spi := spi, trace := [] }
  else
    let d0 : st54spi_data := { spi := some spi }
    let t0 : List ProbeEvent :=
      [.store .spi, .store .spi_lock, .store .buf_lock, .store .device_entry]
    let status : Int := if minor < N_SPI_MINORS then device_create else -ENODEV
    let t1 : List ProbeEvent :=
      if minor < N_SPI_MINORS then t0 ++ [.store .devt, .load .devt, .device_create] else t0
    let t2 : List ProbeEvent := if status = 0 then t1 ++ [.set_bit, .list_add] else t1
    let d1 : st54spi_data := { d0 with speed_hz := spi.max_speed_hz }
    let period : Nat := (109200000 + d1.speed_hz - 1) % UINT_RANGE / d1.speed_hz
    let t3 : List ProbeEvent := t2 ++ [.store .speed_hz, .load .speed_hz]
    let chip_config : mtk_chip_config :=
      match spi.controller_data with
      | none => { cs_setuptime := 12012, cs_idletime := period, cs_holdtime := period }
      | some c => { c with cs_setuptime := 12012, cs_idletime := period, cs_holdtime := period }
    let spi1 : spi_device := { spi with controller_data := some chip_config }
    let t4 : List ProbeEvent := t3 ++ [if status = 0 then .spi_set_drvdata else .kfree]
    let parsed := st54spi_parse_dt dt d1
    let d2 : st54spi_data := parsed.2.1
    let t5 : List ProbeEvent := t4 ++ parsed.2.2 ++ [.load .power_gpio]
    let t6 : List ProbeEvent :=
      if d2.power_gpio ≠ 0 then
        t5 ++ [.load .power_gpio, .gpio_request d2.power_gpio, .load .power_gpio,
          .load .power_gpio, .gpio_direction_output d2.power_gpio 1,
          .load .power_gpio, .gpio_set_value d2.power_gpio 1]
      else t5
    { status := status, data := some { d2 with spi := some spi1 },
      freed := decide (status ≠ 0), drvdata := decide (status = 0), registered := true,
      spi := spi1, trace := t6 ++ [.st21nfc_register_reset_cb] }

/-- An event reads or writes the driver data. -/
def ProbeEvent.accesses_data : ProbeEvent → Bool
  | .store _ => true
  | .load _ => true
  | .list_add => true
  | _ => false

/-- The events of a trace that follow its first `kfree`; none when the driver
data is never freed. -/
def after_kfree : List ProbeEvent → List ProbeEvent
  | [] => []
  | .kfree :: rest => rest
  | _ :: rest => after_kfree rest

/-- A device with no `controller_data` and a 1 MHz clock. -/
def demo_spi : spi_device := { max_speed_hz := 1000000 }

/-- The kernel of `demo_kernel` in which `spi_setup` fails with `-EINVAL`. -/
def demo_kernel_setup_fails : Kernel := { demo_kernel with spi_setup := fun _ => -EINVAL }

/-- The kernel of `demo_kernel` in which `__get_user` faults. -/
def demo_kernel_fault : Kernel := { demo_kernel with get_user := fun _ _ => none }

/-- The kernel of `demo_kernel` in which `__get_user` reads `0x1000`, a bit
outside `SPI_MODE_MASK`. -/
def demo_kernel_bad_mode : Kernel := { demo_kernel with get_user := fun _ _ => some 0x1000 }

/-- The kernel of `demo_kernel` in which `copy_to_user` leaves one byte
uncopied. -/
def demo_kernel_partial : Kernel := { demo_kernel with copy_to_user := fun _ _ => 1 }

end St54Spi

namespace NtSmcCall

/-! ### `nt_smc_call.h`: the fields of an SMC call ID -/

def ID_FIELD_F_FAST_SMC_CALL : Nat := 1
def ID_FIELD_F_STANDARD_SMC_CALL : Nat := 0
def ID_FIELD_W_64 : Nat := 1
def ID_FIELD_W_32 : Nat := 0

def ID_FIELD_T_ARM_SERVICE : Nat := 0
def ID_FIELD_T_CPU_SERVICE : Nat := 1
def ID_FIELD_T_SIP_SERVICE : Nat := 2
def ID_FIELD_T_OEM_SERVICE : Nat := 3
def ID_FIELD_T_STANDARD_SERVICE : Nat := 4
def ID_FIELD_T_TA_SERVICE0 : Nat := 48
def ID_FIELD_T_TA_SERVICE1 : Nat := 49
def ID_FIELD_T_TRUSTED_OS_SERVICE0 : Nat := 50
def ID_FIELD_T_TRUSTED_OS_SERVICE1 : Nat := 51
def ID_FIELD_T_TRUSTED_OS_SERVICE2 : Nat := 52
def ID_FIELD_T_TRUSTED_OS_SERVICE3 : Nat := 53

/-- The service-type constants `ID_FIELD_T_*` the header defines, in the order
of their definition. -/
def service_types : List Nat :=
  [ID_FIELD_T_ARM_SERVICE, ID_FIELD_T_CPU_SERVICE, ID_FIELD_T_SIP_SERVICE,
   ID_FIELD_T_OEM_SERVICE, ID_FIELD_T_STANDARD_SERVICE, ID_FIELD_T_TA_SERVICE0,
   ID_FIELD_T_TA_SERVICE1, ID_FIELD_T_TRUSTED_OS_SERVICE0, ID_FIELD_T_TRUSTED_OS_SERVICE1,
   ID_FIELD_T_TRUSTED_OS_SERVICE2, ID_FIELD_T_TRUSTED_OS_SERVICE3]

/-- The macro
`#define MAKE_SMC_CALL_ID(F, W, T, FN) (((F)<<31)|((W)<<30)|((T)<<24)|(FN))`,
as the 32-bit word it evaluates to. -/
def MAKE_SMC_CALL_ID (F W T FN : Nat) : Nat :=
  ((F <<< 31) ||| (W <<< 30) ||| (T <<< 24) ||| FN) % 2 ^ 32

/-- Bit 31 of a call ID: the fast-call flag. -/
def smc_field_F (id : Nat) : Nat := (id >>> 31) &&& 1

/-- Bit 30 of a call ID: the 64-bit flag. -/
def smc_field_W (id : Nat) : Nat := (id >>> 30) &&& 1

/-- Bits 29..24 of a call ID: the service type. -/
def smc_field_T (id : Nat) : Nat := (id >>> 24) &&& 0x3F

/-- Bits 23..0 of a call ID: the function number. -/
def smc_field_FN (id : Nat) : Nat := id &&& 0xFFFFFF

/-! ### `nt_smc_call.h`: the call IDs -/

def N_GET_T_FP_DEVICE_ID : Nat :=
  MAKE_SMC_CALL_ID ID_FIELD_F_FAST_SMC_CALL ID_FIELD_W_64 ID_FIELD_T_TRUSTED_OS_SERVICE2 11
def N_ACK_T_INVOKE_DRV_CMD : Nat :=
  MAKE_SMC_CALL_ID ID_FIELD_F_STANDARD_SMC_CALL ID_FIELD_W_64 ID_FIELD_T_TRUSTED_OS_SERVICE3 5
def N_INVOKE_T_LOAD_TEE_CMD : Nat :=
  MAKE_SMC_CALL_ID ID_FIELD_F_STANDARD_SMC_CALL ID_FIELD_W_64 ID_FIELD_T_TRUSTED_OS_SERVICE3 6
def N_INVOKE_T_NQ_CMD : Nat :=
  MAKE_SMC_CALL_ID ID_FIELD_F_STANDARD_SMC_CALL ID_FIELD_W_64 ID_FIELD_T_TRUSTED_OS_SERVICE3 2
def N_SWITCH_TO_T_OS_STAGE2 : Nat :=
  MAKE_SMC_CALL_ID ID_FIELD_F_FAST_SMC_CALL ID_FIELD_W_32 ID_FIELD_T_TRUSTED_OS_SERVICE2 0
def N_GET_PARAM_IN : Nat :=
  MAKE_SMC_CALL_ID ID_FIELD_F_FAST_SMC_CALL ID_FIELD_W_32 ID_FIELD_T_TRUSTED_OS_SERVICE2 1
def N_INIT_T_FC_BUF : Nat :=
  MAKE_SMC_CALL_ID ID_FIELD_F_FAST_SMC_CALL ID_FIELD_W_32 ID_FIELD_T_TRUSTED_OS_SERVICE2 2
def N_INVOKE_T_FAST_CALL : Nat :=
  MAKE_SMC_CALL_ID ID_FIELD_F_FAST_SMC_CALL ID_FIELD_W_32 ID_FIELD_T_TRUSTED_OS_SERVICE2 3
def NT_DUMP_STATE : Nat :=
  MAKE_SMC_CALL_ID ID_FIELD_F_FAST_SMC_CALL ID_FIELD_W_32 ID_FIELD_T_TRUSTED_OS_SERVICE2 4
def N_ACK_T_FOREGROUND : Nat :=
  MAKE_SMC_CALL_ID ID_FIELD_F_FAST_SMC_CALL ID_FIELD_W_32 ID_FIELD_T_TRUSTED_OS_SERVICE2 5
def N_ACK_T_BACKSTAGE : Nat :=
  MAKE_SMC_CALL_ID ID_FIELD_F_FAST_SMC_CALL ID_FIELD_W_32 ID_FIELD_T_TRUSTED_OS_SERVICE2 6
def N_INIT_T_BOOT_STAGE1 : Nat :=
  MAKE_SMC_CALL_ID ID_FIELD_F_FAST_SMC_CALL ID_FIELD_W_32 ID_FIELD_T_TRUSTED_OS_SERVICE2 7
def N_SWITCH_CORE : Nat :=
  MAKE_SMC_CALL_ID ID_FIELD_F_FAST_SMC_CALL ID_FIELD_W_32 ID_FIELD_T_TRUSTED_OS_SERVICE2 8
def N_GET_NON_IRQ_NUM : Nat :=
  MAKE_SMC_CALL_ID ID_FIELD_F_FAST_SMC_CALL ID_FIELD_W_32 ID_FIELD_T_TRUSTED_OS_SERVICE2 9
def N_GET_SE_OS_STATE : Nat :=
  MAKE_SMC_CALL_ID ID_FIELD_F_FAST_SMC_CALL ID_FIELD_W_32 ID_FIELD_T_TRUSTED_OS_SERVICE2 10
def N_GET_T_FP_DEVICE_ID_32 : Nat :=
  MAKE_SMC_CALL_ID ID_FIELD_F_FAST_SMC_CALL ID_FIELD_W_32 ID_FIELD_T_TRUSTED_OS_SERVICE2 11
def NT_SCHED_T : Nat :=
  MAKE_SMC_CALL_ID ID_FIELD_F_STANDARD_SMC_CALL ID_FIELD_W_32 ID_FIELD_T_TRUSTED_OS_SERVICE3 0
def N_INVOKE_T_SYS_CTL : Nat :=
  MAKE_SMC_CALL_ID ID_FIELD_F_STANDARD_SMC_CALL ID_FIELD_W_32 ID_FIELD_T_TRUSTED_OS_SERVICE3 1
def N_INVOKE_T_NQ : Nat :=
  MAKE_SMC_CALL_ID ID_FIELD_F_STANDARD_SMC_CALL ID_FIELD_W_32 ID_FIELD_T_TRUSTED_OS_SERVICE3 2
def N_INVOKE_T_DRV : Nat :=
  MAKE_SMC_CALL_ID ID_FIELD_F_STANDARD_SMC_CALL ID_FIELD_W_32 ID_FIELD_T_TRUSTED_OS_SERVICE3 3
def N_RAISE_T_EVENT : Nat :=
  MAKE_SMC_CALL_ID ID_FIELD_F_STANDARD_SMC_CALL ID_FIELD_W_32 ID_FIELD_T_TRUSTED_OS_SERVICE3 4
def N_ACK_T_INVOKE_DRV : Nat :=
  MAKE_SMC_CALL_ID ID_FIELD_F_STANDARD_SMC_CALL ID_FIELD_W_32 ID_FIELD_T_TRUSTED_OS_SERVICE3 5
def N_INVOKE_T_LOAD_TEE : Nat :=
  MAKE_SMC_CALL_ID ID_FIELD_F_STANDARD_SMC_CALL ID_FIELD_W_32 ID_FIELD_T_TRUSTED_OS_SERVICE3 6
def N_ACK_T_LOAD_IMG : Nat :=
  MAKE_SMC_CALL_ID ID_FIELD_F_STANDARD_SMC_CALL ID_FIELD_W_32 ID_FIELD_T_TRUSTED_OS_SERVICE3 7
def NT_SCHED_T_FIQ : Nat :=
  MAKE_SMC_CALL_ID ID_FIELD_F_STANDARD_SMC_CALL ID_FIELD_W_32 ID_FIELD_T_TRUSTED_OS_SERVICE3 8
def NT_CANCEL_T_TUI : Nat :=
  MAKE_SMC_CALL_ID ID_FIELD_F_STANDARD_SMC_CALL ID_FIELD_W_32 ID_FIELD_T_TRUSTED_OS_SERVICE3 9

/-- The four IDs defined with `ID_FIELD_W_64`, at the head of the list of IDs. -/
def wide_call_ids : List Nat :=
  [N_GET_T_FP_DEVICE_ID, N_ACK_T_INVOKE_DRV_CMD, N_INVOKE_T_LOAD_TEE_CMD, N_INVOKE_T_NQ_CMD]

/-- The twelve IDs under the heading `For non-secure side Fast Call`, in the
order of their definition. -/
def fast_call_ids : List Nat :=
  [N_SWITCH_TO_T_OS_STAGE2, N_GET_PARAM_IN, N_INIT_T_FC_BUF, N_INVOKE_T_FAST_CALL,
  NT_DUMP_STATE, N_ACK_T_FOREGROUND, N_ACK_T_BACKSTAGE, N_INIT_T_BOOT_STAGE1, N_SWITCH_CORE,
  N_GET_NON_IRQ_NUM, N_GET_SE_OS_STATE, N_GET_T_FP_DEVICE_ID_32]

/-- The ten IDs under the heading `For non-secure side Standard Call`, in the
order of their definition. -/
def standard_call_ids : List Nat :=
  [NT_SCHED_T, N_INVOKE_T_SYS_CTL, N_INVOKE_T_NQ, N_INVOKE_T_DRV, N_RAISE_T_EVENT,
  N_ACK_T_INVOKE_DRV, N_INVOKE_T_LOAD_TEE, N_ACK_T_LOAD_IMG, NT_SCHED_T_FIQ,
  NT_CANCEL_T_TUI]

/-- All 26 call IDs of the header. -/
def smc_call_ids : List Nat := wide_call_ids ++ fast_call_ids ++ standard_call_ids

/-- The IDs defined with `ID_FIELD_F_FAST_SMC_CALL`. -/
def fast_smc_call_ids : List Nat := N_GET_T_FP_DEVICE_ID :: fast_call_ids

/-- Each 64-bit variant with the ID of the same call defined with
`ID_FIELD_W_32`. -/
def wide_call_pairs : List (Nat × Nat) :=
  [(N_GET_T_FP_DEVICE_ID, N_GET_T_FP_DEVICE_ID_32),
   (N_ACK_T_INVOKE_DRV_CMD, N_ACK_T_INVOKE_DRV),
   (N_INVOKE_T_LOAD_TEE_CMD, N_INVOKE_T_LOAD_TEE),
   (N_INVOKE_T_NQ_CMD, N_INVOKE_T_NQ)]

end NtSmcCall

namespace Mt6370

/-! ### `mt6370_pmu_charger.h`: the parameter tables -/

def MT6370_ICHG_NUM : Nat := 64
def MT6370_ICHG_MIN : Nat := 100000
def MT6370_ICHG_MAX : Nat := 5000000
def MT6370_ICHG_STEP : Nat := 100000

def MT6370_IEOC_NUM : Nat := 16
def MT6370_IEOC_MIN : Nat := 100000
def MT6370_IEOC_MAX : Nat := 850000
def MT6370_IEOC_STEP : Nat := 50000

def MT6370_MIVR_NUM : Nat := 128
def MT6370_MIVR_MIN : Nat := 3900000
def MT6370_MIVR_MAX : Nat := 13400000
def MT6370_MIVR_STEP : Nat := 100000

def MT6370_AICR_NUM : Nat := 64
def MT6370_AICR_MIN : Nat := 100000
def MT6370_AICR_MAX : Nat := 3250000
def MT6370_AICR_STEP : Nat := 50000

def MT6370_BAT_VOREG_NUM : Nat := 128
def MT6370_BAT_VOREG_MIN : Nat := 3900000
def MT6370_BAT_VOREG_MAX : Nat := 4710000
def MT6370_BAT_VOREG_STEP : Nat := 10000

def MT6370_BOOST_VOREG_NUM : Nat := 64
def MT6370_BOOST_VOREG_MIN : Nat := 4425000
def MT6370_BOOST_VOREG_MAX : Nat := 5825000
def MT6370_BOOST_VOREG_STEP : Nat := 25000

def MT6370_VPREC_NUM : Nat := 16
def MT6370_VPREC_MIN : Nat := 2000000
def MT6370_VPREC_MAX : Nat := 3500000
def MT6370_VPREC_STEP : Nat := 100000

def MT6370_IPREC_NUM : Nat := 16
def MT6370_IPREC_MIN : Nat := 100000
def MT6370_IPREC_MAX : Nat := 850000
def MT6370_IPREC_STEP : Nat := 50000

def MT6370_VRECHG_NUM : Nat := 4
def MT6370_VRECHG_MIN : Nat := 100000
def MT6370_VRECHG_MAX : Nat := 400000
def MT6370_VRECHG_STEP : Nat := 100000

def MT6370_WT_FC_NUM : Nat := 8
def MT6370_WT_FC_MIN : Nat := 4
def MT6370_WT_FC_MAX : Nat := 20
def MT6370_WT_FC_STEP : Nat := 2

def MT6370_IRCMP_RES_NUM : Nat := 8
def MT6370_IRCMP_RES_MIN : Nat := 0
def MT6370_IRCMP_RES_MAX : Nat := 175000
def MT6370_IRCMP_RES_STEP : Nat := 25000

def MT6370_IRCMP_VCLAMP_NUM : Nat := 8
def MT6370_IRCMP_VCLAMP_MIN : Nat := 0
def MT6370_IRCMP_VCLAMP_MAX : Nat := 224000
def MT6370_IRCMP_VCLAMP_STEP : Nat := 32000

def MT6370_PEP20_VOLT_NUM : Nat := 30
def MT6370_PEP20_VOLT_MIN : Nat := 5500000
def MT6370_PEP20_VOLT_MAX : Nat := 20000000
def MT6370_PEP20_VOLT_STEP : Nat := 500000

def MT6370_AICL_VTH_NUM : Nat := 8
def MT6370_AICL_VTH_MIN : Nat := 4100000
def MT6370_AICL_VTH_MAX : Nat := 4800000
def MT6370_AICL_VTH_STEP : Nat := 100000

def MT6370_DC_VBUSOV_LVL_NUM : Nat := 32
def MT6370_DC_VBUSOV_LVL_MIN : Nat := 3900000
def MT6370_DC_VBUSOV_LVL_MAX : Nat := 7000000
def MT6370_DC_VBUSOV_LVL_STEP : Nat := 100000

def MT6370_DC_IBUSOC_LVL_NUM : Nat := 8
def MT6370_DC_IBUSOC_LVL_MIN : Nat := 4000000
def MT6370_DC_IBUSOC_LVL_MAX : Nat := 6500000
def MT6370_DC_IBUSOC_LVL_STEP : Nat := 500000

/-! ### `mt6370_pmu_charger.h`: the register fields -/

def MT6370_SHIFT_CHG_RST : Nat := 6
def MT6370_MASK_CHG_RST : Nat := 1 <<< MT6370_SHIFT_CHG_RST
def MT6370_SHIFT_OPA_MODE : Nat := 0
def MT6370_SHIFT_HZ_EN : Nat := 2
def MT6370_MASK_OPA_MODE : Nat := 1 <<< MT6370_SHIFT_OPA_MODE
def MT6370_MASK_HZ_EN : Nat := 1 <<< MT6370_SHIFT_HZ_EN
def MT6370_SHIFT_CHG_EN : Nat := 0
def MT6370_SHIFT_CFO_EN : Nat := 1
def MT6370_SHIFT_IINLMTSEL : Nat := 2
def MT6370_SHIFT_TE_EN : Nat := 4
def MT6370_SHIFT_BYPASS_MODE : Nat := 5
def MT6370_MASK_CHG_EN : Nat := 1 <<< MT6370_SHIFT_CHG_EN
def MT6370_MASK_CFO_EN : Nat := 1 <<< MT6370_SHIFT_CFO_EN
def MT6370_MASK_IINLMTSEL : Nat := 0x0C
def MT6370_MASK_TE_EN : Nat := 1 <<< MT6370_SHIFT_TE_EN
def MT6370_MASK_BYPASS_MODE : Nat := 1 <<< MT6370_SHIFT_BYPASS_MODE
def MT6370_SHIFT_AICR : Nat := 2
def MT6370_SHIFT_AICR_EN : Nat := 1
def MT6370_SHIFT_ILIM_EN : Nat := 0
def MT6370_MASK_AICR : Nat := 0xFC
def MT6370_MASK_AICR_EN : Nat := 1 <<< MT6370_SHIFT_AICR_EN
def MT6370_MASK_ILIM_EN : Nat := 1 <<< MT6370_SHIFT_ILIM_EN
def MT6370_SHIFT_BAT_VOREG : Nat := 1
def MT6370_MASK_BAT_VOREG : Nat := 0xFE
def MT6370_SHIFT_BOOST_VOREG : Nat := 2
def MT6370_MASK_BOOST_VOREG : Nat := 0xFC
def MT6370_SHIFT_MIVR : Nat := 1
def MT6370_SHIFT_MIVR_EN : Nat := 0
def MT6370_MASK_MIVR : Nat := 0xFE
def MT6370_MASK_MIVR_EN : Nat := 1 <<< MT6370_SHIFT_MIVR_EN
def MT6370_SHIFT_ICHG : Nat := 2
def MT6370_MASK_ICHG : Nat := 0xFC
def MT6370_SHIFT_VPREC : Nat := 4
def MT6370_SHIFT_IPREC : Nat := 0
def MT6370_MASK_VPREC : Nat := 0xF0
def MT6370_MASK_IPREC : Nat := 0x0F
def MT6370_SHIFT_IEOC : Nat := 4
def MT6370_MASK_IEOC : Nat := 0xF0
def MT6370_SHIFT_BOOST_OC : Nat := 0
def MT6370_MASK_BOOST_OC : Nat := 0x07
def MT6370_SHIFT_VRECHG : Nat := 0
def MT6370_MASK_VRECHG : Nat := 0x03
def MT6370_SHIFT_TMR_EN : Nat := 1
def MT6370_SHIFT_WT_FC : Nat := 5
def MT6370_MASK_TMR_EN : Nat := 1 <<< MT6370_SHIFT_TMR_EN
def MT6370_MASK_WT_FC : Nat := 0xE0
def MT6370_SHIFT_WDT_EN : Nat := 7
def MT6370_MASK_WDT_EN : Nat := 1 <<< MT6370_SHIFT_WDT_EN
def MT6370_SHIFT_AICL_MEAS : Nat := 7
def MT6370_SHIFT_AICL_VTH : Nat := 0
def MT6370_MASK_AICL_MEAS : Nat := 1 <<< MT6370_SHIFT_AICL_MEAS
def MT6370_MASK_AICL_VTH : Nat := 0x07
def MT6370_SHIFT_JEITA_EN : Nat := 4
def MT6370_MASK_JEITA_EN : Nat := 1 <<< MT6370_SHIFT_JEITA_EN
def MT6370_SHIFT_ADC_IN_SEL : Nat := 4
def MT6370_SHIFT_ADC_START : Nat := 0
def MT6370_MASK_ADC_IN_SEL : Nat := 0xF0
def MT6370_MASK_ADC_START : Nat := 1 <<< MT6370_SHIFT_ADC_START
def MT6370_SHIFT_USBCHGEN : Nat := 7
def MT6370_SHIFT_DCPSTD : Nat := 2
def MT6370_SHIFT_CDP : Nat := 1
def MT6370_SHIFT_SDP : Nat := 0
def MT6370_MASK_USBCHGEN : Nat := 1 <<< MT6370_SHIFT_USBCHGEN
def MT6370_MASK_DCPSTD : Nat := 1 <<< MT6370_SHIFT_DCPSTD
def MT6370_MASK_CDP : Nat := 1 <<< MT6370_SHIFT_CDP
def MT6370_MASK_SDP : Nat := 1 <<< MT6370_SHIFT_SDP
def MT6370_SHIFT_EN_DCP : Nat := 1
def MT6370_MASK_EN_DCP : Nat := 1 <<< MT6370_SHIFT_EN_DCP
def MT6370_SHIFT_USB_STATUS : Nat := 4
def MT6370_MASK_USB_STATUS : Nat := 0x70
def MT6370_SHIFT_PP_OFF_RST : Nat := 7
def MT6370_SHIFT_VG_LVL_SEL : Nat := 1
def MT6370_SHIFT_VG_EN : Nat := 0
def MT6370_MASK_PP_OFF_RST : Nat := 1 <<< MT6370_SHIFT_PP_OFF_RST
def MT6370_MASK_VG_LVL_SEL : Nat := 1 <<< MT6370_SHIFT_VG_LVL_SEL
def MT6370_MASK_VG_EN : Nat := 1 <<< MT6370_SHIFT_VG_EN
def MT6370_SHIFT_PUMPX_EN : Nat := 7
def MT6370_SHIFT_PUMPX_20_10 : Nat := 6
def MT6370_SHIFT_PUMPX_UP_DN : Nat := 5
def MT6370_SHIFT_PUMPX_DEC : Nat := 0
def MT6370_MASK_PUMPX_EN : Nat := 1 <<< MT6370_SHIFT_PUMPX_EN
def MT6370_MASK_PUMPX_20_10 : Nat := 1 <<< MT6370_SHIFT_PUMPX_20_10
def MT6370_MASK_PUMPX_UP_DN : Nat := 1 <<< MT6370_SHIFT_PUMPX_UP_DN
def MT6370_MASK_PUMPX_DEC : Nat := 0x1F
def MT6370_SHIFT_IRCMP_RES : Nat := 3
def MT6370_SHIFT_IRCMP_VCLAMP : Nat := 0
def MT6370_MASK_IRCMP_RES : Nat := 0x38
def MT6370_MASK_IRCMP_VCLAMP : Nat := 0x07
def MT6370_SHIFT_DC_VBATOV_EN : Nat := 6
def MT6370_SHIFT_DC_VBATOV_LVL : Nat := 4
def MT6370_SHIFT_DC_IBUSOC_EN : Nat := 3
def MT6370_SHIFT_DC_IBUSOC_LVL : Nat := 0
def MT6370_MASK_DC_VBATOV_EN : Nat := 1 <<< MT6370_SHIFT_DC_VBATOV_EN
def MT6370_MASK_DC_VBATOV_LVL : Nat := 0x30
def MT6370_MASK_DC_IBUSOC_EN : Nat := 1 <<< MT6370_SHIFT_DC_IBUSOC_EN
def MT6370_MASK_DC_IBUSOC_LVL : Nat := 0x07
def MT6370_SHIFT_DC_WDT : Nat := 4
def MT6370_MASK_DC_WDT : Nat := 0x70
def MT6370_SHIFT_DC_VBUSOV_EN : Nat := 7
def MT6370_SHIFT_DC_VBUSOV_LVL : Nat := 2
def MT6370_MASK_DC_VBUSOV_EN : Nat := 1 <<< MT6370_SHIFT_DC_VBUSOV_EN
def MT6370_MASK_DC_VBUSOV_LVL : Nat := 0x7C
def MT6370_SHIFT_ADC_STAT : Nat := 0
def MT6370_SHIFT_CHG_STAT : Nat := 6
def MT6370_MASK_ADC_STAT : Nat := 1 <<< MT6370_SHIFT_ADC_STAT
def MT6370_MASK_CHG_STAT : Nat := 0xC0
def MT6370_SHIFT_PWR_RDY : Nat := 7
def MT6370_SHIFT_CHG_MIVR : Nat := 6
def MT6370_SHIFT_CHG_AICR : Nat := 5
def MT6370_SHIFT_CHG_TREG : Nat := 4
def MT6370_SHIFT_DIRCHG_ON : Nat := 0
def MT6370_MASK_PWR_RDY : Nat := 1 <<< MT6370_SHIFT_PWR_RDY
def MT6370_MASK_CHG_MIVR : Nat := 1 <<< MT6370_SHIFT_CHG_MIVR
def MT6370_MASK_CHG_AICR : Nat := 1 <<< MT6370_SHIFT_CHG_AICR
def MT6370_MASK_CHG_TREG : Nat := 1 <<< MT6370_SHIFT_CHG_TREG
def MT6370_MASK_DIRCHG_ON : Nat := 1 <<< MT6370_SHIFT_DIRCHG_ON
def MT6370_SHIFT_CHG_IEOCI : Nat := 7
def MT6370_SHIFT_CHG_TERMI : Nat := 6
def MT6370_SHIFT_CHG_RECHGI : Nat := 5
def MT6370_SHIFT_CHG_SSFINISHI : Nat := 4
def MT6370_SHIFT_CHG_WDTMRI : Nat := 3
def MT6370_SHIFT_CHGDET_DONEI : Nat := 2
def MT6370_SHIFT_CHG_ICHGMEASI : Nat := 1
def MT6370_SHIFT_CHG_AICLMEASI : Nat := 0
def MT6370_MASK_CHG_IEOCI : Nat := 1 <<< MT6370_SHIFT_CHG_IEOCI
def MT6370_MASK_CHG_TERMI : Nat := 1 <<< MT6370_SHIFT_CHG_TERMI
def MT6370_MASK_CHG_RECHGI : Nat := 1 <<< MT6370_SHIFT_CHG_RECHGI
def MT6370_MASK_CHG_SSFINISHI : Nat := 1 <<< MT6370_SHIFT_CHG_SSFINISHI
def MT6370_MASK_CHG_WDTMRI : Nat := 1 <<< MT6370_SHIFT_CHG_WDTMRI
def MT6370_MASK_CHGDET_DONEI : Nat := 1 <<< MT6370_SHIFT_CHGDET_DONEI
def MT6370_MASK_CHG_ICHGMEASI : Nat := 1 <<< MT6370_SHIFT_CHG_ICHGMEASI
def MT6370_MASK_CHG_AICLMEASI : Nat := 1 <<< MT6370_SHIFT_CHG_AICLMEASI
def MT6370_SHIFT_BST_OLPI : Nat := 7
def MT6370_SHIFT_BST_MIDOVI : Nat := 6
def MT6370_SHIFT_BST_BATUVI : Nat := 5
def MT6370_SHIFT_PUMPX_DONEI : Nat := 1
def MT6370_SHIFT_ADC_DONEI : Nat := 0
def MT6370_MASK_BST_OLPI : Nat := 1 <<< MT6370_SHIFT_BST_OLPI
def MT6370_MASK_BST_MIDOVI : Nat := 1 <<< MT6370_SHIFT_BST_MIDOVI
def MT6370_MASK_BST_BATUVI : Nat := 1 <<< MT6370_SHIFT_BST_BATUVI
def MT6370_MASK_PUMPX_DONEI : Nat := 1 <<< MT6370_SHIFT_PUMPX_DONEI
def MT6370_MASK_ADC_DONEI : Nat := 1 <<< MT6370_SHIFT_ADC_DONEI
def MT6370_SHIFT_DCDTI : Nat := 7
def MT6370_SHIFT_CHGDETI : Nat := 6
def MT6370_SHIFT_HVDCPDET : Nat := 5
def MT6370_SHIFT_DETACHI : Nat := 1
def MT6370_SHIFT_ATTACHI : Nat := 0
def MT6370_MASK_DCDTI : Nat := 1 <<< MT6370_SHIFT_DCDTI
def MT6370_MASK_CHGDETI : Nat := 1 <<< MT6370_SHIFT_CHGDETI
def MT6370_MASK_HVDCPDET : Nat := 1 <<< MT6370_SHIFT_HVDCPDET
def MT6370_MASK_DETACHI : Nat := 1 <<< MT6370_SHIFT_DETACHI
def MT6370_MASK_ATTACHI : Nat := 1 <<< MT6370_SHIFT_ATTACHI
def MT6370_SHIFT_MIVR_STAT : Nat := 6
def MT6370_MASK_MIVR_STAT : Nat := 1 <<< MT6370_SHIFT_MIVR_STAT
def MT6370_SHIFT_CHG_VBUSOV_STAT : Nat := 7
def MT6370_MASK_CHG_VBUSOV_STAT : Nat := 1 <<< MT6370_SHIFT_CHG_VBUSOV_STAT
def MT6370_SHIFT_CHG_TMRI_STAT : Nat := 3
def MT6370_MASK_CHG_TMRI_STAT : Nat := 1 <<< MT6370_SHIFT_CHG_TMRI_STAT
def MT6370_SHIFT_CHG_IEOCI_STAT : Nat := 7
def MT6370_MASK_CHG_IEOCI_STAT : Nat := 1 <<< MT6370_SHIFT_CHG_IEOCI_STAT
def MT6370_SHIFT_DCDTI_STAT : Nat := 7
def MT6370_MASK_DCDTI_STAT : Nat := 1 <<< MT6370_SHIFT_DCDTI_STAT
def MT6370_SHIFT_OVPCTRL_UVP_D_STAT : Nat := 4
def MT6370_MASK_OVPCTRL_UVP_D_STAT : Nat := 1 <<< MT6370_SHIFT_OVPCTRL_UVP_D_STAT
def MT6370_SHIFT_CHG_MIVRM : Nat := 6
def MT6370_MASK_CHG_MIVRM : Nat := 1 <<< MT6370_SHIFT_CHG_MIVRM
def MT6370_SHIFT_CHG_IEOCM : Nat := 7
def MT6370_SHIFT_CHG_TERMM : Nat := 6
def MT6370_SHIFT_CHG_RECHGM : Nat := 5
def MT6370_SHIFT_CHG_SSFINISHM : Nat := 4
def MT6370_SHIFT_CHG_WDTMRM : Nat := 3
def MT6370_SHIFT_CHGDET_DONEM : Nat := 2
def MT6370_SHIFT_CHG_ICHGMEASM : Nat := 1
def MT6370_SHIFT_CHG_AICLMEASM : Nat := 0
def MT6370_MASK_CHG_IEOCM : Nat := 1 <<< MT6370_SHIFT_CHG_IEOCM
def MT6370_MASK_CHG_TERMM : Nat := 1 <<< MT6370_SHIFT_CHG_TERMM
def MT6370_MASK_CHG_RECHGM : Nat := 1 <<< MT6370_SHIFT_CHG_RECHGM
def MT6370_MASK_CHG_SSFINISHM : Nat := 1 <<< MT6370_SHIFT_CHG_SSFINISHM
def MT6370_MASK_CHG_WDTMRM : Nat := 1 <<< MT6370_SHIFT_CHG_WDTMRM
def MT6370_MASK_CHGDET_DONEM : Nat := 1 <<< MT6370_SHIFT_CHGDET_DONEM
def MT6370_MASK_CHG_ICHGMEASM : Nat := 1 <<< MT6370_SHIFT_CHG_ICHGMEASM
def MT6370_MASK_CHG_AICLMEASM : Nat := 1 <<< MT6370_SHIFT_CHG_AICLMEASM
def MT6370_SHIFT_BST_OLPM : Nat := 7
def MT6370_SHIFT_BST_MIDOVM : Nat := 6
def MT6370_SHIFT_BST_BATUVM : Nat := 5
def MT6370_SHIFT_PUMPX_DONEM : Nat := 1
def MT6370_SHIFT_ADC_DONEM : Nat := 0
def MT6370_MASK_BST_OLPM : Nat := 1 <<< MT6370_SHIFT_BST_OLPM
def MT6370_MASK_BST_MIDOVM : Nat := 1 <<< MT6370_SHIFT_BST_MIDOVM
def MT6370_MASK_BST_BATUVM : Nat := 1 <<< MT6370_SHIFT_BST_BATUVM
def MT6370_MASK_PUMPX_DONEM : Nat := 1 <<< MT6370_SHIFT_PUMPX_DONEM
def MT6370_MASK_ADC_DONEM : Nat := 1 <<< MT6370_SHIFT_ADC_DONEM

/-- A parameter table of the header: `X_NUM`, `X_MIN`, `X_MAX`, `X_STEP`. -/
structure ParamTable where
  num : Nat
  min : Nat
  max : Nat
  step : Nat
  deriving DecidableEq, Repr

/-- Modelled from the spec: the value a code stands for under the linear
reading of a table, `MIN + code * STEP`; the header declares the four
constants of a table and no function of the code. -/
def ParamTable.value (t : ParamTable) (code : Nat) : Nat := t.min + code * t.step

/-- A register field of the header: `MT6370_SHIFT_X` and `MT6370_MASK_X`. -/
structure Field where
  shift : Nat
  mask : Nat
  deriving DecidableEq, Repr

def ICHG_table : ParamTable :=
  ⟨MT6370_ICHG_NUM, MT6370_ICHG_MIN, MT6370_ICHG_MAX, MT6370_ICHG_STEP⟩
def IEOC_table : ParamTable :=
  ⟨MT6370_IEOC_NUM, MT6370_IEOC_MIN, MT6370_IEOC_MAX, MT6370_IEOC_STEP⟩
def MIVR_table : ParamTable :=
  ⟨MT6370_MIVR_NUM, MT6370_MIVR_MIN, MT6370_MIVR_MAX, MT6370_MIVR_STEP⟩
def AICR_table : ParamTable :=
  ⟨MT6370_AICR_NUM, MT6370_AICR_MIN, MT6370_AICR_MAX, MT6370_AICR_STEP⟩
def BAT_VOREG_table : ParamTable :=
  ⟨MT6370_BAT_VOREG_NUM, MT6370_BAT_VOREG_MIN, MT6370_BAT_VOREG_MAX, MT6370_BAT_VOREG_STEP⟩
def BOOST_VOREG_table : ParamTable :=
  ⟨MT6370_BOOST_VOREG_NUM, MT6370_BOOST_VOREG_MIN, MT6370_BOOST_VOREG_MAX, MT6370_BOOST_VOREG_STEP⟩
def VPREC_table : ParamTable :=
  ⟨MT6370_VPREC_NUM, MT6370_VPREC_MIN, MT6370_VPREC_MAX, MT6370_VPREC_STEP⟩
def IPREC_table : ParamTable :=
  ⟨MT6370_IPREC_NUM, MT6370_IPREC_MIN, MT6370_IPREC_MAX, MT6370_IPREC_STEP⟩
def VRECHG_table : ParamTable :=
  ⟨MT6370_VRECHG_NUM, MT6370_VRECHG_MIN, MT6370_VRECHG_MAX, MT6370_VRECHG_STEP⟩
def WT_FC_table : ParamTable :=
  ⟨MT6370_WT_FC_NUM, MT6370_WT_FC_MIN, MT6370_WT_FC_MAX, MT6370_WT_FC_STEP⟩
def IRCMP_RES_table : ParamTable :=
  ⟨MT6370_IRCMP_RES_NUM, MT6370_IRCMP_RES_MIN, MT6370_IRCMP_RES_MAX, MT6370_IRCMP_RES_STEP⟩
def IRCMP_VCLAMP_table : ParamTable :=
  ⟨MT6370_IRCMP_VCLAMP_NUM, MT6370_IRCMP_VCLAMP_MIN, MT6370_IRCMP_VCLAMP_MAX, MT6370_IRCMP_VCLAMP_STEP⟩
def PEP20_VOLT_table : ParamTable :=
  ⟨MT6370_PEP20_VOLT_NUM, MT6370_PEP20_VOLT_MIN, MT6370_PEP20_VOLT_MAX, MT6370_PEP20_VOLT_STEP⟩
def AICL_VTH_table : ParamTable :=
  ⟨MT6370_AICL_VTH_NUM, MT6370_AICL_VTH_MIN, MT6370_AICL_VTH_MAX, MT6370_AICL_VTH_STEP⟩
def DC_VBUSOV_LVL_table : ParamTable :=
  ⟨MT6370_DC_VBUSOV_LVL_NUM, MT6370_DC_VBUSOV_LVL_MIN, MT6370_DC_VBUSOV_LVL_MAX, MT6370_DC_VBUSOV_LVL_STEP⟩
def DC_IBUSOC_LVL_table : ParamTable :=
  ⟨MT6370_DC_IBUSOC_LVL_NUM, MT6370_DC_IBUSOC_LVL_MIN, MT6370_DC_IBUSOC_LVL_MAX, MT6370_DC_IBUSOC_LVL_STEP⟩

/-- The sixteen parameter tables, in the order of their definition. -/
def param_tables : List ParamTable :=
  [ICHG_table, IEOC_table, MIVR_table, AICR_table, BAT_VOREG_table, BOOST_VOREG_table,
  VPREC_table, IPREC_table, VRECHG_table, WT_FC_table, IRCMP_RES_table, IRCMP_VCLAMP_table,
  PEP20_VOLT_table, AICL_VTH_table, DC_VBUSOV_LVL_table, DC_IBUSOC_LVL_table]

/-- The fifteen parameter tables other than the watchdog fast-charge timer. -/
def param_tables_but_WT_FC : List ParamTable :=
  [ICHG_table, IEOC_table, MIVR_table, AICR_table, BAT_VOREG_table, BOOST_VOREG_table,
  VPREC_table, IPREC_table, VRECHG_table, IRCMP_RES_table, IRCMP_VCLAMP_table,
  PEP20_VOLT_table, AICL_VTH_table, DC_VBUSOV_LVL_table, DC_IBUSOC_LVL_table]

def CHG_RST_field : Field := ⟨MT6370_SHIFT_CHG_RST, MT6370_MASK_CHG_RST⟩
def OPA_MODE_field : Field := ⟨MT6370_SHIFT_OPA_MODE, MT6370_MASK_OPA_MODE⟩
def HZ_EN_field : Field := ⟨MT6370_SHIFT_HZ_EN, MT6370_MASK_HZ_EN⟩
def CHG_EN_field : Field := ⟨MT6370_SHIFT_CHG_EN, MT6370_MASK_CHG_EN⟩
def CFO_EN_field : Field := ⟨MT6370_SHIFT_CFO_EN, MT6370_MASK_CFO_EN⟩
def IINLMTSEL_field : Field := ⟨MT6370_SHIFT_IINLMTSEL, MT6370_MASK_IINLMTSEL⟩
def TE_EN_field : Field := ⟨MT6370_SHIFT_TE_EN, MT6370_MASK_TE_EN⟩
def BYPASS_MODE_field : Field := ⟨MT6370_SHIFT_BYPASS_MODE, MT6370_MASK_BYPASS_MODE⟩
def AICR_field : Field := ⟨MT6370_SHIFT_AICR, MT6370_MASK_AICR⟩
def AICR_EN_field : Field := ⟨MT6370_SHIFT_AICR_EN, MT6370_MASK_AICR_EN⟩
def ILIM_EN_field : Field := ⟨MT6370_SHIFT_ILIM_EN, MT6370_MASK_ILIM_EN⟩
def BAT_VOREG_field : Field := ⟨MT6370_SHIFT_BAT_VOREG, MT6370_MASK_BAT_VOREG⟩
def BOOST_VOREG_field : Field := ⟨MT6370_SHIFT_BOOST_VOREG, MT6370_MASK_BOOST_VOREG⟩
def MIVR_field : Field := ⟨MT6370_SHIFT_MIVR, MT6370_MASK_MIVR⟩
def MIVR_EN_field : Field := ⟨MT6370_SHIFT_MIVR_EN, MT6370_MASK_MIVR_EN⟩
def ICHG_field : Field := ⟨MT6370_SHIFT_ICHG, MT6370_MASK_ICHG⟩
def VPREC_field : Field := ⟨MT6370_SHIFT_VPREC, MT6370_MASK_VPREC⟩
def IPREC_field : Field := ⟨MT6370_SHIFT_IPREC, MT6370_MASK_IPREC⟩
def IEOC_field : Field := ⟨MT6370_SHIFT_IEOC, MT6370_MASK_IEOC⟩
def BOOST_OC_field : Field := ⟨MT6370_SHIFT_BOOST_OC, MT6370_MASK_BOOST_OC⟩
def VRECHG_field : Field := ⟨MT6370_SHIFT_VRECHG, MT6370_MASK_VRECHG⟩
def TMR_EN_field : Field := ⟨MT6370_SHIFT_TMR_EN, MT6370_MASK_TMR_EN⟩
def WT_FC_field : Field := ⟨MT6370_SHIFT_WT_FC, MT6370_MASK_WT_FC⟩
def WDT_EN_field : Field := ⟨MT6370_SHIFT_WDT_EN, MT6370_MASK_WDT_EN⟩
def AICL_MEAS_field : Field := ⟨MT6370_SHIFT_AICL_MEAS, MT6370_MASK_AICL_MEAS⟩
def AICL_VTH_field : Field := ⟨MT6370_SHIFT_AICL_VTH, MT6370_MASK_AICL_VTH⟩
def JEITA_EN_field : Field := ⟨MT6370_SHIFT_JEITA_EN, MT6370_MASK_JEITA_EN⟩
def ADC_IN_SEL_field : Field := ⟨MT6370_SHIFT_ADC_IN_SEL, MT6370_MASK_ADC_IN_SEL⟩
def ADC_START_field : Field := ⟨MT6370_SHIFT_ADC_START, MT6370_MASK_ADC_START⟩
def USBCHGEN_field : Field := ⟨MT6370_SHIFT_USBCHGEN, MT6370_MASK_USBCHGEN⟩
def DCPSTD_field : Field := ⟨MT6370_SHIFT_DCPSTD, MT6370_MASK_DCPSTD⟩
def CDP_field : Field := ⟨MT6370_SHIFT_CDP, MT6370_MASK_CDP⟩
def SDP_field : Field := ⟨MT6370_SHIFT_SDP, MT6370_MASK_SDP⟩
def EN_DCP_field : Field := ⟨MT6370_SHIFT_EN_DCP, MT6370_MASK_EN_DCP⟩
def USB_STATUS_field : Field := ⟨MT6370_SHIFT_USB_STATUS, MT6370_MASK_USB_STATUS⟩
def PP_OFF_RST_field : Field := ⟨MT6370_SHIFT_PP_OFF_RST, MT6370_MASK_PP_OFF_RST⟩
def VG_LVL_SEL_field : Field := ⟨MT6370_SHIFT_VG_LVL_SEL, MT6370_MASK_VG_LVL_SEL⟩
def VG_EN_field : Field := ⟨MT6370_SHIFT_VG_EN, MT6370_MASK_VG_EN⟩
def PUMPX_EN_field : Field := ⟨MT6370_SHIFT_PUMPX_EN, MT6370_MASK_PUMPX_EN⟩
def PUMPX_20_10_field : Field := ⟨MT6370_SHIFT_PUMPX_20_10, MT6370_MASK_PUMPX_20_10⟩
def PUMPX_UP_DN_field : Field := ⟨MT6370_SHIFT_PUMPX_UP_DN, MT6370_MASK_PUMPX_UP_DN⟩
def PUMPX_DEC_field : Field := ⟨MT6370_SHIFT_PUMPX_DEC, MT6370_MASK_PUMPX_DEC⟩
def IRCMP_RES_field : Field := ⟨MT6370_SHIFT_IRCMP_RES, MT6370_MASK_IRCMP_RES⟩
def IRCMP_VCLAMP_field : Field := ⟨MT6370_SHIFT_IRCMP_VCLAMP, MT6370_MASK_IRCMP_VCLAMP⟩
def DC_VBATOV_EN_field : Field := ⟨MT6370_SHIFT_DC_VBATOV_EN, MT6370_MASK_DC_VBATOV_EN⟩
def DC_VBATOV_LVL_field : Field := ⟨MT6370_SHIFT_DC_VBATOV_LVL, MT6370_MASK_DC_VBATOV_LVL⟩
def DC_IBUSOC_EN_field : Field := ⟨MT6370_SHIFT_DC_IBUSOC_EN, MT6370_MASK_DC_IBUSOC_EN⟩
def DC_IBUSOC_LVL_field : Field := ⟨MT6370_SHIFT_DC_IBUSOC_LVL, MT6370_MASK_DC_IBUSOC_LVL⟩
def DC_WDT_field : Field := ⟨MT6370_SHIFT_DC_WDT, MT6370_MASK_DC_WDT⟩
def DC_VBUSOV_EN_field : Field := ⟨MT6370_SHIFT_DC_VBUSOV_EN, MT6370_MASK_DC_VBUSOV_EN⟩
def DC_VBUSOV_LVL_field : Field := ⟨MT6370_SHIFT_DC_VBUSOV_LVL, MT6370_MASK_DC_VBUSOV_LVL⟩
def ADC_STAT_field : Field := ⟨MT6370_SHIFT_ADC_STAT, MT6370_MASK_ADC_STAT⟩
def CHG_STAT_field : Field := ⟨MT6370_SHIFT_CHG_STAT, MT6370_MASK_CHG_STAT⟩
def PWR_RDY_field : Field := ⟨MT6370_SHIFT_PWR_RDY, MT6370_MASK_PWR_RDY⟩
def CHG_MIVR_field : Field := ⟨MT6370_SHIFT_CHG_MIVR, MT6370_MASK_CHG_MIVR⟩
def CHG_AICR_field : Field := ⟨MT6370_SHIFT_CHG_AICR, MT6370_MASK_CHG_AICR⟩
def CHG_TREG_field : Field := ⟨MT6370_SHIFT_CHG_TREG, MT6370_MASK_CHG_TREG⟩
def DIRCHG_ON_field : Field := ⟨MT6370_SHIFT_DIRCHG_ON, MT6370_MASK_DIRCHG_ON⟩
def CHG_IEOCI_field : Field := ⟨MT6370_SHIFT_CHG_IEOCI, MT6370_MASK_CHG_IEOCI⟩
def CHG_TERMI_field : Field := ⟨MT6370_SHIFT_CHG_TERMI, MT6370_MASK_CHG_TERMI⟩
def CHG_RECHGI_field : Field := ⟨MT6370_SHIFT_CHG_RECHGI, MT6370_MASK_CHG_RECHGI⟩
def CHG_SSFINISHI_field : Field := ⟨MT6370_SHIFT_CHG_SSFINISHI, MT6370_MASK_CHG_SSFINISHI⟩
def CHG_WDTMRI_field : Field := ⟨MT6370_SHIFT_CHG_WDTMRI, MT6370_MASK_CHG_WDTMRI⟩
def CHGDET_DONEI_field : Field := ⟨MT6370_SHIFT_CHGDET_DONEI, MT6370_MASK_CHGDET_DONEI⟩
def CHG_ICHGMEASI_field : Field := ⟨MT6370_SHIFT_CHG_ICHGMEASI, MT6370_MASK_CHG_ICHGMEASI⟩
def CHG_AICLMEASI_field : Field := ⟨MT6370_SHIFT_CHG_AICLMEASI, MT6370_MASK_CHG_AICLMEASI⟩
def BST_OLPI_field : Field := ⟨MT6370_SHIFT_BST_OLPI, MT6370_MASK_BST_OLPI⟩
def BST_MIDOVI_field : Field := ⟨MT6370_SHIFT_BST_MIDOVI, MT6370_MASK_BST_MIDOVI⟩
def BST_BATUVI_field : Field := ⟨MT6370_SHIFT_BST_BATUVI, MT6370_MASK_BST_BATUVI⟩
def PUMPX_DONEI_field : Field := ⟨MT6370_SHIFT_PUMPX_DONEI, MT6370_MASK_PUMPX_DONEI⟩
def ADC_DONEI_field : Field := ⟨MT6370_SHIFT_ADC_DONEI, MT6370_MASK_ADC_DONEI⟩
def DCDTI_field : Field := ⟨MT6370_SHIFT_DCDTI, MT6370_MASK_DCDTI⟩
def CHGDETI_field : Field := ⟨MT6370_SHIFT_CHGDETI, MT6370_MASK_CHGDETI⟩
def HVDCPDET_field : Field := ⟨MT6370_SHIFT_HVDCPDET, MT6370_MASK_HVDCPDET⟩
def DETACHI_field : Field := ⟨MT6370_SHIFT_DETACHI, MT6370_MASK_DETACHI⟩
def ATTACHI_field : Field := ⟨MT6370_SHIFT_ATTACHI, MT6370_MASK_ATTACHI⟩
def MIVR_STAT_field : Field := ⟨MT6370_SHIFT_MIVR_STAT, MT6370_MASK_MIVR_STAT⟩
def CHG_VBUSOV_STAT_field : Field := ⟨MT6370_SHIFT_CHG_VBUSOV_STAT, MT6370_MASK_CHG_VBUSOV_STAT⟩
def CHG_TMRI_STAT_field : Field := ⟨MT6370_SHIFT_CHG_TMRI_STAT, MT6370_MASK_CHG_TMRI_STAT⟩
def CHG_IEOCI_STAT_field : Field := ⟨MT6370_SHIFT_CHG_IEOCI_STAT, MT6370_MASK_CHG_IEOCI_STAT⟩
def DCDTI_STAT_field : Field := ⟨MT6370_SHIFT_DCDTI_STAT, MT6370_MASK_DCDTI_STAT⟩
def OVPCTRL_UVP_D_STAT_field : Field := ⟨MT6370_SHIFT_OVPCTRL_UVP_D_STAT, MT6370_MASK_OVPCTRL_UVP_D_STAT⟩
def CHG_MIVRM_field : Field := ⟨MT6370_SHIFT_CHG_MIVRM, MT6370_MASK_CHG_MIVRM⟩
def CHG_IEOCM_field : Field := ⟨MT6370_SHIFT_CHG_IEOCM, MT6370_MASK_CHG_IEOCM⟩
def CHG_TERMM_field : Field := ⟨MT6370_SHIFT_CHG_TERMM, MT6370_MASK_CHG_TERMM⟩
def CHG_RECHGM_field : Field := ⟨MT6370_SHIFT_CHG_RECHGM, MT6370_MASK_CHG_RECHGM⟩
def CHG_SSFINISHM_field : Field := ⟨MT6370_SHIFT_CHG_SSFINISHM, MT6370_MASK_CHG_SSFINISHM⟩
def CHG_WDTMRM_field : Field := ⟨MT6370_SHIFT_CHG_WDTMRM, MT6370_MASK_CHG_WDTMRM⟩
def CHGDET_DONEM_field : Field := ⟨MT6370_SHIFT_CHGDET_DONEM, MT6370_MASK_CHGDET_DONEM⟩
def CHG_ICHGMEASM_field : Field := ⟨MT6370_SHIFT_CHG_ICHGMEASM, MT6370_MASK_CHG_ICHGMEASM⟩
def CHG_AICLMEASM_field : Field := ⟨MT6370_SHIFT_CHG_AICLMEASM, MT6370_MASK_CHG_AICLMEASM⟩
def BST_OLPM_field : Field := ⟨MT6370_SHIFT_BST_OLPM, MT6370_MASK_BST_OLPM⟩
def BST_MIDOVM_field : Field := ⟨MT6370_SHIFT_BST_MIDOVM, MT6370_MASK_BST_MIDOVM⟩
def BST_BATUVM_field : Field := ⟨MT6370_SHIFT_BST_BATUVM, MT6370_MASK_BST_BATUVM⟩
def PUMPX_DONEM_field : Field := ⟨MT6370_SHIFT_PUMPX_DONEM, MT6370_MASK_PUMPX_DONEM⟩
def ADC_DONEM_field : Field := ⟨MT6370_SHIFT_ADC_DONEM, MT6370_MASK_ADC_DONEM⟩

/-- Every field that has both a `MT6370_SHIFT_` and a `MT6370_MASK_` macro, in
the order of the mask definitions. -/
def fields : List Field :=
  [CHG_RST_field, OPA_MODE_field, HZ_EN_field, CHG_EN_field, CFO_EN_field, IINLMTSEL_field,
  TE_EN_field, BYPASS_MODE_field, AICR_field, AICR_EN_field, ILIM_EN_field, BAT_VOREG_field,
  BOOST_VOREG_field, MIVR_field, MIVR_EN_field, ICHG_field, VPREC_field, IPREC_field,
  IEOC_field, BOOST_OC_field, VRECHG_field, TMR_EN_field, WT_FC_field, WDT_EN_field,
  AICL_MEAS_field, AICL_VTH_field, JEITA_EN_field, ADC_IN_SEL_field, ADC_START_field,
  USBCHGEN_field, DCPSTD_field, CDP_field, SDP_field, EN_DCP_field, USB_STATUS_field,
  PP_OFF_RST_field, VG_LVL_SEL_field, VG_EN_field, PUMPX_EN_field, PUMPX_20_10_field,
  PUMPX_UP_DN_field, PUMPX_DEC_field, IRCMP_RES_field, IRCMP_VCLAMP_field, DC_VBATOV_EN_field,
  DC_VBATOV_LVL_field, DC_IBUSOC_EN_field, DC_IBUSOC_LVL_field, DC_WDT_field,
  DC_VBUSOV_EN_field, DC_VBUSOV_LVL_field, ADC_STAT_field, CHG_STAT_field, PWR_RDY_field,
  CHG_MIVR_field, CHG_AICR_field, CHG_TREG_field, DIRCHG_ON_field, CHG_IEOCI_field,
  CHG_TERMI_field, CHG_RECHGI_field, CHG_SSFINISHI_field, CHG_WDTMRI_field,
  CHGDET_DONEI_field, CHG_ICHGMEASI_field, CHG_AICLMEASI_field, BST_OLPI_field,
  BST_MIDOVI_field, BST_BATUVI_field, PUMPX_DONEI_field, ADC_DONEI_field, DCDTI_field,
  CHGDETI_field, HVDCPDET_field, DETACHI_field, ATTACHI_field, MIVR_STAT_field,
  CHG_VBUSOV_STAT_field, CHG_TMRI_STAT_field, CHG_IEOCI_STAT_field, DCDTI_STAT_field,
  OVPCTRL_UVP_D_STAT_field, CHG_MIVRM_field, CHG_IEOCM_field, CHG_TERMM_field,
  CHG_RECHGM_field, CHG_SSFINISHM_field, CHG_WDTMRM_field, CHGDET_DONEM_field,
  CHG_ICHGMEASM_field, CHG_AICLMEASM_field, BST_OLPM_field, BST_MIDOVM_field,
  BST_BATUVM_field, PUMPX_DONEM_field, ADC_DONEM_field]

/-- The fields whose mask is written `(1 << MT6370_SHIFT_X)`. -/
def bit_fields : List Field :=
  [CHG_RST_field, OPA_MODE_field, HZ_EN_field, CHG_EN_field, CFO_EN_field, TE_EN_field,
  BYPASS_MODE_field, AICR_EN_field, ILIM_EN_field, MIVR_EN_field, TMR_EN_field, WDT_EN_field,
  AICL_MEAS_field, JEITA_EN_field, ADC_START_field, USBCHGEN_field, DCPSTD_field, CDP_field,
  SDP_field, EN_DCP_field, PP_OFF_RST_field, VG_LVL_SEL_field, VG_EN_field, PUMPX_EN_field,
  PUMPX_20_10_field, PUMPX_UP_DN_field, DC_VBATOV_EN_field, DC_IBUSOC_EN_field,
  DC_VBUSOV_EN_field, ADC_STAT_field, PWR_RDY_field, CHG_MIVR_field, CHG_AICR_field,
  CHG_TREG_field, DIRCHG_ON_field, CHG_IEOCI_field, CHG_TERMI_field, CHG_RECHGI_field,
  CHG_SSFINISHI_field, CHG_WDTMRI_field, CHGDET_DONEI_field, CHG_ICHGMEASI_field,
  CHG_AICLMEASI_field, BST_OLPI_field, BST_MIDOVI_field, BST_BATUVI_field, PUMPX_DONEI_field,
  ADC_DONEI_field, DCDTI_field, CHGDETI_field, HVDCPDET_field, DETACHI_field, ATTACHI_field,
  MIVR_STAT_field, CHG_VBUSOV_STAT_field, CHG_TMRI_STAT_field, CHG_IEOCI_STAT_field,
  DCDTI_STAT_field, OVPCTRL_UVP_D_STAT_field, CHG_MIVRM_field, CHG_IEOCM_field,
  CHG_TERMM_field, CHG_RECHGM_field, CHG_SSFINISHM_field, CHG_WDTMRM_field,
  CHGDET_DONEM_field, CHG_ICHGMEASM_field, CHG_AICLMEASM_field, BST_OLPM_field,
  BST_MIDOVM_field, BST_BATUVM_field, PUMPX_DONEM_field, ADC_DONEM_field]

/-- The parameters whose code is stored in a register field of the same name,
each table with its field. -/
def param_fields : List (ParamTable × Field) :=
  [(ICHG_table, ICHG_field), (IEOC_table, IEOC_field), (MIVR_table, MIVR_field), (AICR_table,
  AICR_field), (BAT_VOREG_table, BAT_VOREG_field), (BOOST_VOREG_table, BOOST_VOREG_field),
  (VPREC_table, VPREC_field), (IPREC_table, IPREC_field), (VRECHG_table, VRECHG_field),
  (WT_FC_table, WT_FC_field), (IRCMP_RES_table, IRCMP_RES_field), (IRCMP_VCLAMP_table,
  IRCMP_VCLAMP_field), (AICL_VTH_table, AICL_VTH_field), (DC_VBUSOV_LVL_table,
  DC_VBUSOV_LVL_field), (DC_IBUSOC_LVL_table, DC_IBUSOC_LVL_field)]

/-- The number of bits set in the value of an 8-bit register. -/
def popcount (x : Nat) : Nat := ((List.range 8).filter (fun i => x.testBit i)).length

end Mt6370

namespace TeeiId

/-! ### `teei_id.h` -/

/-- The macro `#define ROUND_UP(N, S) ((((N) + (S) - 1) / (S)) * (S))` on
natural numbers, where no operation overflows. -/
def ROUND_UP (N S : Nat) : Nat := ((N + S - 1) / S) * S

/-- The macro `ROUND_UP(N, S)` on unsigned operands of `w` bits: the sum, the
difference and the product wrap modulo `2 ^ w`. -/
def ROUND_UP_unsigned (w N S : Nat) : Nat :=
  ((((N + S) % 2 ^ w + (2 ^ w - 1)) % 2 ^ w) / S * S) % 2 ^ w

end TeeiId

/-! ## Part 2: theorems -/

namespace AudioIpiDma

/-! ### Arithmetic of ring offsets -/

/-- Reduction modulo `n` of a number below `2 * n`. -/
theorem mod_lt_two (a n : Nat) (h : a < 2 * n) :
    a % n = if a < n then a else a - n := by
  split
  · exact Nat.mod_eq_of_lt (by assumption)
  · rw [Nat.mod_eq_sub_mod (by omega)]
    exact Nat.mod_eq_of_lt (by omega)

/-- The offset `k` bytes past `w` lies `k` bytes past `w`. -/
theorem ring_rel_self (size w k : Nat) (hw : w < size) (hk : k < size) :
    ((w + k) % size + (size - w)) % size = k := by
  rw [mod_lt_two (w + k) size (by omega)]
  split_ifs with h
  · rw [mod_lt_two _ size (by omega)]
    split_ifs <;> omega
  · rw [mod_lt_two _ size (by omega)]
    split_ifs <;> omega

/-- The offset `k` bytes past `w`, seen from the cursor `n1` bytes past `w`. -/
theorem ring_rel_shift (size w n1 k : Nat) (hw : w < size) (hn : n1 < size) (hk : k < size) :
    ((w + k) % size + (size - (w + n1) % size)) % size =
      if n1 ≤ k then k - n1 else k + size - n1 := by
  rw [mod_lt_two (w + k) size (by omega), mod_lt_two (w + n1) size (by omega)]
  split_ifs with h1 h2 h3 h4 h5 h6 <;>
    (rw [mod_lt_two _ size (by omega)]; split_ifs <;> omega)

/-- Rounding to the alignment does not shrink a size. -/
theorem round_to_align_ge (P : Platform) (n : Nat) : n ≤ round_to_align P n := by
  unfold round_to_align
  have h1 := Nat.div_add_mod (n + P.align - 1) P.align
  have h2 := Nat.mod_lt (n + P.align - 1) P.align_pos
  have h3 := P.align_pos
  rw [Nat.mul_comm] at h1
  omega

/-! ### The copies into and out of the ring -/

theorem copy_at_length (dst : List Byte) (off : Nat) (src : List Byte)
    (h : off + src.length ≤ dst.length) : (copy_at dst off src).length = dst.length := by
  simp only [copy_at, List.length_append, List.length_take, List.length_drop]
  rw [Nat.min_eq_left (by omega)]
  omega

theorem copy_at_getElem? (dst : List Byte) (off : Nat) (src : List Byte)
    (h : off + src.length ≤ dst.length) (j : Nat) :
    (copy_at dst off src)[j]? =
      if off ≤ j ∧ j < off + src.length then src[j - off]? else dst[j]? := by
  unfold copy_at
  rw [List.getElem?_append, List.getElem?_append, List.getElem?_take, List.getElem?_drop]
  simp only [List.length_append, List.length_take]
  rw [Nat.min_eq_left (by omega)]
  by_cases hj : j < off
  · have h2 : j < off + src.length := by omega
    have h3 : ¬ (off ≤ j ∧ j < off + src.length) := by omega
    rw [if_pos h2, if_pos hj, if_pos hj, if_neg h3]
  · by_cases hj2 : j < off + src.length
    · have h3 : off ≤ j ∧ j < off + src.length := by omega
      rw [if_pos hj2, if_neg hj, if_pos h3]
    · have h3 : ¬ (off ≤ j ∧ j < off + src.length) := by omega
      have h4 : off + src.length + (j - (off + src.length)) = j := by omega
      rw [if_neg hj2, if_neg h3, h4]

theorem ring_put_length (data : List Byte) (size w : Nat) (buf : List Byte)
    (hd : data.length = size) (hw : w < size) (hb : buf.length ≤ size) :
    (ring_put data size w buf).length = size := by
  unfold ring_put
  rw [copy_at_length, copy_at_length, hd]
  · simp only [List.length_take]; omega
  · rw [copy_at_length]
    · simp only [List.length_drop]; omega
    · simp only [List.length_take]; omega

/-- The byte at offset `j` after the split copy: a byte of `buf` when `j` lies
in the written span, the old byte otherwise. -/
theorem ring_put_getElem? (data : List Byte) (size w : Nat) (buf : List Byte)
    (hd : data.length = size) (hw : w < size) (hb : buf.length ≤ size) (j : Nat)
    (hj : j < size) :
    (ring_put data size w buf)[j]? =
      if (j + (size - w)) % size < buf.length then buf[(j + (size - w)) % size]?
      else data[j]? := by
  unfold ring_put
  rw [copy_at_getElem?, copy_at_getElem?]
  · rw [mod_lt_two _ _ (by omega)]
    simp only [List.length_take, List.length_drop, List.getElem?_take, List.getElem?_drop]
    by_cases hwrap : buf.length ≤ size - w
    · rw [Nat.min_eq_left hwrap, Nat.min_eq_left (le_refl _)]
      by_cases h1 : w ≤ j
      · have e1 : ¬ (j + (size - w) < size) := by omega
        have e2 : j + (size - w) - size = j - w := by omega
        have e3 : ¬ (0 ≤ j ∧ j < 0 + (buf.length - buf.length)) := by omega
        rw [if_neg e1, e2, if_neg e3]
        by_cases h2 : j < w + buf.length
        · have e4 : w ≤ j ∧ j < w + buf.length := by omega
          have e5 : j - w < buf.length := by omega
          rw [if_pos e4, if_pos e5, if_pos e5]
        · have e4 : ¬ (w ≤ j ∧ j < w + buf.length) := by omega
          have e5 : ¬ (j - w < buf.length) := by omega
          rw [if_neg e4, if_neg e5]
      · have e1 : j + (size - w) < size := by omega
        have e3 : ¬ (0 ≤ j ∧ j < 0 + (buf.length - buf.length)) := by omega
        have e4 : ¬ (w ≤ j ∧ j < w + buf.length) := by omega
        have e5 : ¬ (j + (size - w) < buf.length) := by omega
        rw [if_pos e1, if_neg e3, if_neg e4, if_neg e5]
    · have hmin : min buf.length (size - w) = size - w := by omega
      rw [hmin, Nat.min_eq_left (by omega)]
      by_cases h1 : w ≤ j
      · have e1 : ¬ (j + (size - w) < size) := by omega
        have e2 : j + (size - w) - size = j - w := by omega
        have e3 : ¬ (0 ≤ j ∧ j < 0 + (buf.length - (size - w))) := by omega
        have e4 : w ≤ j ∧ j < w + (size - w) := by omega
        have e5 : j - w < buf.length := by omega
        have e6 : j - w < size - w := by omega
        rw [if_neg e1, e2, if_neg e3, if_pos e4, if_pos e5, if_pos e6]
      · have e1 : j + (size - w) < size := by omega
        have e4 : ¬ (w ≤ j ∧ j < w + (size - w)) := by omega
        rw [if_pos e1]
        by_cases h2 : j + (size - w) < buf.length
        · have e3 : 0 ≤ j ∧ j < 0 + (buf.length - (size - w)) := by omega
          have e7 : size - w + (j - 0) = j + (size - w) := by omega
          rw [if_pos e3, if_pos h2, e7]
        · have e3 : ¬ (0 ≤ j ∧ j < 0 + (buf.length - (size - w))) := by omega
          rw [if_neg e3, if_neg h2, if_neg e4]
  · simp only [List.length_take]; omega
  · rw [copy_at_length]
    · simp only [List.length_drop]; omega
    · simp only [List.length_take]; omega

theorem ring_take_length (data : List Byte) (size start n : Nat)
    (hd : data.length = size) (hs : start < size) (hn : n ≤ size) :
    (ring_take data size start n).length = n := by
  unfold ring_take
  simp only [List.length_append, List.length_take, List.length_drop, hd]
  omega

/-- The `k`-th byte copied out of the ring is the byte `k` offsets past the
start, modulo the size. -/
theorem ring_take_getElem? (data : List Byte) (size start n : Nat)
    (hd : data.length = size) (hs : start < size) (hn : n ≤ size) (k : Nat) (hk : k < n) :
    (ring_take data size start n)[k]? = data[(start + k) % size]? := by
  unfold ring_take
  rw [List.getElem?_append, List.getElem?_take, List.getElem?_take, List.getElem?_drop,
    mod_lt_two _ _ (by omega)]
  simp only [List.length_take, List.length_drop, hd]
  by_cases h1 : start + k < size
  · have e1 : k < min (min n (size - start)) (size - start) := by omega
    have e2 : k < min n (size - start) := by omega
    rw [if_pos e1, if_pos e2, if_pos h1]
  · have e1 : ¬ (k < min (min n (size - start)) (size - start)) := by omega
    have e2 : k - min (min n (size - start)) (size - start) < n - min n (size - start) := by
      omega
    have e3 : k - min (min n (size - start)) (size - start) = start + k - size := by omega
    rw [if_neg e1, if_pos e2, if_neg h1, e3]

theorem list_eq_of_getElem? {α : Type} (l1 l2 : List α) (hl : l1.length = l2.length)
    (h : ∀ k, k < l1.length → l1[k]? = l2[k]?) : l1 = l2 := by
  apply List.ext_getElem?
  intro k
  by_cases hk : k < l1.length
  · exact h k hk
  · rw [List.getElem?_eq_none (by omega), List.getElem?_eq_none (by omega)]

/-- Copying out the span just copied in gives the bytes copied in. -/
theorem ring_take_put (data : List Byte) (size w : Nat) (buf : List Byte)
    (hd : data.length = size) (hw : w < size) (hb : buf.length < size) :
    ring_take (ring_put data size w buf) size w buf.length = buf := by
  have hl := ring_put_length data size w buf hd hw (by omega)
  apply list_eq_of_getElem?
  · exact ring_take_length _ size w buf.length hl hw (by omega)
  · intro k hk
    rw [ring_take_length _ size w buf.length hl hw (by omega)] at hk
    rw [ring_take_getElem? _ size w buf.length hl hw (by omega) k hk,
      ring_put_getElem? data size w buf hd hw (by omega) _ (Nat.mod_lt _ (by omega)),
      ring_rel_self size w k hw (by omega), if_pos hk]

/-- Two copies in a row, copied out as one span. -/
theorem ring_take_put_put (data : List Byte) (size w : Nat) (b1 b2 : List Byte)
    (hd : data.length = size) (hw : w < size) (hb : b1.length + b2.length < size) :
    ring_take (ring_put (ring_put data size w b1) size ((w + b1.length) % size) b2)
      size w (b1.length + b2.length) = b1 ++ b2 := by
  have hl1 := ring_put_length data size w b1 hd hw (by omega)
  have hw1 : (w + b1.length) % size < size := Nat.mod_lt _ (by omega)
  have hl2 := ring_put_length _ size _ b2 hl1 hw1 (by omega)
  apply list_eq_of_getElem?
  · rw [ring_take_length _ size w _ hl2 hw (by omega), List.length_append]
  · intro k hk
    rw [ring_take_length _ size w _ hl2 hw (by omega)] at hk
    rw [ring_take_getElem? _ size w _ hl2 hw (by omega) k hk,
      ring_put_getElem? _ size _ b2 hl1 hw1 (by omega) _ (Nat.mod_lt _ (by omega)),
      ring_rel_shift size w b1.length k hw (by omega) (by omega),
      List.getElem?_append]
    by_cases h1 : b1.length ≤ k
    · have e1 : k - b1.length < b2.length := by omega
      have e2 : ¬ (k < b1.length) := by omega
      rw [if_pos h1, if_pos e1, if_neg e2]
    · have e1 : ¬ (k + size - b1.length < b2.length) := by omega
      have e2 : k < b1.length := by omega
      rw [if_neg h1, if_neg e1, if_pos e2,
        ring_put_getElem? data size w b1 hd hw (by omega) _ (Nat.mod_lt _ (by omega)),
        ring_rel_self size w k hw (by omega), if_pos e2]

/-! ### Cursors and free space -/

theorem available_to_read_lt (r : Region) (h : 0 < r.size) : r.available_to_read < r.size :=
  Nat.mod_lt _ h

/-- The natural-number formula of `available_to_read` is `(write − read) mod
size` over the integers. -/
theorem available_to_read_int (r : Region) (h : r.WF) :
    (r.available_to_read : Int) = ((r.write : Int) - (r.read : Int)) % (r.size : Int) := by
  obtain ⟨h0, hw, hr, -⟩ := h
  unfold Region.available_to_read
  rw [Nat.mod_eq_of_lt hr]
  have e : ((r.write : Int) - (r.read : Int)) % (r.size : Int)
      = (((r.write + (r.size - r.read) : Nat) : Int)) % (r.size : Int) := by
    rw [← Int.add_emod_self]
    congr 1
    push_cast [Nat.cast_sub (le_of_lt hr)]
    ring
  rw [e]
  norm_cast

/-- A write of `n` bytes that fits makes `n` more bytes available to read. -/
theorem available_to_read_after_write (r r' : Region) (n : Nat) (h : r.WF)
    (hn : n ≤ r.available_to_write) (hsz : r'.size = r.size) (hrd : r'.read = r.read)
    (hwr : r'.write = (r.write + n) % r.size) :
    r'.available_to_read = r.available_to_read + n := by
  obtain ⟨h0, hw, hr, -⟩ := h
  unfold Region.available_to_write at hn
  unfold Region.available_to_read at hn ⊢
  rw [hsz, hrd, hwr]
  rw [Nat.mod_eq_of_lt hr] at hn ⊢
  rw [mod_lt_two (r.write + (r.size - r.read)) r.size (by omega)] at hn ⊢
  have hn' : n < r.size := by split_ifs at hn <;> omega
  rw [mod_lt_two (r.write + n) r.size (by omega)]
  split_ifs at hn ⊢ with h1 h2 <;>
    (rw [mod_lt_two _ r.size (by omega)]; split_ifs <;> omega)

/-! ### The registry -/

theorem update_regions_same (s : DmaState) (task : Nat) (e : Option TaskRegions) :
    (s.update task e).regions task = e := by
  simp [DmaState.update]

theorem update_regions_other (s : DmaState) (task t : Nat) (e : Option TaskRegions)
    (h : t ≠ task) : (s.update task e).regions t = s.regions t := by
  simp [DmaState.update, h]

theorem get_set_same (t : TaskRegions) (d : Direction) (r : Region) :
    (t.set d r).get d = r := by
  cases d <;> rfl

theorem get_set (t : TaskRegions) (d d' : Direction) (r : Region) :
    (t.set d r).get d' = if d' = d then r else t.get d' := by
  cases d <;> cases d' <;> rfl

/-! ### Every reachable registry is in good order -/

theorem wf_empty (P : Platform) : DmaState.empty.WF P := by
  intro task t h
  simp [DmaState.empty] at h

theorem wf_update_some (P : Platform) (s : DmaState) (task : Nat) (t : TaskRegions)
    (hs : s.WF P) (hk : task < P.num_tasks) (ht : ∀ d : Direction, (t.get d).WF) :
    (s.update task (some t)).WF P := by
  intro task' t' h
  by_cases e : task' = task
  · subst e
    rw [update_regions_same] at h
    cases h
    exact ⟨hk, ht⟩
  · rw [update_regions_other _ _ _ _ e] at h
    exact hs task' t' h

theorem wf_update_none (P : Platform) (s : DmaState) (task : Nat) (hs : s.WF P) :
    (s.update task none).WF P := by
  intro task' t' h
  by_cases e : task' = task
  · subst e
    rw [update_regions_same] at h
    cases h
  · rw [update_regions_other _ _ _ _ e] at h
    exact hs task' t' h

theorem fresh_wf (b : Block) (size : Nat) (h : 0 < size) : (Region.fresh b size).WF := by
  simp [Region.WF, Region.fresh, h]

theorem wf_alloc (P : Platform) (s : DmaState) (task a b : Nat)
    (pool : Option (Block × Block)) (hs : s.WF P) :
    (alloc_region P s task a b pool).state.WF P := by
  unfold alloc_region
  split_ifs with h1 h2 h3
  · exact hs
  · exact hs
  · exact hs
  · cases pool with
    | none => exact hs
    | some bb =>
      obtain ⟨b1, b2⟩ := bb
      apply wf_update_some P s task _ hs (by omega)
      have ha := round_to_align_ge P a
      have hb := round_to_align_ge P b
      intro d
      cases d
      · exact fresh_wf b1 _ (by omega)
      · exact fresh_wf b2 _ (by omega)

theorem wf_free (P : Platform) (s : DmaState) (task : Nat) (hs : s.WF P) :
    (free_region P s task).state.WF P := by
  unfold free_region
  split_ifs with h1
  · exact hs
  · cases h : s.regions task with
    | none => exact hs
    | some t => exact wf_update_none P s task hs

theorem wf_write (P : Platform) (s : DmaState) (task : Nat) (d : Direction)
    (buf : List Byte) (hs : s.WF P) : (write_region P s task d buf).state.WF P := by
  unfold write_region
  split_ifs with h1
  · exact hs
  · cases h : s.regions task with
    | none => exact hs
    | some t =>
      simp only
      split_ifs with h2
      · exact hs
      · obtain ⟨-, hwf⟩ := hs task t h
        apply wf_update_some P s task _ hs (by omega)
        intro d'
        rw [get_set]
        split_ifs with e
        · obtain ⟨h0, hw, hr, hd⟩ := hwf d
          have hav : (t.get d).available_to_write < (t.get d).size := by
            unfold Region.available_to_write; omega
          refine ⟨h0, Nat.mod_lt _ h0, hr, ?_⟩
          exact ring_put_length _ _ _ _ hd hw (by omega)
        · exact hwf d'

theorem wf_read (P : Platform) (s : DmaState) (task : Nat) (d : Direction)
    (n idx : Nat) (hs : s.WF P) : (read_region P s task d n idx).state.WF P := by
  unfold read_region
  split_ifs with h1
  · exact hs
  · cases h : s.regions task with
    | none => exact hs
    | some t =>
      simp only
      split_ifs with h2 <;> exact hs

theorem wf_drop (P : Platform) (s : DmaState) (task : Nat) (d : Direction)
    (n idx : Nat) (hs : s.WF P) : (drop_region P s task d n idx).state.WF P := by
  unfold drop_region
  split_ifs with h1 h0
  · exact hs
  · cases h : s.regions task with
    | none => exact hs
    | some t =>
      simp only
      split_ifs <;> exact hs
  · cases h : s.regions task with
    | none => exact hs
    | some t =>
      simp only
      split_ifs with h2
      · exact hs
      · obtain ⟨-, hwf⟩ := hs task t h
        apply wf_update_some P s task _ hs (by omega)
        intro d'
        rw [get_set]
        split_ifs with e
        · obtain ⟨h0, hw, hr, hd⟩ := hwf d
          exact ⟨h0, hw, Nat.mod_lt _ h0, hd⟩
        · exact hwf d'

/-- Every reachable registry is in good order. -/
theorem reachable_wf (P : Platform) (s : DmaState) (h : Reachable P s) : s.WF P := by
  induction h with
  | init => exact wf_empty P
  | alloc task a b pool _ ih => exact wf_alloc P _ task a b pool ih
  | free task _ ih => exact wf_free P _ task ih
  | write task d buf _ ih => exact wf_write P _ task d buf ih
  | read task d n idx _ ih => exact wf_read P _ task d n idx ih
  | drop task d n idx _ ih => exact wf_drop P _ task d n idx ih

/-! ### What the operations do on their success and failure paths -/

/-- What `write_region` does when the task is valid, owns a region and the
bytes fit. -/
theorem write_region_fits (P : Platform) (s : DmaState) (task : Nat) (d : Direction)
    (buf : List Byte) (t : TaskRegions) (hk : task < P.num_tasks)
    (ht : s.regions task = some t) (hfit : buf.length ≤ (t.get d).available_to_write) :
    write_region P s task d buf =
      ⟨s.update task (some (t.set d
          { t.get d with
            write := ((t.get d).write + buf.length) % (t.get d).size,
            data := ring_put (t.get d).data (t.get d).size (t.get d).write buf })),
        .ok (((t.get d).write + buf.length) % (t.get d).size)⟩ := by
  unfold write_region
  rw [if_neg (by omega), ht]
  simp only
  rw [if_neg (by omega)]

/-- What `write_region` does when the bytes do not fit. -/
theorem write_region_overflow (P : Platform) (s : DmaState) (task : Nat) (d : Direction)
    (buf : List Byte) (t : TaskRegions) (hk : task < P.num_tasks)
    (ht : s.regions task = some t) (hfit : (t.get d).available_to_write < buf.length) :
    write_region P s task d buf = ⟨s, .error .WouldOverflow⟩ := by
  unfold write_region
  rw [if_neg (by omega), ht]
  simp only
  rw [if_pos hfit]

/-- What `read_region` does when the task is valid, owns a region and the span
lies within the distance to the write cursor. -/
theorem read_region_within (P : Platform) (s : DmaState) (task : Nat) (d : Direction)
    (n idx : Nat) (t : TaskRegions) (hk : task < P.num_tasks)
    (ht : s.regions task = some t) (hfit : n ≤ (t.get d).distance idx) :
    read_region P s task d n idx =
      ⟨s, .ok (ring_take (t.get d).data (t.get d).size (idx % (t.get d).size) n)⟩ := by
  unfold read_region
  rw [if_neg (by omega), ht]
  simp only
  rw [if_neg (by omega)]

/-- A write that returns a cursor fitted the free space. -/
theorem write_region_ok_fits (P : Platform) (s : DmaState) (task : Nat) (d : Direction)
    (buf : List Byte) (t : TaskRegions) (w : Nat) (hk : task < P.num_tasks)
    (ht : s.regions task = some t)
    (hw : (write_region P s task d buf).result = .ok w) :
    buf.length ≤ (t.get d).available_to_write := by
  by_contra hc
  rw [write_region_overflow P s task d buf t hk ht (by omega)] at hw
  cases hw

/-- The registry `demo_near_end` is reachable: an allocation, a write and a
drop. -/
theorem demo_near_end_reachable : Reachable demo_platform demo_near_end :=
  Reachable.drop 1 .AP_TO_SCP 6 0
    (Reachable.write 1 .AP_TO_SCP [9, 9, 9, 9, 9, 9]
      (Reachable.alloc 1 8 8 _ Reachable.init))

/-- The registry `demo_allocated` is reachable: one allocation. -/
theorem demo_allocated_reachable : Reachable demo_platform demo_allocated :=
  Reachable.alloc 1 8 8 _ Reachable.init

/-! ### The claims about the ring channel -/

/-- C1. Round trip of the ring channel: in every reachable registry, for
every task that owns a region and every buffer of `n` bytes with
`0 < n < region_size`, whenever `write_region` returns a cursor `w`, that
cursor is the old write cursor `w0` advanced by `n` modulo the region size, and
`read_region` of `n` bytes at `w0` succeeds and gives back the buffer byte for
byte. -/
theorem write_then_read_round_trip (P : Platform) (s : DmaState) (hs : Reachable P s)
    (task : Nat) (d : Direction) (t : TaskRegions) (buf : List Byte) (w : Nat)
    (ht : s.regions task = some t)
    (hn : 0 < buf.length ∧ buf.length < (t.get d).size)
    (hw : (write_region P s task d buf).result = .ok w) :
    w = ((t.get d).write + buf.length) % (t.get d).size ∧
    (read_region P (write_region P s task d buf).state task d buf.length
        (t.get d).write).result = .ok buf := by
  obtain ⟨hk, hwf⟩ := reachable_wf P s hs task t ht
  obtain ⟨h0, hwr, hr, hd⟩ := hwf d
  have hfit := write_region_ok_fits P s task d buf t w hk ht hw
  rw [write_region_fits P s task d buf t hk ht hfit] at hw ⊢
  simp only at hw ⊢
  constructor
  · cases hw
    rfl
  · rw [read_region_within P _ task d buf.length (t.get d).write _ hk
      (update_regions_same _ _ _)]
    · simp only [get_set_same, Nat.mod_eq_of_lt hwr]
      rw [ring_take_put _ _ _ _ hd hwr hn.2]
    · simp only [get_set_same, Region.distance, Nat.mod_eq_of_lt hwr]
      rw [ring_rel_self _ _ _ hwr hn.2]

/-- C1, at a concrete input: five bytes written at cursor 6 of an 8-byte ring
wrap around its end and are read back unchanged. -/
theorem write_then_read_round_trip_witness :
    Reachable demo_platform demo_near_end ∧
    demo_near_end.regions 1 = some demo_near_end_regions ∧
    (write_region demo_platform demo_near_end 1 .AP_TO_SCP demo_first).result = .ok 3 ∧
    (read_region demo_platform
        (write_region demo_platform demo_near_end 1 .AP_TO_SCP demo_first).state
        1 .AP_TO_SCP 5 6).result = .ok demo_first :=
  ⟨demo_near_end_reachable, rfl, rfl,
    (write_then_read_round_trip demo_platform demo_near_end demo_near_end_reachable
      1 .AP_TO_SCP demo_near_end_regions demo_first 3 rfl (by decide) rfl).2⟩

/-- C2. Boundary of `write_region`: in every reachable registry, for every
task that owns a region, a write of exactly `available_to_write` bytes succeeds
(and returns the advanced cursor), and a write of `available_to_write + 1`
bytes returns `WouldOverflow` and leaves the whole state, cursors and bytes
included, as it was. -/
theorem write_region_boundary (P : Platform) (s : DmaState) (hs : Reachable P s)
    (task : Nat) (d : Direction) (t : TaskRegions) (ht : s.regions task = some t)
    (buf : List Byte) :
    (buf.length = (t.get d).available_to_write →
      (write_region P s task d buf).result
        = .ok (((t.get d).write + buf.length) % (t.get d).size)) ∧
    (buf.length = (t.get d).available_to_write + 1 →
      (write_region P s task d buf).result = .error .WouldOverflow ∧
      (write_region P s task d buf).state = s) := by
  obtain ⟨hk, -⟩ := reachable_wf P s hs task t ht
  constructor
  · intro h
    rw [write_region_fits P s task d buf t hk ht (by omega)]
  · intro h
    rw [write_region_overflow P s task d buf t hk ht (by omega)]
    exact ⟨rfl, rfl⟩

/-- C2, at a concrete input: a fresh 8-byte ring takes 7 bytes and refuses 8. -/
theorem write_region_boundary_witness :
    (demo_regions.get .AP_TO_SCP).available_to_write = 7 ∧
    (write_region demo_platform demo_allocated 1 .AP_TO_SCP [1, 2, 3, 4, 5, 6, 7]).result
      = .ok 7 ∧
    (write_region demo_platform demo_allocated 1 .AP_TO_SCP
      [1, 2, 3, 4, 5, 6, 7, 8]).result = .error .WouldOverflow :=
  ⟨rfl,
    (write_region_boundary demo_platform demo_allocated demo_allocated_reachable
      1 .AP_TO_SCP demo_regions rfl [1, 2, 3, 4, 5, 6, 7]).1 rfl,
    ((write_region_boundary demo_platform demo_allocated demo_allocated_reachable
      1 .AP_TO_SCP demo_regions rfl [1, 2, 3, 4, 5, 6, 7, 8]).2 rfl).1⟩

/-- C3, as stated, fails: in an 8-byte ring with the cursor at 6, two writes
of 5 bytes each fit individually and `5 + 5 > 8`, but the second write after
the first returns `WouldOverflow`, and reading the 10-byte span back returns
`WouldUnderflow`, also when the first 5 bytes are dropped in between so that
the second write succeeds: a ring of 8 bytes never holds 10. -/
theorem wraparound_span_counterexample :
    demo_near_end.regions 1 = some demo_near_end_regions ∧
    (demo_near_end_regions.get .AP_TO_SCP).size = 8 ∧
    (demo_near_end_regions.get .AP_TO_SCP).write = 6 ∧
    (write_region demo_platform demo_near_end 1 .AP_TO_SCP demo_first).result = .ok 3 ∧
    (write_region demo_platform demo_near_end 1 .AP_TO_SCP demo_second).result = .ok 3 ∧
    8 < demo_first.length + demo_second.length ∧
    (write_region demo_platform
        (write_region demo_platform demo_near_end 1 .AP_TO_SCP demo_first).state
        1 .AP_TO_SCP demo_second).result = .error .WouldOverflow ∧
    (read_region demo_platform
        (write_region demo_platform
          (write_region demo_platform demo_near_end 1 .AP_TO_SCP demo_first).state
          1 .AP_TO_SCP demo_second).state
        1 .AP_TO_SCP 10 6).result = .error .WouldUnderflow ∧
    (write_region demo_platform
        (drop_region demo_platform
          (write_region demo_platform demo_near_end 1 .AP_TO_SCP demo_first).state
          1 .AP_TO_SCP 5 6).state
        1 .AP_TO_SCP demo_second).result = .ok 0 ∧
    (read_region demo_platform
        (write_region demo_platform
          (drop_region demo_platform
            (write_region demo_platform demo_near_end 1 .AP_TO_SCP demo_first).state
            1 .AP_TO_SCP 5 6).state
          1 .AP_TO_SCP demo_second).state
        1 .AP_TO_SCP 10 6).result = .error .WouldUnderflow :=
  ⟨rfl, rfl, rfl, rfl, rfl, by decide, rfl, rfl, rfl, rfl⟩

/-- C3, amended. Wraparound: in every reachable registry, when a write of
`n1` bytes at cursor `w0` and a write of `n2` bytes right after it both
succeed, then `n1 + n2 < region_size`, and reading the `n1 + n2` bytes back
from `w0` gives the first buffer followed by the second, wherever the end of
the buffer falls inside the span. -/
theorem write_write_read_wraparound (P : Platform) (s : DmaState) (hs : Reachable P s)
    (task : Nat) (d : Direction) (t : TaskRegions) (b1 b2 : List Byte) (w1 w2 : Nat)
    (ht : s.regions task = some t)
    (h1 : (write_region P s task d b1).result = .ok w1)
    (h2 : (write_region P (write_region P s task d b1).state task d b2).result = .ok w2) :
    b1.length + b2.length < (t.get d).size ∧
    (read_region P (write_region P (write_region P s task d b1).state task d b2).state
        task d (b1.length + b2.length) (t.get d).write).result = .ok (b1 ++ b2) := by
  obtain ⟨hk, hwf⟩ := reachable_wf P s hs task t ht
  have hwfd := hwf d
  obtain ⟨h0, hwr, hr, hd⟩ := hwfd
  have hfit1 := write_region_ok_fits P s task d b1 t w1 hk ht h1
  rw [write_region_fits P s task d b1 t hk ht hfit1] at h2 ⊢
  simp only at h2 ⊢
  have hfit2 := write_region_ok_fits P _ task d b2 _ w2 hk (update_regions_same _ _ _) h2
  rw [get_set_same] at hfit2
  have hlt : b1.length + b2.length < (t.get d).size := by
    unfold Region.available_to_write at hfit2
    rw [available_to_read_after_write (t.get d)
      { t.get d with
        write := ((t.get d).write + b1.length) % (t.get d).size,
        data := ring_put (t.get d).data (t.get d).size (t.get d).write b1 }
      b1.length (hwf d) hfit1 rfl rfl rfl] at hfit2
    unfold Region.available_to_write at hfit1
    simp only at hfit2
    have := available_to_read_lt (t.get d) h0
    omega
  refine ⟨hlt, ?_⟩
  rw [write_region_fits P _ task d b2 _ hk (update_regions_same _ _ _)
    (by rw [get_set_same]; exact hfit2)]
  simp only
  rw [read_region_within P _ task d _ (t.get d).write _ hk (update_regions_same _ _ _)]
  · simp only [get_set_same, Nat.mod_eq_of_lt hwr]
    rw [ring_take_put_put _ _ _ _ _ hd hwr hlt]
  · simp only [get_set_same, Region.distance, Nat.mod_eq_of_lt hwr]
    have e : (((t.get d).write + b1.length) % (t.get d).size + b2.length) % (t.get d).size
        = ((t.get d).write + (b1.length + b2.length)) % (t.get d).size := by
      rw [Nat.mod_add_mod, Nat.add_assoc]
    rw [e, ring_rel_self _ _ _ hwr hlt]

/-- C3 amended, at a concrete input: 3 and 3 bytes written at cursor 6 of an
8-byte ring (`6 + 3 + 3 > 8`) are read back as one 6-byte span. -/
theorem write_write_read_wraparound_witness :
    (write_region demo_platform demo_near_end 1 .AP_TO_SCP [1, 2, 3]).result = .ok 1 ∧
    (write_region demo_platform
        (write_region demo_platform demo_near_end 1 .AP_TO_SCP [1, 2, 3]).state
        1 .AP_TO_SCP [4, 5, 6]).result = .ok 4 ∧
    (read_region demo_platform
        (write_region demo_platform
          (write_region demo_platform demo_near_end 1 .AP_TO_SCP [1, 2, 3]).state
          1 .AP_TO_SCP [4, 5, 6]).state
        1 .AP_TO_SCP 6 6).result = .ok [1, 2, 3, 4, 5, 6] :=
  ⟨rfl, rfl,
    (write_write_read_wraparound demo_platform demo_near_end demo_near_end_reachable
      1 .AP_TO_SCP demo_near_end_regions [1, 2, 3] [4, 5, 6] 1 4 rfl rfl rfl).2⟩

/-- C4. Ring invariant: in every registry reachable through `alloc_region`,
`free_region`, `write_region`, `read_region` and `drop_region`, each live
region has its write cursor and its read-tracking position inside
`0 .. size - 1`, its available-to-read count is `(write − read) mod size` over
the integers, and available-to-write is `size − available-to-read − 1` without
truncation: one slot is always reserved. -/
theorem ring_invariant (P : Platform) (s : DmaState) (hs : Reachable P s)
    (task : Nat) (t : TaskRegions) (ht : s.regions task = some t) (d : Direction) :
    0 ≤ (t.get d).write ∧ (t.get d).write < (t.get d).size ∧
    0 ≤ (t.get d).read ∧ (t.get d).read < (t.get d).size ∧
    ((t.get d).available_to_read : Int)
      = (((t.get d).write : Int) - ((t.get d).read : Int)) % ((t.get d).size : Int) ∧
    ((t.get d).available_to_write : Int)
      = ((t.get d).size : Int) - ((t.get d).available_to_read : Int) - 1 ∧
    (t.get d).available_to_write + (t.get d).available_to_read + 1 = (t.get d).size := by
  obtain ⟨-, hwf⟩ := reachable_wf P s hs task t ht
  have hwfd := hwf d
  obtain ⟨h0, hwr, hr, -⟩ := hwfd
  have := available_to_read_lt (t.get d) h0
  refine ⟨Nat.zero_le _, hwr, Nat.zero_le _, hr, available_to_read_int _ (hwf d), ?_, ?_⟩
  · unfold Region.available_to_write
    omega
  · unfold Region.available_to_write
    omega

/-- C4, at a concrete input: the ring with both cursors at 6 of 8 bytes has
nothing to read and 7 bytes of room. -/
theorem ring_invariant_witness :
    Reachable demo_platform demo_near_end ∧
    (demo_near_end_regions.get .AP_TO_SCP).write < 8 ∧
    (demo_near_end_regions.get .AP_TO_SCP).available_to_write
      + (demo_near_end_regions.get .AP_TO_SCP).available_to_read + 1 = 8 :=
  ⟨demo_near_end_reachable,
    (ring_invariant demo_platform demo_near_end demo_near_end_reachable 1
      demo_near_end_regions rfl .AP_TO_SCP).2.1,
    (ring_invariant demo_platform demo_near_end demo_near_end_reachable 1
      demo_near_end_regions rfl .AP_TO_SCP).2.2.2.2.2.2⟩

/-! ### `struct aud_ptr_t` and the path enumeration -/

/-- C5, as stated, fails: the 32-bit consumer reads 0 where the 64-bit
consumer wrote `2 ^ 32` (and passes 0 on to `get_audio_ipi_dma_vir_addr`), and
the 64-bit consumer reads `2 ^ 32 + 5` where the 32-bit consumer wrote 5 over a
structure whose upper word held 1. -/
theorem aud_ptr_round_trip_counterexample :
    read_addr_val .bits32 (write_addr_val .bits64 ⟨0, 0⟩ 4294967296) = 0 ∧
    read_addr_val .bits32 (write_addr_val .bits64 ⟨0, 0⟩ 4294967296) ≠ 4294967296 ∧
    phy_addr_val_param .bits32 4294967296 = 0 ∧
    read_addr_val .bits64 (write_addr_val .bits32 ⟨0, 1⟩ 5) = 4294967301 ∧
    read_addr_val .bits64 (write_addr_val .bits32 ⟨0, 1⟩ 5) ≠ 5 := by
  decide

/-- C5, amended. `struct aud_ptr_t` occupies 8 bytes for both kinds of
consumer, and an address value below `2 ^ 32` round-trips between them: the
32-bit consumer reads the number the 64-bit consumer wrote, and the 64-bit
consumer reads the number the 32-bit consumer wrote when the upper word
`dummy[1]` was zero before that write; either consumer passes the value on to
`get_audio_ipi_dma_vir_addr` unchanged. -/
theorem aud_ptr_round_trip_below_2_32 (p : aud_ptr_t) (v : Nat) (hv : v < 2 ^ 32) :
    aud_ptr_sizeof .bits32 = 8 ∧ aud_ptr_sizeof .bits64 = 8 ∧
    read_addr_val .bits32 (write_addr_val .bits64 p v) = v ∧
    (p.dummy1 = 0 → read_addr_val .bits64 (write_addr_val .bits32 p v) = v) ∧
    (∀ c : Consumer, phy_addr_val_param c v = v) := by
  refine ⟨rfl, rfl, ?_, ?_, ?_⟩
  · simp only [read_addr_val, write_addr_val]
    omega
  · intro h0
    simp only [read_addr_val, write_addr_val, h0]
    omega
  · intro c
    cases c
    · simp only [phy_addr_val_param, unsigned_long_bits]
      omega
    · simp only [phy_addr_val_param, unsigned_long_bits]
      omega

/-- C5 amended, at a concrete input: the address value 4096. -/
theorem aud_ptr_round_trip_below_2_32_witness :
    (4096 : Nat) < 2 ^ 32 ∧
    read_addr_val .bits32 (write_addr_val .bits64 ⟨7, 7⟩ 4096) = 4096 ∧
    read_addr_val .bits64 (write_addr_val .bits32 ⟨7, 0⟩ 4096) = 4096 :=
  ⟨by decide,
   (aud_ptr_round_trip_below_2_32 ⟨7, 7⟩ 4096 (by decide)).2.2.1,
   (aud_ptr_round_trip_below_2_32 ⟨7, 0⟩ 4096 (by decide)).2.2.2.1 rfl⟩

/-- C7. The path enumeration defines `AUDIO_IPI_DMA_AP_TO_SCP = 0` and
`AUDIO_IPI_DMA_SCP_TO_AP = 1` and no other path, so `NUM_AUDIO_IPI_DMA_PATH = 2`,
and a value is below it exactly when it is one of the two directions. -/
theorem dma_path_two_values :
    AUDIO_IPI_DMA_AP_TO_SCP = 0 ∧ AUDIO_IPI_DMA_SCP_TO_AP = 1 ∧
    NUM_AUDIO_IPI_DMA_PATH = 2 ∧
    audio_ipi_dma_paths = [0, 1] ∧
    audio_ipi_dma_paths.length = NUM_AUDIO_IPI_DMA_PATH ∧
    (∀ v : Nat, v < NUM_AUDIO_IPI_DMA_PATH ↔
      v = AUDIO_IPI_DMA_AP_TO_SCP ∨ v = AUDIO_IPI_DMA_SCP_TO_AP) ∧
    (∀ d : Direction, d.toPath < NUM_AUDIO_IPI_DMA_PATH) := by
  refine ⟨rfl, rfl, rfl, rfl, rfl, ?_, ?_⟩
  · intro v
    simp only [NUM_AUDIO_IPI_DMA_PATH, AUDIO_IPI_DMA_AP_TO_SCP, AUDIO_IPI_DMA_SCP_TO_AP]
    omega
  · intro d
    cases d <;> decide

/-! ### Frame properties of `read_region`, `drop_region` and `alloc_region` -/

/-- C12. `read_region` does not advance any cursor: for every task, direction,
size and `read_idx`, whatever the result, the state after the call is the state
before it, so the region's write cursor, read cursor and stored bytes are
unchanged; on an allocated region of a valid task the call fails with
`WouldUnderflow` exactly when the requested span exceeds the distance from
`read_idx` to the write cursor, and succeeds otherwise. -/
theorem read_region_advances_nothing (P : Platform) (s : DmaState) (task : Nat)
    (d : Direction) (data_size read_idx : Nat) :
    (read_region P s task d data_size read_idx).state = s ∧
    (∀ t, task < P.num_tasks → s.regions task = some t →
      (read_region P s task d data_size read_idx).state.regions task = some t ∧
      ((read_region P s task d data_size read_idx).result = .error .WouldUnderflow ↔
        (t.get d).distance read_idx < data_size) ∧
      ((t.get d).distance read_idx < data_size ∨
        ∃ out, (read_region P s task d data_size read_idx).result = .ok out)) := by
  have hstate : (read_region P s task d data_size read_idx).state = s := by
    unfold read_region
    split_ifs with h1
    · rfl
    · cases h : s.regions task with
      | none => rfl
      | some t =>
        simp only
        split_ifs with h2 <;> rfl
  refine ⟨hstate, ?_⟩
  intro t hk ht
  refine ⟨by rw [hstate]; exact ht, ?_, ?_⟩
  · by_cases hu : (t.get d).distance read_idx < data_size
    · simp only [hu, iff_true]
      unfold read_region
      rw [if_neg (by omega), ht]
      simp only
      rw [if_pos hu]
    · simp only [hu, iff_false]
      rw [read_region_within P s task d data_size read_idx t hk ht (by omega)]
      simp
  · by_cases hu : (t.get d).distance read_idx < data_size
    · left; exact hu
    · right
      rw [read_region_within P s task d data_size read_idx t hk ht (by omega)]
      exact ⟨_, rfl⟩

/-- C12, at a concrete input: reading 3 bytes at index 6 of the ring whose
write cursor stands at 6 fails with `WouldUnderflow` and leaves the regions of
task 1 as they were. -/
theorem read_region_advances_nothing_witness :
    (read_region demo_platform demo_near_end 1 .AP_TO_SCP 3 6).result
      = .error .WouldUnderflow ∧
    (read_region demo_platform demo_near_end 1 .AP_TO_SCP 3 6).state.regions 1
      = some demo_near_end_regions :=
  have h := (read_region_advances_nothing demo_platform demo_near_end 1 .AP_TO_SCP 3 6).2
    demo_near_end_regions (by decide) rfl
  ⟨h.2.1.mpr (by decide), h.1⟩

/-- C13. `drop_region(T, 0, idx)` is a true no-op: for every task, direction
and index the state after the call (cursors, region contents, registry) is the
state before it, whatever the result; on an allocated region of a valid task
the call succeeds, having dropped 0 bytes. -/
theorem drop_region_zero_no_op (P : Platform) (s : DmaState) (task : Nat)
    (d : Direction) (read_idx : Nat) :
    (drop_region P s task d 0 read_idx).state = s ∧
    (∀ t, task < P.num_tasks → s.regions task = some t →
      (drop_region P s task d 0 read_idx).result = .ok 0) := by
  constructor
  · unfold drop_region
    split_ifs with h1 h0
    · rfl
    · cases h : s.regions task with
      | none => rfl
      | some t =>
        simp only
        split_ifs <;> rfl
    · exact absurd rfl h0
  · intro t hk ht
    unfold drop_region
    rw [if_neg (by omega), ht]
    simp only
    rw [if_neg (by omega)]
    rfl

/-- C13, at a concrete input: dropping 0 bytes at index 3 of the ring whose
cursors stand at 6. -/
theorem drop_region_zero_no_op_witness :
    (drop_region demo_platform demo_near_end 1 .AP_TO_SCP 0 3).result = .ok 0 ∧
    (drop_region demo_platform demo_near_end 1 .AP_TO_SCP 0 3).state = demo_near_end :=
  ⟨(drop_region_zero_no_op demo_platform demo_near_end 1 .AP_TO_SCP 3).2
      demo_near_end_regions (by decide) rfl,
    (drop_region_zero_no_op demo_platform demo_near_end 1 .AP_TO_SCP 3).1⟩

/-- C14. At most one live region exists per (task, direction): `alloc_region`
for a valid task that already owns a region fails with `AlreadyExists` and
leaves the state as it was, and whatever its result it leaves the entry of a
task that owns a region (sizes, cursors, contents) unchanged; for a valid task
that owns none it fails with `InvalidArgument` when either requested size is
zero or exceeds the platform ceiling; and with such sizes it always fails, with
`InvalidArgument` or (the task owning a region already) `AlreadyExists`, and
leaves the state as it was. -/
theorem alloc_region_one_live_region (P : Platform) (s : DmaState) (task a b : Nat)
    (pool : Option (Block × Block)) :
    (∀ t, task < P.num_tasks → s.regions task = some t →
      (alloc_region P s task a b pool).result = .error .AlreadyExists ∧
      (alloc_region P s task a b pool).state = s) ∧
    (∀ t, s.regions task = some t →
      (alloc_region P s task a b pool).state.regions task = some t) ∧
    (task < P.num_tasks → s.regions task = none →
      (a = 0 ∨ b = 0 ∨ P.ceiling < a ∨ P.ceiling < b) →
      (alloc_region P s task a b pool).result = .error .InvalidArgument ∧
      (alloc_region P s task a b pool).state = s) ∧
    ((a = 0 ∨ b = 0 ∨ P.ceiling < a ∨ P.ceiling < b) →
      ((alloc_region P s task a b pool).result = .error .InvalidArgument ∨
        (alloc_region P s task a b pool).result = .error .AlreadyExists) ∧
      (alloc_region P s task a b pool).state = s) := by
  refine ⟨?_, ?_, ?_, ?_⟩
  · intro t hk ht
    unfold alloc_region
    rw [if_neg (by omega), if_pos (by rw [ht]; rfl)]
    exact ⟨rfl, rfl⟩
  · intro t ht
    unfold alloc_region
    split_ifs with h1 h2 h3
    · exact ht
    · exact ht
    · exact ht
    · rw [ht] at h2
      exact absurd rfl h2
  · intro hk hn hbad
    unfold alloc_region
    rw [if_neg (by omega), if_neg (by rw [hn]; simp), if_pos hbad]
    exact ⟨rfl, rfl⟩
  · intro hbad
    unfold alloc_region
    split_ifs with h1 h2
    · exact ⟨Or.inl rfl, rfl⟩
    · exact ⟨Or.inr rfl, rfl⟩
    · exact ⟨Or.inl rfl, rfl⟩

/-- C14, at a concrete input: task 1 owns its regions already; task 2 owns none
and asks for 0 bytes, then for more than the ceiling of 4096. -/
theorem alloc_region_one_live_region_witness :
    (alloc_region demo_platform demo_near_end 1 16 16 (some (⟨0, 0⟩, ⟨64, 64⟩))).result
      = .error .AlreadyExists ∧
    (alloc_region demo_platform demo_near_end 1 16 16
      (some (⟨0, 0⟩, ⟨64, 64⟩))).state.regions 1 = some demo_near_end_regions ∧
    (alloc_region demo_platform demo_near_end 2 0 16 (some (⟨0, 0⟩, ⟨64, 64⟩))).result
      = .error .InvalidArgument ∧
    (alloc_region demo_platform demo_near_end 2 16 4097 (some (⟨0, 0⟩, ⟨64, 64⟩))).result
      = .error .InvalidArgument :=
  ⟨((alloc_region_one_live_region demo_platform demo_near_end 1 16 16 _).1
      demo_near_end_regions (by decide) rfl).1,
    (alloc_region_one_live_region demo_platform demo_near_end 1 16 16 _).2.1
      demo_near_end_regions rfl,
    ((alloc_region_one_live_region demo_platform demo_near_end 2 0 16 _).2.2.1
      (by decide) rfl (Or.inl rfl)).1,
    ((alloc_region_one_live_region demo_platform demo_near_end 2 16 4097 _).2.2.1
      (by decide) rfl (Or.inr (Or.inr (Or.inr (by decide))))).1⟩

/-! ### Address translation after `free_region` -/

/-- An allocation that succeeds registered two fresh regions for a valid task
that owned none. -/
theorem alloc_region_ok (P : Platform) (s : DmaState) (task a b : Nat)
    (pool : Option (Block × Block))
    (h : (alloc_region P s task a b pool).result = .ok ()) :
    task < P.num_tasks ∧ s.regions task = none ∧
    ∃ b1 b2, pool = some (b1, b2) ∧
      (alloc_region P s task a b pool).state = s.update task (some
        { ap_to_scp := Region.fresh b1 (round_to_align P a),
          scp_to_ap := Region.fresh b2 (round_to_align P b) }) := by
  by_cases h1 : P.num_tasks ≤ task
  · unfold alloc_region at h
    rw [if_pos h1] at h
    cases h
  · by_cases h2 : (s.regions task).isSome = true
    · unfold alloc_region at h
      rw [if_neg h1, if_pos h2] at h
      cases h
    · by_cases h3 : a = 0 ∨ b = 0 ∨ P.ceiling < a ∨ P.ceiling < b
      · unfold alloc_region at h
        rw [if_neg h1, if_neg h2, if_pos h3] at h
        cases h
      · unfold alloc_region at h ⊢
        rw [if_neg h1, if_neg h2, if_neg h3] at h ⊢
        cases pool with
        | none => cases h
        | some bb =>
          obtain ⟨b1, b2⟩ := bb
          refine ⟨by omega, ?_, b1, b2, rfl, rfl⟩
          cases hr : s.regions task with
          | none => rfl
          | some t => rw [hr] at h2; exact absurd rfl h2

/-- Registering an entry for a task that had none and removing it again gives
the registry back. -/
theorem update_update_none (s : DmaState) (task : Nat) (e : Option TaskRegions)
    (h : s.regions task = none) : (s.update task e).update task none = s := by
  cases s with
  | mk regions =>
    simp only [DmaState.update, DmaState.mk.injEq]
    funext t
    by_cases ht : t = task
    · subst ht
      simp only [if_true]
      exact h.symm
    · simp only [ht, if_false]

/-- An address inside one of the two regions of a task translates. -/
theorem translate_isSome (t : TaskRegions) (d : Direction) (p : Nat)
    (h1 : (t.get d).phys ≤ p) (h2 : p < (t.get d).phys + (t.get d).size) :
    (t.translate p).isSome = true := by
  unfold TaskRegions.translate
  cases d with
  | AP_TO_SCP =>
    have e : t.ap_to_scp.translate p = some (t.ap_to_scp.virt + (p - t.ap_to_scp.phys)) := by
      unfold Region.translate
      rw [if_pos ⟨h1, h2⟩]
    rw [e]
    rfl
  | SCP_TO_AP =>
    have e : t.scp_to_ap.translate p = some (t.scp_to_ap.virt + (p - t.scp_to_ap.phys)) := by
      unfold Region.translate
      rw [if_pos ⟨h1, h2⟩]
    cases h : t.ap_to_scp.translate p with
    | none => simp [Option.orElse, e]
    | some v => rfl

/-- C15. For all tasks `T` and sizes `a`, `b`: when `alloc_region(T, a, b)`
succeeds, the following `free_region(T)` succeeds and gives back the registry
as it was before the allocation; so for every physical address inside one of
the two regions the allocation registered, and not inside a region that was
live before it, `get_virtual_address` translates the address while the region
is allocated and returns null after the region is freed. -/
theorem translate_null_after_free (P : Platform) (s : DmaState) (task a b : Nat)
    (pool : Option (Block × Block)) (dsp_instance_id : Nat)
    (halloc : (alloc_region P s task a b pool).result = .ok ()) :
    (free_region P (alloc_region P s task a b pool).state task).result = .ok () ∧
    (free_region P (alloc_region P s task a b pool).state task).state = s ∧
    (∀ t, (alloc_region P s task a b pool).state.regions task = some t →
      ∀ (d : Direction) (p : Nat),
        (t.get d).phys ≤ p → p < (t.get d).phys + (t.get d).size →
        get_virtual_address P s dsp_instance_id p = none →
        (get_virtual_address P (alloc_region P s task a b pool).state
          dsp_instance_id p).isSome = true ∧
        get_virtual_address P (free_region P (alloc_region P s task a b pool).state task).state
          dsp_instance_id p = none) := by
  obtain ⟨hk, hnone, b1, b2, -, hst⟩ := alloc_region_ok P s task a b pool halloc
  have hfree : free_region P (alloc_region P s task a b pool).state task = ⟨s, .ok ()⟩ := by
    unfold free_region
    rw [if_neg (by omega), hst, update_regions_same]
    simp only
    rw [update_update_none s task _ hnone]
  refine ⟨by rw [hfree], by rw [hfree], ?_⟩
  intro t ht d p h1 h2 hfresh
  refine ⟨?_, by rw [hfree]; exact hfresh⟩
  unfold get_virtual_address
  rw [List.findSome?_isSome_iff]
  refine ⟨task, List.mem_range.mpr hk, ?_⟩
  rw [ht]
  exact translate_isSome t d p h1 h2

/-- C15, at a concrete input: task 1 is given 8-byte regions at physical
addresses 4096 and 8192; address 8195 translates to 103 while they are
allocated and to null after `free_region`. -/
theorem translate_null_after_free_witness :
    get_virtual_address demo_platform demo_allocated 0 8195 = some 103 ∧
    get_virtual_address demo_platform (free_region demo_platform demo_allocated 1).state
      0 8195 = none :=
  have h := (translate_null_after_free demo_platform DmaState.empty 1 8 8
    (some (⟨4096, 0⟩, ⟨8192, 100⟩)) 0 rfl).2.2 demo_regions rfl .SCP_TO_AP 8195
    (by decide) (by decide) rfl
  ⟨rfl, h.2⟩

end AudioIpiDma

namespace St54Spi

/-! ### The construction loop of `st54spi_message` -/

/-- A pass of the loop that completes added `len` to the 32-bit `total` and
passed the range check. -/
theorem step_total (K : Kernel) (l l' : MsgLoop) (u : spi_ioc_transfer)
    (h : st54spi_message_step K l u = .ok l') :
    l'.total = (l.total + u.len) % UINT_RANGE ∧
    ¬ ((l.total + u.len) % UINT_RANGE > INT_MAX ∨ u.len > INT_MAX) := by
  unfold st54spi_message_step at h
  simp only at h
  split at h
  · cases h
  · rename_i hc
    refine ⟨?_, hc⟩
    split at h
    · cases h
    · split at h
      · cases h
      · cases h
        rfl

/-- A pass of the loop that jumps to `done` does so with `-EMSGSIZE` or
`-EFAULT`. -/
theorem step_error (K : Kernel) (l : MsgLoop) (u : spi_ioc_transfer) (e : Int × State)
    (h : st54spi_message_step K l u = .error e) :
    e.1 = -EMSGSIZE ∨ e.1 = -EFAULT := by
  unfold st54spi_message_step at h
  simp only at h
  split at h
  · cases h; left; rfl
  · split at h
    · rename_i e1 hrx
      cases h
      split at hrx
      · split at hrx
        · cases hrx; left; rfl
        · split at hrx
          · cases hrx; right; rfl
          · cases hrx
      · cases hrx
    · split at h
      · rename_i e1 htx
        cases h
        split at htx
        · split at htx
          · cases htx; left; rfl
          · split at htx
            · cases htx; right; rfl
            · cases htx
        · cases htx
      · cases h

/-- A pass of the loop that completes adds `len` to `total` without wrapping. -/
theorem step_total_exact (K : Kernel) (l l' : MsgLoop) (u : spi_ioc_transfer)
    (hl : l.total ≤ INT_MAX) (h : st54spi_message_step K l u = .ok l') :
    l'.total = l.total + u.len ∧ l'.total ≤ INT_MAX := by
  obtain ⟨h1, h2⟩ := step_total K l l' u h
  simp only [INT_MAX, UINT_RANGE] at *
  omega

/-- A pass of the loop over a transfer that is too long, or that takes the
total above `INT_MAX`, jumps to `done` with `-EMSGSIZE`. -/
theorem step_too_long (K : Kernel) (l : MsgLoop) (u : spi_ioc_transfer)
    (hl : l.total ≤ INT_MAX) (h : INT_MAX < u.len ∨ INT_MAX < l.total + u.len) :
    st54spi_message_step K l u = .error (-EMSGSIZE, l.st) := by
  unfold st54spi_message_step
  simp only
  rw [if_pos]
  simp only [INT_MAX, UINT_RANGE] at *
  omega

/-- When the loop completes, `total` is the exact sum of the lengths. -/
theorem build_total (K : Kernel) (xs : List spi_ioc_transfer) :
    ∀ (l l' : MsgLoop), l.total ≤ INT_MAX → st54spi_message_build K l xs = .ok l' →
      l'.total = l.total + (xs.map (·.len)).sum ∧ l'.total ≤ INT_MAX := by
  induction xs with
  | nil =>
    intro l l' hl h
    simp only [st54spi_message_build] at h
    cases h
    simp [hl]
  | cons u rest ih =>
    intro l l' hl h
    simp only [st54spi_message_build] at h
    split at h
    · cases h
    · rename_i l1 hstep
      obtain ⟨h1, h2⟩ := step_total_exact K l l1 u hl hstep
      obtain ⟨h3, h4⟩ := ih l1 l' h2 h
      refine ⟨?_, h4⟩
      simp only [List.map_cons, List.sum_cons]
      omega

theorem build_error (K : Kernel) (xs : List spi_ioc_transfer) :
    ∀ (l : MsgLoop) (e : Int × State), st54spi_message_build K l xs = .error e →
      e.1 = -EMSGSIZE ∨ e.1 = -EFAULT := by
  induction xs with
  | nil =>
    intro l e h
    simp only [st54spi_message_build] at h
    cases h
  | cons u rest ih =>
    intro l e h
    simp only [st54spi_message_build] at h
    split at h
    · rename_i e1 hstep
      cases h
      exact step_error K l u _ hstep
    · exact ih _ e h

/-- The loop over `pre ++ rest` is the loop over `pre` followed, when that
completes, by the loop over `rest`. -/
theorem build_append (K : Kernel) (pre rest : List spi_ioc_transfer) :
    ∀ (l : MsgLoop), st54spi_message_build K l (pre ++ rest) =
      match st54spi_message_build K l pre with
      | .error e => .error e
      | .ok l1 => st54spi_message_build K l1 rest := by
  induction pre with
  | nil => intro l; rfl
  | cons u pre ih =>
    intro l
    simp only [List.cons_append, st54spi_message_build]
    cases hs : st54spi_message_step K l u with
    | error e => rfl
    | ok l1 => exact ih l1

theorem copy_out_error (K : Kernel) (xs : List spi_ioc_transfer) :
    ∀ (st : State) (rx_buf : Nat) (e : Int × State),
      st54spi_message_copy_out K st rx_buf xs = .error e → e.1 = -EFAULT := by
  induction xs with
  | nil =>
    intro st rx_buf e h
    simp only [st54spi_message_copy_out] at h
    cases h
  | cons u rest ih =>
    intro st rx_buf e h
    simp only [st54spi_message_copy_out] at h
    split at h
    · split at h
      · cases h; rfl
      · exact ih _ _ e h
    · exact ih _ _ e h

/-- An `unsigned` value up to `INT_MAX` converts to the same `int`. -/
theorem int_of_unsigned_small (x : Nat) (h : x ≤ INT_MAX) :
    int_of_unsigned x = (x : Int) := by
  unfold int_of_unsigned
  have e : x % UINT_RANGE = x :=
    Nat.mod_eq_of_lt (by simp only [INT_MAX, UINT_RANGE] at *; omega)
  rw [e, if_pos h]

/-- Every status of `st54spi_message` is negative or the exact total. -/
theorem st54spi_message_status (K : Kernel) (st : State) (u_xfers : List spi_ioc_transfer) :
    (st54spi_message K st u_xfers).1 < 0 ∨
    ((st54spi_message K st u_xfers).1 = ((u_xfers.map (·.len)).sum : Nat) ∧
      (u_xfers.map (·.len)).sum ≤ INT_MAX) := by
  unfold st54spi_message
  split
  · left; simp [ENOMEM]
  · split
    · rename_i e hb
      left
      have := build_error K u_xfers _ e hb
      simp only [EMSGSIZE, EFAULT] at this
      omega
    · rename_i l hb
      obtain ⟨h1, h2⟩ := build_total K u_xfers _ l (by simp [INT_MAX]) hb
      simp only [Nat.zero_add] at h1
      simp only
      split
      · left; assumption
      · split
        · rename_i e hc
          left
          have := copy_out_error K u_xfers _ _ e hc
          simp only [EFAULT] at this
          omega
        · right
          rw [int_of_unsigned_small _ h2, h1]
          exact ⟨rfl, by omega⟩

/-! ### The claims about `st54spi.c` -/

/-- C8. `st54spi_message` returns the total length of the transfers as a
positive-int-range value: for every array of user transfers, a non-negative
status is the exact sum of all `len` fields and is at most `INT_MAX`; the
32-bit running `total` of every prefix the loop completes is the exact sum of
that prefix (it never wraps); and when the loop reaches a transfer whose `len`
exceeds `INT_MAX` or that takes the running total above `INT_MAX`, the
function returns `-EMSGSIZE`; with such a transfer anywhere in the array the
status is `-EMSGSIZE`, or else `-ENOMEM` (no memory for the kernel transfers)
or `-EFAULT` (an earlier transfer faulted), never a total. -/
theorem st54spi_message_total (K : Kernel) (st : State) (u_xfers : List spi_ioc_transfer) :
    (0 ≤ (st54spi_message K st u_xfers).1 →
      (st54spi_message K st u_xfers).1 = ((u_xfers.map (·.len)).sum : Nat) ∧
      (u_xfers.map (·.len)).sum ≤ INT_MAX) ∧
    (∀ (pre post : List spi_ioc_transfer) (l : MsgLoop),
      u_xfers = pre ++ post →
      st54spi_message_build K { st := st } pre = .ok l →
      l.total = (pre.map (·.len)).sum ∧ l.total ≤ INT_MAX) ∧
    (∀ (pre post : List spi_ioc_transfer) (u : spi_ioc_transfer) (l : MsgLoop),
      u_xfers = pre ++ u :: post →
      K.kcalloc u_xfers.length = true →
      st54spi_message_build K { st := st } pre = .ok l →
      (INT_MAX < u.len ∨ INT_MAX < (pre.map (·.len)).sum + u.len) →
      (st54spi_message K st u_xfers).1 = -EMSGSIZE) ∧
    (∀ (pre post : List spi_ioc_transfer) (u : spi_ioc_transfer),
      u_xfers = pre ++ u :: post →
      (INT_MAX < u.len ∨ INT_MAX < (pre.map (·.len)).sum + u.len) →
      (st54spi_message K st u_xfers).1 = -EMSGSIZE ∨
      (st54spi_message K st u_xfers).1 = -ENOMEM ∨
      (st54spi_message K st u_xfers).1 = -EFAULT) := by
  refine ⟨?_, ?_, ?_, ?_⟩
  · intro h
    rcases st54spi_message_status K st u_xfers with hneg | hok
    · omega
    · exact hok
  · intro pre post l _ hb
    obtain ⟨h1, h2⟩ := build_total K pre _ l (by simp [INT_MAX]) hb
    simp only [Nat.zero_add] at h1
    exact ⟨h1, h2⟩
  · intro pre post u l hx hk hb hbig
    subst hx
    obtain ⟨h1, h2⟩ := build_total K pre _ l (by simp [INT_MAX]) hb
    simp only [Nat.zero_add] at h1
    have hk' : (!K.kcalloc (pre ++ u :: post).length) = false := by rw [hk]; rfl
    unfold st54spi_message
    rw [hk', build_append, hb]
    simp only [st54spi_message_build, Bool.false_eq_true, if_false]
    rw [step_too_long K l u h2 (by omega)]
  · intro pre post u hx hbig
    subst hx
    unfold st54spi_message
    split
    · right; left; rfl
    · rw [build_append]
      cases hb : st54spi_message_build K { st := st } pre with
      | error e =>
        rcases build_error K pre _ e hb with h | h
        · left; exact h
        · right; right; exact h
      | ok l =>
        obtain ⟨h1, h2⟩ := build_total K pre _ l (by simp [INT_MAX]) hb
        simp only [Nat.zero_add] at h1
        simp only [st54spi_message_build]
        rw [step_too_long K l u h2 (by omega)]
        left; rfl

/-- C8, at a concrete input: transfers of 3 and 5 bytes return 8; a second
transfer of `2 ^ 31` bytes returns `-EMSGSIZE`. -/
theorem st54spi_message_total_witness :
    (st54spi_message demo_kernel demo_open demo_xfers).1 = 8 ∧
    (st54spi_message demo_kernel demo_open demo_xfers_long).1 = -EMSGSIZE :=
  ⟨((st54spi_message_total demo_kernel demo_open demo_xfers).1 (by decide)).1,
   (st54spi_message_total demo_kernel demo_open demo_xfers_long).2.2.1
     [{ tx_buf := 4096, len := 3 }] [] { rx_buf := 8192, len := 2147483648 } _
     rfl rfl rfl (Or.inl (by decide))⟩

/-- `st54spi_sync` with `spi == NULL`: `-ESHUTDOWN`, nothing else happens. -/
theorem st54spi_sync_null (K : Kernel) (st : State) (message : List spi_transfer)
    (h : st.dev.spi = none) : st54spi_sync K st message = (-ESHUTDOWN, st) := by
  unfold st54spi_sync
  rw [h]
  rfl

/-- `st54spi_ioctl` with `spi == NULL`, past the type and access checks. -/
theorem st54spi_ioctl_null (K : Kernel) (st : State) (cmd arg : Nat)
    (h : st.dev.spi = none) (hm : _IOC_TYPE cmd = SPI_IOC_MAGIC)
    (ha : arg_accessible K cmd arg) :
    st54spi_ioctl K st cmd arg = (-ESHUTDOWN, st) := by
  obtain ⟨ha1, ha2⟩ := ha
  unfold st54spi_ioctl
  rw [if_neg (by simp [hm])]
  simp only
  by_cases hr : _IOC_DIR cmd &&& _IOC_READ ≠ 0
  · by_cases hw : _IOC_DIR cmd &&& _IOC_WRITE ≠ 0
    · simp [hr, hw, ha1 hr, ha2 hw, h]
    · simp [hr, hw, ha1 hr, h]
  · by_cases hw : _IOC_DIR cmd &&& _IOC_WRITE ≠ 0
    · simp [hr, hw, ha2 hw, h]
    · simp [hr, hw, h]

/-- C9. `bufsiz` bounds the data bytes of a message: for every
`count > bufsiz`, `st54spi_read` and `st54spi_write` return `-EMSGSIZE` and
leave the state as it was: the bounce buffers are untouched and the trace
gains no user copy and no SPI transfer. -/
theorem read_write_emsgsize (K : Kernel) (st : State) (buf count : Nat)
    (h : count > K.bufsiz) :
    st54spi_read K st buf count = (-EMSGSIZE, st) ∧
    st54spi_write K st buf count = (-EMSGSIZE, st) := by
  constructor
  · unfold st54spi_read
    rw [if_pos h]
  · unfold st54spi_write
    rw [if_pos h]

/-- C9, at a concrete input: 17 bytes with `bufsiz = 16`. -/
theorem read_write_emsgsize_witness :
    17 > demo_kernel.bufsiz ∧
    st54spi_read demo_kernel demo_open 4096 17 = (-EMSGSIZE, demo_open) ∧
    st54spi_write demo_kernel demo_open 4096 17 = (-EMSGSIZE, demo_open) :=
  ⟨by decide, read_write_emsgsize demo_kernel demo_open 4096 17 (by decide)⟩

/-- C10. Operations on existing file descriptors abort cleanly once the
device is gone: `st54spi_remove` leaves `st54spi->spi` NULL, and whenever it is
NULL `st54spi_sync` returns `-ESHUTDOWN` without calling `spi_sync` (the state
and its trace are unchanged), so `st54spi_read` (`count <= bufsiz`),
`st54spi_write` (`count <= bufsiz`, user copy succeeding) and `st54spi_ioctl`
(SPI magic type, accessible argument) return `-ESHUTDOWN`; when `spi` is
non-NULL `st54spi_sync` returns the status of `spi_sync` if that is non-zero
and otherwise `message->actual_length` converted to `int`, which is
`actual_length` itself up to `INT_MAX`. -/
theorem shutdown_when_spi_null (K : Kernel) (st : State) :
    (st.dev.spi = none →
      (∀ message, st54spi_sync K st message = (-ESHUTDOWN, st)) ∧
      (∀ buf count, count ≤ K.bufsiz → (st54spi_read K st buf count).1 = -ESHUTDOWN) ∧
      (∀ buf count, count ≤ K.bufsiz → (K.copy_from_user buf count).1 = 0 →
        (st54spi_write K st buf count).1 = -ESHUTDOWN) ∧
      (∀ cmd arg, _IOC_TYPE cmd = SPI_IOC_MAGIC → arg_accessible K cmd arg →
        st54spi_ioctl K st cmd arg = (-ESHUTDOWN, st))) ∧
    (st54spi_remove st).2.dev.spi = none ∧
    (∀ spi message, st.dev.spi = some spi →
      (st54spi_sync K st message).1 =
        (if (K.spi_sync spi message st.dev.rx_buffer).status ≠ 0 then
          (K.spi_sync spi message st.dev.rx_buffer).status
        else int_of_unsigned (K.spi_sync spi message st.dev.rx_buffer).actual_length) ∧
      ((K.spi_sync spi message st.dev.rx_buffer).status = 0 →
        (K.spi_sync spi message st.dev.rx_buffer).actual_length ≤ INT_MAX →
        (st54spi_sync K st message).1 =
          ((K.spi_sync spi message st.dev.rx_buffer).actual_length : Int))) := by
  refine ⟨?_, ?_, ?_⟩
  · intro h
    refine ⟨fun m => st54spi_sync_null K st m h, ?_, ?_, ?_⟩
    · intro buf count hc
      unfold st54spi_read st54spi_sync_read
      rw [if_neg (by omega), st54spi_sync_null K st _ h]
      simp [ESHUTDOWN]
    · intro buf count hc hm
      unfold st54spi_write st54spi_sync_write
      rw [if_neg (by omega)]
      cases hcu : K.copy_from_user buf count with
      | mk missing bytes =>
        rw [hcu] at hm
        simp only at hm
        simp only [hm, if_true]
        rw [st54spi_sync_null K _ _ (by exact h)]
    · intro cmd arg hm ha
      exact st54spi_ioctl_null K st cmd arg h hm ha
  · unfold st54spi_remove
    simp only
    split <;> rfl
  · intro spi message h
    have e : (st54spi_sync K st message).1 =
        (if (K.spi_sync spi message st.dev.rx_buffer).status ≠ 0 then
          (K.spi_sync spi message st.dev.rx_buffer).status
        else int_of_unsigned (K.spi_sync spi message st.dev.rx_buffer).actual_length) := by
      unfold st54spi_sync
      rw [h]
      simp only
      by_cases hs : (K.spi_sync spi message st.dev.rx_buffer).status = 0
      · simp [hs]
      · simp [hs]
    refine ⟨e, ?_⟩
    intro hs hl
    rw [e, if_neg (by simp [hs]), int_of_unsigned_small _ hl]

/-- C10, at a concrete input: the opened device after `st54spi_remove`, and
the same device before it, reading 4 bytes. -/
theorem shutdown_when_spi_null_witness :
    demo_removed.dev.spi = none ∧
    (st54spi_read demo_kernel demo_removed 4096 4).1 = -ESHUTDOWN ∧
    (st54spi_write demo_kernel demo_removed 4096 4).1 = -ESHUTDOWN ∧
    st54spi_ioctl demo_kernel demo_removed SPI_IOC_RD_MODE 4096
      = (-ESHUTDOWN, demo_removed) ∧
    (st54spi_sync demo_kernel demo_open [{ rx_buf := some 0, len := 4 }]).1 = 4 :=
  ⟨rfl,
    ((shutdown_when_spi_null demo_kernel demo_removed).1 rfl).2.1 4096 4 (by decide),
    ((shutdown_when_spi_null demo_kernel demo_removed).1 rfl).2.2.1 4096 4 (by decide) rfl,
    ((shutdown_when_spi_null demo_kernel demo_removed).1 rfl).2.2.2 SPI_IOC_RD_MODE 4096
      (by decide) ⟨fun _ => rfl, fun _ => rfl⟩,
    ((shutdown_when_spi_null demo_kernel demo_open).2.2 { max_speed_hz := 1000000 }
      [{ rx_buf := some 0, len := 4 }] rfl).2 rfl (by decide)⟩

/-! ### The bounce buffers of `st54spi_message` -/

/-- A pass of the loop that completes keeps the invariant, adds `len` to the
totals of the buffers the transfer uses, and appends one kernel transfer that
points at the cursors as they stood before the pass. -/
theorem step_layout (K : Kernel) (l l' : MsgLoop) (u : spi_ioc_transfer)
    (hI : l.Inv K) (h : st54spi_message_step K l u = .ok l') :
    l'.Inv K ∧ l'.rx_total = l.rx_total + rx_len u ∧ l'.tx_total = l.tx_total + tx_len u ∧
    ∃ k, l'.k_xfers = l.k_xfers ++ [k] ∧ k.len = u.len ∧
      k.rx_buf = (if u.rx_buf ≠ 0 then some l.rx_total else none) ∧
      k.tx_buf = (if u.tx_buf ≠ 0 then some l.tx_total else none) ∧
      (u.rx_buf ≠ 0 → l.rx_total + u.len ≤ K.bufsiz) ∧
      (u.tx_buf ≠ 0 → l.tx_total + u.len ≤ K.bufsiz) := by
  obtain ⟨hT, hrT, htT, hrB, htB, hrb, htb⟩ := hI
  obtain ⟨ht1, ht2⟩ := step_total_exact K l l' u hT h
  unfold st54spi_message_step at h
  simp only at h
  split at h
  · cases h
  · split at h
    · cases h
    · rename_i rx_total rx_buf k_rx hrx
      split at h
      · cases h
      · rename_i tx_total tx_buf k_tx st1 htx
        cases h
        simp only at ht1 ht2
        have hR : (u.rx_buf ≠ 0 ∧ rx_total = l.rx_total + u.len ∧ rx_total ≤ K.bufsiz ∧
              rx_buf = l.rx_buf + u.len ∧ k_rx = some l.rx_buf) ∨
            (u.rx_buf = 0 ∧ rx_total = l.rx_total ∧ rx_buf = l.rx_buf ∧ k_rx = none) := by
          split at hrx
          · rename_i hc
            split at hrx
            · cases hrx
            · rename_i hb
              split at hrx
              · cases hrx
              · cases hrx
                left
                refine ⟨hc, ?_, by omega, rfl, rfl⟩
                simp only [INT_MAX, UINT_RANGE] at *
                omega
          · rename_i hc
            cases hrx
            right
            exact ⟨by simpa using hc, rfl, rfl, rfl⟩
        have hX : (u.tx_buf ≠ 0 ∧ tx_total = l.tx_total + u.len ∧ tx_total ≤ K.bufsiz ∧
              tx_buf = l.tx_buf + u.len ∧ k_tx = some l.tx_buf) ∨
            (u.tx_buf = 0 ∧ tx_total = l.tx_total ∧ tx_buf = l.tx_buf ∧ k_tx = none) := by
          split at htx
          · rename_i hc
            split at htx
            · cases htx
            · rename_i hb
              split at htx
              · cases htx
              · cases htx
                left
                refine ⟨hc, ?_, by omega, rfl, rfl⟩
                simp only [INT_MAX, UINT_RANGE] at *
                omega
          · rename_i hc
            cases htx
            right
            exact ⟨by simpa using hc, rfl, rfl, rfl⟩
        unfold MsgLoop.Inv rx_len tx_len
        simp only
        rcases hR with ⟨r0, r1, r2, r3, r4⟩ | ⟨r0, r1, r2, r3⟩ <;>
        rcases hX with ⟨x0, x1, x2, x3, x4⟩ | ⟨x0, x1, x2, x3⟩
        all_goals subst_vars
        all_goals refine ⟨⟨?_, ?_, ?_, ?_, ?_, ?_, ?_⟩, ?_, ?_, _, rfl, rfl, ?_, ?_, ?_, ?_⟩
        all_goals try simp only [r0, x0, hrb, htb, ne_eq, not_true_eq_false, not_false_eq_true,
          if_true, if_false, Nat.add_zero, false_implies, true_implies]
        all_goals omega

/-- The invariant holds of the zeroed variables the loop starts from. -/
theorem inv_init (K : Kernel) (st : State) : MsgLoop.Inv K { st := st } := by
  unfold MsgLoop.Inv
  simp [INT_MAX]

/-- When the loop completes, the two totals are the exact sums of the lengths
they count and one kernel transfer was appended for each user transfer. -/
theorem build_layout (K : Kernel) (xs : List spi_ioc_transfer) :
    ∀ (l l' : MsgLoop), l.Inv K → st54spi_message_build K l xs = .ok l' →
      l'.Inv K ∧ l'.rx_total = l.rx_total + (xs.map rx_len).sum ∧
      l'.tx_total = l.tx_total + (xs.map tx_len).sum ∧
      ∃ ks, l'.k_xfers = l.k_xfers ++ ks ∧ ks.length = xs.length := by
  induction xs with
  | nil =>
    intro l l' hI h
    simp only [st54spi_message_build] at h
    cases h
    exact ⟨hI, by simp, by simp, [], by simp, rfl⟩
  | cons u rest ih =>
    intro l l' hI h
    simp only [st54spi_message_build] at h
    split at h
    · cases h
    · rename_i l1 hstep
      obtain ⟨hI1, hr1, ht1, k, hk, -⟩ := step_layout K l l1 u hI hstep
      obtain ⟨hI2, hr2, ht2, ks, hks, hlen⟩ := ih l1 l' hI1 h
      refine ⟨hI2, ?_, ?_, k :: ks, ?_, ?_⟩
      · simp only [List.map_cons, List.sum_cons]; omega
      · simp only [List.map_cons, List.sum_cons]; omega
      · rw [hks, hk]; simp
      · simp [hlen]

/-- The kernel transfer the completed loop made of the user transfer that
follows the prefix `pre`. -/
theorem build_at (K : Kernel) (st : State) (pre post : List spi_ioc_transfer)
    (u : spi_ioc_transfer) (l : MsgLoop)
    (h : st54spi_message_build K { st := st } (pre ++ u :: post) = .ok l) :
    ∃ k, l.k_xfers[pre.length]? = some k ∧ k.len = u.len ∧
      k.rx_buf = (if u.rx_buf ≠ 0 then some (pre.map rx_len).sum else none) ∧
      k.tx_buf = (if u.tx_buf ≠ 0 then some (pre.map tx_len).sum else none) ∧
      (u.rx_buf ≠ 0 → (pre.map rx_len).sum + u.len ≤ K.bufsiz) ∧
      (u.tx_buf ≠ 0 → (pre.map tx_len).sum + u.len ≤ K.bufsiz) := by
  rw [build_append] at h
  cases hb : st54spi_message_build K { st := st } pre with
  | error e => rw [hb] at h; cases h
  | ok l1 =>
    rw [hb] at h
    simp only [st54spi_message_build] at h
    split at h
    · cases h
    · rename_i l2 hstep
      obtain ⟨hI1, hr1, ht1, ks1, hks1, hlen1⟩ := build_layout K pre _ l1 (inv_init K st) hb
      obtain ⟨hI2, -, -, k, hk, a1, a2, a3, a4, a5⟩ := step_layout K l1 l2 u hI1 hstep
      obtain ⟨-, -, -, ks3, hks3, -⟩ := build_layout K post l2 l hI2 h
      simp only [Nat.zero_add] at hr1 ht1
      simp only [List.nil_append] at hks1
      refine ⟨k, ?_, a1, ?_, ?_, ?_, ?_⟩
      · rw [hks3, hk, hks1, ← hlen1, List.append_assoc,
          List.getElem?_append_right (Nat.le_refl _)]
        simp
      · rw [a2, hr1]
      · rw [a3, ht1]
      · rw [← hr1]; exact a4
      · rw [← ht1]; exact a5

/-- A list splits around its element at an index. -/
theorem split_at_index {α : Type} (xs : List α) :
    ∀ (i : Nat) (u : α), xs[i]? = some u →
      xs = xs.take i ++ u :: xs.drop (i + 1) ∧ (xs.take i).length = i := by
  induction xs with
  | nil => intro i u h; simp at h
  | cons a t ih =>
    intro i u h
    cases i with
    | zero =>
      simp only [List.getElem?_cons_zero, Option.some.injEq] at h
      subst h
      simp
    | succ i =>
      simp only [List.getElem?_cons_succ] at h
      obtain ⟨h1, h2⟩ := ih i u h
      refine ⟨?_, by simp [h2]⟩
      simp only [List.take_succ_cons, List.drop_succ_cons, List.cons_append]
      rw [← h1]

/-- A prefix sum plus the next element is at most every longer prefix sum. -/
theorem take_sum_succ_le (ys : List Nat) :
    ∀ (i j y : Nat), ys[i]? = some y → i < j → (ys.take i).sum + y ≤ (ys.take j).sum := by
  induction ys with
  | nil => intro i j y h; simp at h
  | cons a t ih =>
    intro i j y h hij
    cases j with
    | zero => omega
    | succ j =>
      cases i with
      | zero =>
        simp only [List.getElem?_cons_zero, Option.some.injEq] at h
        subst h
        simp
      | succ i =>
        simp only [List.getElem?_cons_succ] at h
        have := ih i j y h (by omega)
        simp only [List.take_succ_cons, List.sum_cons]
        omega

/-- The kernel transfer the completed loop made of the user transfer at an
index. -/
theorem build_index (K : Kernel) (st : State) (xs : List spi_ioc_transfer) (l : MsgLoop)
    (h : st54spi_message_build K { st := st } xs = .ok l) (i : Nat) (u : spi_ioc_transfer)
    (hu : xs[i]? = some u) :
    ∃ k, l.k_xfers[i]? = some k ∧ k.len = u.len ∧
      k.rx_buf = (if u.rx_buf ≠ 0 then some ((xs.take i).map rx_len).sum else none) ∧
      k.tx_buf = (if u.tx_buf ≠ 0 then some ((xs.take i).map tx_len).sum else none) ∧
      (u.rx_buf ≠ 0 → ((xs.take i).map rx_len).sum + u.len ≤ K.bufsiz) ∧
      (u.tx_buf ≠ 0 → ((xs.take i).map tx_len).sum + u.len ≤ K.bufsiz) := by
  obtain ⟨e, hl⟩ := split_at_index xs i u hu
  have h' : st54spi_message_build K { st := st } (xs.take i ++ u :: xs.drop (i + 1)) = .ok l := by
    rw [← e]; exact h
  have := build_at K st (xs.take i) (xs.drop (i + 1)) u l h'
  rw [hl] at this
  exact this

/-- The user transfer a kernel transfer of the completed loop was made of. -/
theorem build_index_inv (K : Kernel) (st : State) (xs : List spi_ioc_transfer) (l : MsgLoop)
    (h : st54spi_message_build K { st := st } xs = .ok l) (i : Nat) (k : spi_transfer)
    (hk : l.k_xfers[i]? = some k) :
    ∃ u, xs[i]? = some u ∧ k.len = u.len ∧
      k.rx_buf = (if u.rx_buf ≠ 0 then some ((xs.take i).map rx_len).sum else none) ∧
      k.tx_buf = (if u.tx_buf ≠ 0 then some ((xs.take i).map tx_len).sum else none) ∧
      (u.rx_buf ≠ 0 → ((xs.take i).map rx_len).sum + u.len ≤ K.bufsiz) ∧
      (u.tx_buf ≠ 0 → ((xs.take i).map tx_len).sum + u.len ≤ K.bufsiz) := by
  obtain ⟨-, -, -, ks, hks, hlen⟩ := build_layout K xs _ l (inv_init K st) h
  simp only [List.nil_append] at hks
  have hi : i < xs.length := by
    rw [← hlen, ← hks]
    by_contra hc
    rw [List.getElem?_eq_none (by omega)] at hk
    cases hk
  have hu : xs[i]? = some xs[i] := List.getElem?_eq_getElem hi
  obtain ⟨k', hk', rest⟩ := build_index K st xs l h i xs[i] hu
  rw [hk] at hk'
  cases hk'
  exact ⟨xs[i], hu, rest⟩

/-- C16. Bounce-buffer bound in `st54spi_message`: for every transfer array
and every `bufsiz`, whenever the construction loop completes, the `len`s of the
transfers that have an `rx_buf` sum to at most `bufsiz` and likewise those with
a `tx_buf`; the 32-bit running sums `rx_total` and `tx_total` are these exact
sums, also after every prefix of the array (they never wrap); there is one
kernel transfer per user transfer, with the same `len`, whose `rx_buf`
(`tx_buf`) is NULL when the user transfer has none and otherwise the bounce
buffer base plus the sum of the `len`s of the earlier rx (tx) transfers; so the
byte range of every kernel transfer lies inside the `bufsiz`-byte bounce buffer
and the ranges of two different transfers in the same buffer do not overlap;
and these kernel transfers are the message `st54spi_message` hands to
`st54spi_sync`. -/
theorem bounce_buffer_bound (K : Kernel) (st : State) (xs : List spi_ioc_transfer)
    (l : MsgLoop) (h : st54spi_message_build K { st := st } xs = .ok l) :
    (l.rx_total = (xs.map rx_len).sum ∧ (xs.map rx_len).sum ≤ K.bufsiz ∧
      l.tx_total = (xs.map tx_len).sum ∧ (xs.map tx_len).sum ≤ K.bufsiz) ∧
    (∀ (pre post : List spi_ioc_transfer) (l1 : MsgLoop), xs = pre ++ post →
      st54spi_message_build K { st := st } pre = .ok l1 →
      l1.rx_total = (pre.map rx_len).sum ∧ l1.tx_total = (pre.map tx_len).sum) ∧
    l.k_xfers.length = xs.length ∧
    (∀ (i : Nat) (u : spi_ioc_transfer), xs[i]? = some u →
      ∃ k, l.k_xfers[i]? = some k ∧ k.len = u.len ∧
        k.rx_buf = (if u.rx_buf ≠ 0 then some ((xs.take i).map rx_len).sum else none) ∧
        k.tx_buf = (if u.tx_buf ≠ 0 then some ((xs.take i).map tx_len).sum else none)) ∧
    (∀ (i : Nat) (k : spi_transfer) (o : Nat), l.k_xfers[i]? = some k →
      (k.rx_buf = some o → o + k.len ≤ K.bufsiz) ∧
      (k.tx_buf = some o → o + k.len ≤ K.bufsiz)) ∧
    (∀ (i j : Nat) (ki kj : spi_transfer) (oi oj : Nat), i < j →
      l.k_xfers[i]? = some ki → l.k_xfers[j]? = some kj →
      (ki.rx_buf = some oi → kj.rx_buf = some oj → oi + ki.len ≤ oj) ∧
      (ki.tx_buf = some oi → kj.tx_buf = some oj → oi + ki.len ≤ oj)) ∧
    (K.kcalloc xs.length = true →
      st54spi_message K st xs =
        if (st54spi_sync K l.st l.k_xfers).1 < 0 then st54spi_sync K l.st l.k_xfers
        else
          match st54spi_message_copy_out K (st54spi_sync K l.st l.k_xfers).2 0 xs with
          | .error e => e
          | .ok st2 => (int_of_unsigned l.total, st2)) := by
  obtain ⟨hI, hr, ht, ks, hks, hlen⟩ := build_layout K xs _ l (inv_init K st) h
  simp only [Nat.zero_add, List.nil_append] at hr ht hks
  obtain ⟨-, -, -, hrB, htB, -, -⟩ := hI
  refine ⟨⟨hr, by omega, ht, by omega⟩, ?_, by rw [hks, hlen], ?_, ?_, ?_, ?_⟩
  · intro pre post l1 _ hb
    obtain ⟨-, hr1, ht1, -⟩ := build_layout K pre _ l1 (inv_init K st) hb
    simp only [Nat.zero_add] at hr1 ht1
    exact ⟨hr1, ht1⟩
  · intro i u hu
    obtain ⟨k, a0, a1, a2, a3, -⟩ := build_index K st xs l h i u hu
    exact ⟨k, a0, a1, a2, a3⟩
  · intro i k o hk
    obtain ⟨u, -, a1, a2, a3, a4, a5⟩ := build_index_inv K st xs l h i k hk
    constructor
    · intro ho
      rw [a2] at ho
      split_ifs at ho with hc
      cases ho
      rw [a1]
      exact a4 hc
    · intro ho
      rw [a3] at ho
      split_ifs at ho with hc
      cases ho
      rw [a1]
      exact a5 hc
  · intro i j ki kj oi oj hij hki hkj
    obtain ⟨ui, hui, a1, a2, a3, -⟩ := build_index_inv K st xs l h i ki hki
    obtain ⟨uj, -, -, b2, b3, -⟩ := build_index_inv K st xs l h j kj hkj
    constructor
    · intro hi hj
      rw [a2] at hi
      rw [b2] at hj
      split_ifs at hi with hc
      split_ifs at hj with hd
      cases hi
      cases hj
      have hm : (xs.map rx_len)[i]? = some ui.len := by
        rw [List.getElem?_map, hui]
        simp [rx_len, hc]
      have := take_sum_succ_le (xs.map rx_len) i j ui.len hm hij
      rw [a1, List.map_take, List.map_take]
      exact this
    · intro hi hj
      rw [a3] at hi
      rw [b3] at hj
      split_ifs at hi with hc
      split_ifs at hj with hd
      cases hi
      cases hj
      have hm : (xs.map tx_len)[i]? = some ui.len := by
        rw [List.getElem?_map, hui]
        simp [tx_len, hc]
      have := take_sum_succ_le (xs.map tx_len) i j ui.len hm hij
      rw [a1, List.map_take, List.map_take]
      exact this
  · intro hk
    have hk' : (!K.kcalloc xs.length) = false := by rw [hk]; rfl
    unfold st54spi_message
    rw [hk', h]
    rfl

/-- C16, at a concrete input: 3 bytes to receive, then 5 bytes to send and
receive, with `bufsiz = 16`: the RX ranges are bytes 0..2 and 3..7, the TX
range is bytes 0..4. -/
theorem bounce_buffer_bound_witness :
    st54spi_message_build demo_kernel { st := demo_open } demo_xfers_duplex = .ok demo_loop ∧
    demo_loop.k_xfers.map (fun k => (k.rx_buf, k.tx_buf, k.len))
      = [(some 0, none, 3), (some 3, some 0, 5)] ∧
    (demo_loop.rx_total = 8 ∧ 8 ≤ demo_kernel.bufsiz ∧
      demo_loop.tx_total = 5 ∧ 5 ≤ demo_kernel.bufsiz) ∧
    demo_loop.k_xfers.length = 2 :=
  ⟨rfl, rfl,
    (bounce_buffer_bound demo_kernel demo_open demo_xfers_duplex demo_loop rfl).1,
    (bounce_buffer_bound demo_kernel demo_open demo_xfers_duplex demo_loop rfl).2.2.1⟩

/-! ### `st54spi_open` and `st54spi_release` -/

/-- What `st54spi_open` does to `users` and the bounce buffers: on success
`users` is incremented and both buffers are allocated; on failure the status is
`-ENXIO` or `-ENOMEM`, `users` is unchanged, a device with both buffers keeps
its state and a device with no buffer still has none. -/
theorem open_users (st : State) (found : Bool) (tx_alloc rx_alloc : Option (List u8)) :
    ((st54spi_open st found tx_alloc rx_alloc).1 = 0 ∧
      (st54spi_open st found tx_alloc rx_alloc).2.dev.users
        = (st.dev.users + 1) % UINT_RANGE ∧
      (st54spi_open st found tx_alloc rx_alloc).2.dev.tx_buffer.isSome = true ∧
      (st54spi_open st found tx_alloc rx_alloc).2.dev.rx_buffer.isSome = true) ∨
    (((st54spi_open st found tx_alloc rx_alloc).1 = - ENXIO ∨
        (st54spi_open st found tx_alloc rx_alloc).1 = -ENOMEM) ∧
      (st54spi_open st found tx_alloc rx_alloc).2.dev.users = st.dev.users ∧
      (st.dev.tx_buffer.isSome = true → st.dev.rx_buffer.isSome = true →
        (st54spi_open st found tx_alloc rx_alloc).2 = st) ∧
      (st.dev.tx_buffer = none → st.dev.rx_buffer = none →
        (st54spi_open st found tx_alloc rx_alloc).2.dev.tx_buffer = none ∧
        (st54spi_open st found tx_alloc rx_alloc).2.dev.rx_buffer = none)) := by
  unfold st54spi_open
  cases found with
  | false =>
    right
    simp only [Bool.not_false, if_true, true_or, true_and]
    exact ⟨fun _ _ => trivial, fun a b => ⟨a, b⟩⟩
  | true =>
    simp only [Bool.not_true, Bool.false_eq_true, if_false]
    cases htx : st.dev.tx_buffer with
    | none =>
      cases tx_alloc with
      | none => right; simp [htx]
      | some tb =>
        cases hrx : st.dev.rx_buffer with
        | none =>
          cases rx_alloc with
          | none => right; simp [htx, hrx]
          | some rb => left; simp [htx, hrx]
        | some rb0 => left; simp [htx, hrx]
    | some tb0 =>
      cases hrx : st.dev.rx_buffer with
      | none =>
        cases rx_alloc with
        | none => right; simp [htx, hrx]
        | some rb => left; simp [htx, hrx]
      | some rb0 => left; simp [htx, hrx]

/-- The decrement of an `unsigned` value is the subtraction modulo `2 ^ 32`. -/
theorem unsigned_dec_eq_mod (x : Nat) (h : x < UINT_RANGE) :
    unsigned_dec x = (x + (UINT_RANGE - 1)) % UINT_RANGE := by
  unfold unsigned_dec
  simp only [UINT_RANGE] at *
  split_ifs <;> omega

/-- What `st54spi_release` does to `users` and the bounce buffers of a device
that has a user: `users` is decremented, and the buffers are freed when it
reaches 0 and kept otherwise. -/
theorem release_users (st : State) (h : 0 < st.dev.users) :
    (st54spi_release st).1 = 0 ∧
    (st54spi_release st).2.dev.users = st.dev.users - 1 ∧
    ((st54spi_release st).2.dev.users = 0 →
      (st54spi_release st).2.dev.tx_buffer = none ∧
      (st54spi_release st).2.dev.rx_buffer = none) ∧
    (0 < (st54spi_release st).2.dev.users →
      (st54spi_release st).2.dev.tx_buffer = st.dev.tx_buffer ∧
      (st54spi_release st).2.dev.rx_buffer = st.dev.rx_buffer) := by
  have e : unsigned_dec st.dev.users = st.dev.users - 1 := by
    unfold unsigned_dec
    rw [if_neg (by omega)]
  unfold st54spi_release
  simp only [e]
  by_cases h0 : st.dev.users - 1 = 0
  · simp only [h0, if_true]
    cases hs : st.dev.spi with
    | none =>
      cases hsr : st.dev.spi_reset with
      | none => simp
      | some r => simp
    | some spi => simp
  · simp only [h0, if_false]
    refine ⟨trivial, trivial, ?_, ?_⟩
    · intro hc; exact hc.elim
    · intro _; exact ⟨trivial, trivial⟩

/-- The buffers match the open count in every reachable state, and the count
is in the range of `unsigned`. -/
theorem open_reachable_inv (st : State) (h : OpenReachable st) :
    BuffersMatchUsers st ∧ st.dev.users < UINT_RANGE := by
  induction h with
  | probed st h0 htx hrx =>
    refine ⟨⟨fun _ => ⟨htx, hrx⟩, ?_⟩, ?_⟩
    · intro hp; omega
    · rw [h0]; simp [UINT_RANGE]
  | @opened st found tx_alloc rx_alloc _ hlt ih =>
    obtain ⟨⟨i0, ipos⟩, ilt⟩ := ih
    rcases open_users st found tx_alloc rx_alloc with ⟨-, hu, htx, hrx⟩ | ⟨-, hu, hsame, hnone⟩
    · rw [Nat.mod_eq_of_lt hlt] at hu
      refine ⟨⟨?_, fun _ => ⟨htx, hrx⟩⟩, by omega⟩
      intro hz; omega
    · by_cases hz : st.dev.users = 0
      · obtain ⟨a, b⟩ := i0 hz
        obtain ⟨a', b'⟩ := hnone a b
        refine ⟨⟨fun _ => ⟨a', b'⟩, ?_⟩, by omega⟩
        intro hp; omega
      · obtain ⟨a, b⟩ := ipos (by omega)
        rw [hsame a b]
        exact ⟨⟨i0, ipos⟩, ilt⟩
  | @released st _ hpos ih =>
    obtain ⟨⟨i0, ipos⟩, ilt⟩ := ih
    obtain ⟨-, hu, hz, hp⟩ := release_users st hpos
    refine ⟨⟨hz, ?_⟩, by omega⟩
    intro hpos'
    obtain ⟨a, b⟩ := hp hpos'
    obtain ⟨c, d⟩ := ipos hpos
    rw [a, b]
    exact ⟨c, d⟩

/-- C17. TX/RX buffers are NULL unless the device is open: in every state
reachable from a freshly probed device (`users = 0`, both buffers NULL) by any
sequence of `st54spi_open` calls (with the device lookup and either allocation
free to fail) and of `st54spi_release` calls on a device that has a user,
`users = 0` implies `tx_buffer = NULL` and `rx_buffer = NULL`, and `users > 0`
implies both buffers are non-NULL; an `st54spi_open` that fails there returns
`-ENXIO` or `-ENOMEM` and leaves `users` unchanged. -/
theorem buffers_null_unless_open (st : State) (h : OpenReachable st) :
    (st.dev.users = 0 → st.dev.tx_buffer = none ∧ st.dev.rx_buffer = none) ∧
    (0 < st.dev.users → st.dev.tx_buffer ≠ none ∧ st.dev.rx_buffer ≠ none) ∧
    (∀ (found : Bool) (tx_alloc rx_alloc : Option (List u8)),
      (st54spi_open st found tx_alloc rx_alloc).1 ≠ 0 →
      ((st54spi_open st found tx_alloc rx_alloc).1 = - ENXIO ∨
        (st54spi_open st found tx_alloc rx_alloc).1 = -ENOMEM) ∧
      (st54spi_open st found tx_alloc rx_alloc).2.dev.users = st.dev.users) := by
  obtain ⟨⟨i0, ipos⟩, -⟩ := open_reachable_inv st h
  refine ⟨i0, ?_, ?_⟩
  · intro hp
    obtain ⟨a, b⟩ := ipos hp
    constructor
    · intro hc; rw [hc] at a; cases a
    · intro hc; rw [hc] at b; cases b
  · intro found tx_alloc rx_alloc hne
    rcases open_users st found tx_alloc rx_alloc with ⟨h0, -⟩ | ⟨he, hu, -⟩
    · exact absurd h0 hne
    · exact ⟨he, hu⟩

/-- The opened demo device is reachable: one successful open after probe. -/
theorem demo_opened_reachable : OpenReachable demo_opened :=
  OpenReachable.opened true (some (List.replicate 16 0)) (some (List.replicate 16 0))
    (OpenReachable.probed demo_probed rfl rfl rfl) (by simp [demo_probed, UINT_RANGE])

/-- C17, at a concrete input: after one successful open the device has one
user and both buffers; a second open whose device lookup fails returns `-ENXIO`
and leaves `users` at 1. -/
theorem buffers_null_unless_open_witness :
    OpenReachable demo_opened ∧ demo_opened.dev.users = 1 ∧
    (demo_opened.dev.tx_buffer ≠ none ∧ demo_opened.dev.rx_buffer ≠ none) ∧
    (st54spi_open demo_opened false none none).2.dev.users = demo_opened.dev.users :=
  ⟨demo_opened_reachable, rfl,
    (buffers_null_unless_open demo_opened demo_opened_reachable).2.1 (by decide),
    ((buffers_null_unless_open demo_opened demo_opened_reachable).2.2 false none none
      (by decide)).2⟩

/-! ### `st54spi_get_ioc_message` -/

/-- Past the type and access checks and with `spi` non-NULL, `st54spi_ioctl`
is its `switch`. -/
theorem st54spi_ioctl_some (K : Kernel) (st : State) (cmd arg : Nat) (spi : spi_device)
    (h : st.dev.spi = some spi) (hm : _IOC_TYPE cmd = SPI_IOC_MAGIC)
    (ha : arg_accessible K cmd arg) :
    st54spi_ioctl K st cmd arg = st54spi_ioctl_switch K st spi cmd arg := by
  obtain ⟨ha1, ha2⟩ := ha
  unfold st54spi_ioctl
  rw [if_neg (by simp [hm])]
  simp only
  by_cases hr : _IOC_DIR cmd &&& _IOC_READ ≠ 0
  · by_cases hw : _IOC_DIR cmd &&& _IOC_WRITE ≠ 0
    · simp [hr, hw, ha1 hr, ha2 hw, h]
    · simp [hr, hw, ha1 hr, h]
  · by_cases hw : _IOC_DIR cmd &&& _IOC_WRITE ≠ 0
    · simp [hr, hw, ha2 hw, h]
    · simp [hr, hw, h]

/-- C19. `st54spi_get_ioc_message` checks type, command number and direction
and then the size: for every `cmd` it returns `ERR_PTR(-ENOTTY)` exactly when
the type is not `SPI_IOC_MAGIC`, or the number differs from that of
`SPI_IOC_MESSAGE(0)`, or the direction is not `_IOC_WRITE`; otherwise
`ERR_PTR(-EINVAL)` exactly when `_IOC_SIZE(cmd)` is not a multiple of
`sizeof(struct spi_ioc_transfer)`; otherwise it sets
`*n_ioc = _IOC_SIZE(cmd) / sizeof(struct spi_ioc_transfer)` and returns NULL
exactly when `*n_ioc = 0`; and when it returns NULL, `st54spi_ioctl` on a
device with a non-NULL `spi` and an accessible argument returns 0 and leaves
the state and its trace as they were: no transfer is issued. -/
theorem get_ioc_message_checks (K : Kernel) (cmd u_ioc : Nat) :
    ((st54spi_get_ioc_message K cmd u_ioc).1 = .err_ptr (-ENOTTY) ↔
      (_IOC_TYPE cmd ≠ SPI_IOC_MAGIC ∨ _IOC_NR cmd ≠ _IOC_NR (SPI_IOC_MESSAGE 0)
        ∨ _IOC_DIR cmd ≠ _IOC_WRITE)) ∧
    (¬ (_IOC_TYPE cmd ≠ SPI_IOC_MAGIC ∨ _IOC_NR cmd ≠ _IOC_NR (SPI_IOC_MESSAGE 0)
        ∨ _IOC_DIR cmd ≠ _IOC_WRITE) →
      ((st54spi_get_ioc_message K cmd u_ioc).1 = .err_ptr (-EINVAL) ↔
        _IOC_SIZE cmd % sizeof_spi_ioc_transfer ≠ 0) ∧
      (_IOC_SIZE cmd % sizeof_spi_ioc_transfer = 0 →
        (st54spi_get_ioc_message K cmd u_ioc).2
          = some (_IOC_SIZE cmd / sizeof_spi_ioc_transfer) ∧
        ((st54spi_get_ioc_message K cmd u_ioc).1 = .null ↔
          _IOC_SIZE cmd / sizeof_spi_ioc_transfer = 0))) ∧
    (∀ (st : State), (st54spi_get_ioc_message K cmd u_ioc).1 = .null →
      st.dev.spi ≠ none → arg_accessible K cmd u_ioc →
      st54spi_ioctl K st cmd u_ioc = (0, st)) := by
  refine ⟨?_, ?_, ?_⟩
  · unfold st54spi_get_ioc_message
    constructor
    · intro h
      by_contra hc
      rw [if_neg hc] at h
      simp only at h
      split_ifs at h <;> simp [ENOTTY, EINVAL, ENOMEM, EFAULT] at h
    · intro h
      rw [if_pos h]
  · intro hc
    unfold st54spi_get_ioc_message
    rw [if_neg hc]
    simp only
    constructor
    · constructor
      · intro h
        split_ifs at h with h1 <;> first | exact h1 | simp [ENOTTY, EINVAL, ENOMEM, EFAULT] at h
      · intro h
        rw [if_pos h]
    · intro h0
      rw [if_neg (by simpa using h0)]
      constructor
      · split_ifs <;> rfl
      · constructor
        · intro h
          split_ifs at h with h1
          exact h1
        · intro h
          rw [if_pos h]
  · intro st hnull hspi hacc
    have hc : ¬ (_IOC_TYPE cmd ≠ SPI_IOC_MAGIC ∨ _IOC_NR cmd ≠ _IOC_NR (SPI_IOC_MESSAGE 0)
        ∨ _IOC_DIR cmd ≠ _IOC_WRITE) := by
      intro hc
      unfold st54spi_get_ioc_message at hnull
      rw [if_pos hc] at hnull
      cases hnull
    have hty : _IOC_TYPE cmd = SPI_IOC_MAGIC := by
      by_contra h; exact hc (Or.inl h)
    have hnr : _IOC_NR cmd = _IOC_NR (SPI_IOC_MESSAGE 0) := by
      by_contra h; exact hc (Or.inr (Or.inl h))
    cases hs : st.dev.spi with
    | none => exact absurd hs hspi
    | some spi =>
      rw [st54spi_ioctl_some K st cmd u_ioc spi hs hty hacc]
      have hne : ∀ c : Nat, _IOC_NR c ≠ _IOC_NR (SPI_IOC_MESSAGE 0) → cmd ≠ c := by
        intro c h1 h2
        rw [h2] at hnr
        exact h1 hnr
      unfold st54spi_ioctl_switch
      rw [if_neg (hne _ (by decide)), if_neg (hne _ (by decide)), if_neg (hne _ (by decide)),
        if_neg (hne _ (by decide)), if_neg (hne _ (by decide)), if_neg (hne _ (by decide)),
        if_neg (not_or.mpr ⟨hne _ (by decide), hne _ (by decide)⟩),
        if_neg (hne _ (by decide)), if_neg (hne _ (by decide)), if_neg (hne _ (by decide)),
        if_neg (hne _ (by decide)), hnull]

/-- C19, at a concrete input: `SPI_IOC_MESSAGE(0)` gives NULL and the ioctl
returns 0; `SPI_IOC_RD_MODE` is not a message command; a message command of
33 bytes is not a whole number of transfers; `SPI_IOC_MESSAGE(2)` stores 2. -/
theorem get_ioc_message_checks_witness :
    (st54spi_get_ioc_message demo_kernel (SPI_IOC_MESSAGE 0) 4096).1 = .null ∧
    st54spi_ioctl demo_kernel demo_open (SPI_IOC_MESSAGE 0) 4096 = (0, demo_open) ∧
    (st54spi_get_ioc_message demo_kernel SPI_IOC_RD_MODE 4096).1 = .err_ptr (-ENOTTY) ∧
    (st54spi_get_ioc_message demo_kernel (_IOW SPI_IOC_MAGIC 0 33) 4096).1
      = .err_ptr (-EINVAL) ∧
    (st54spi_get_ioc_message demo_kernel (SPI_IOC_MESSAGE 2) 4096).2 = some 2 :=
  ⟨rfl,
    (get_ioc_message_checks demo_kernel (SPI_IOC_MESSAGE 0) 4096).2.2 demo_open rfl
      (by decide) ⟨fun _ => rfl, fun _ => rfl⟩,
    (get_ioc_message_checks demo_kernel SPI_IOC_RD_MODE 4096).1.mpr (by decide),
    ((get_ioc_message_checks demo_kernel (_IOW SPI_IOC_MAGIC 0 33) 4096).2.1
      (by decide)).1.mpr (by decide),
    (((get_ioc_message_checks demo_kernel (SPI_IOC_MESSAGE 2) 4096).2.1
      (by decide)).2 (by decide)).1⟩

/-! ### The reset callback -/

/-- `st54spi_sync` changes only the RX bounce buffer and the trace. -/
theorem st54spi_sync_dev (K : Kernel) (st : State) (message : List spi_transfer) :
    (st54spi_sync K st message).2.dev.spi = st.dev.spi ∧
    (st54spi_sync K st message).2.dev.spi_reset = st.dev.spi_reset ∧
    (st54spi_sync K st message).2.dev.power_gpio = st.dev.power_gpio := by
  unfold st54spi_sync
  cases h : st.dev.spi with
  | none => simp [h]
  | some spi => simp [h]

/-- The reset callback with `dir == 1` parks the handle: after the
chip-select polarity flip, which puts the original `controller_data` back, and
the write to the power line, `spi` is NULL and `spi_reset` is the handle. -/
theorem reset_cb_down (K : Kernel) (st : State) (s : spi_device)
    (hs : st.dev.spi = some s) :
    ∃ st1, st54spi_st21nfc_reset_cb K 1 (some st) = some st1 ∧
      st1.dev.spi = none ∧ st1.dev.spi_reset = some s := by
  unfold st54spi_st21nfc_reset_cb
  simp only [if_true, hs]
  cases hc : s.controller_data with
  | none =>
    simp only
    by_cases hg : st.dev.power_gpio = 0
    · simp [hg, hs]
    · simp [hg, hs, gpio_set]
  | some orig =>
    simp only [st54spi_sync, State.set_spi]
    cases s with
    | mk mode bpw speed cd =>
      simp only at hc
      subst hc
      by_cases hg : st.dev.power_gpio = 0
      · simp [hg]
      · simp [hg, gpio_set]

/-- The reset callback with `dir != 1` moves a parked handle back. -/
theorem reset_cb_up (K : Kernel) (st : State) (s : spi_device) (dir : Int)
    (hd : dir ≠ 1) (hr : st.dev.spi_reset = some s) :
    ∃ st1, st54spi_st21nfc_reset_cb K dir (some st) = some st1 ∧
      st1.dev.spi = some s ∧ st1.dev.spi_reset = none := by
  unfold st54spi_st21nfc_reset_cb
  simp only [if_neg hd]
  by_cases hg : st.dev.power_gpio = 0
  · simp [hg, hr, (st54spi_sync_dev K _ _).1, (st54spi_sync_dev K _ _).2.1]
  · simp [hg, hr, gpio_set, (st54spi_sync_dev K _ _).1, (st54spi_sync_dev K _ _).2.1]

/-- C20. The reset callback parks and restores the SPI handle: from any state
with `spi = s` (non-NULL) and `spi_reset = NULL`,
`st54spi_st21nfc_reset_cb` with `dir == 1` yields `spi = NULL` and
`spi_reset = s`, and a following call with any `dir != 1` does the opposite and
yields `spi = s` and `spi_reset = NULL`: the pair of calls restores the
original `(spi, spi_reset)`. -/
theorem reset_cb_parks_and_restores (K : Kernel) (st : State) (s : spi_device)
    (hs : st.dev.spi = some s) (hr : st.dev.spi_reset = none) :
    ∃ st1, st54spi_st21nfc_reset_cb K 1 (some st) = some st1 ∧
      st1.dev.spi = none ∧ st1.dev.spi_reset = some s ∧
      ∀ dir : Int, dir ≠ 1 →
        ∃ st2, st54spi_st21nfc_reset_cb K dir (some st1) = some st2 ∧
          st2.dev.spi = some s ∧ st2.dev.spi_reset = none ∧
          (st2.dev.spi, st2.dev.spi_reset) = (st.dev.spi, st.dev.spi_reset) := by
  obtain ⟨st1, h1, h2, h3⟩ := reset_cb_down K st s hs
  refine ⟨st1, h1, h2, h3, ?_⟩
  intro dir hd
  obtain ⟨st2, g1, g2, g3⟩ := reset_cb_up K st1 s dir hd h3
  exact ⟨st2, g1, g2, g3, by rw [g2, g3, hs, hr]⟩

/-- C20, at a concrete input: the opened device, reset with `dir = 1` and then
`dir = 0`. -/
theorem reset_cb_parks_and_restores_witness :
    ∃ st1, st54spi_st21nfc_reset_cb demo_kernel 1 (some demo_open) = some st1 ∧
      st1.dev.spi = none ∧ st1.dev.spi_reset = some { max_speed_hz := 1000000 } ∧
      ∃ st2, st54spi_st21nfc_reset_cb demo_kernel 0 (some st1) = some st2 ∧
        st2.dev.spi = some { max_speed_hz := 1000000 } ∧ st2.dev.spi_reset = none := by
  obtain ⟨st1, h1, h2, h3, h4⟩ :=
    reset_cb_parks_and_restores demo_kernel demo_open { max_speed_hz := 1000000 } rfl rfl
  obtain ⟨st2, g1, g2, g3, -⟩ := h4 0 (by decide)
  exact ⟨st1, h1, h2, h3, st2, g1, g2, g3⟩

/-! ### The setting ioctls and `st54spi_read` -/

/-- Storing the SPI device it already points to leaves the driver data as it
was. -/
theorem dev_set_spi (d : st54spi_data) (spi spi' : spi_device) (h : d.spi = some spi)
    (e : spi' = spi) : ({ d with spi := some spi' } : st54spi_data) = d := by
  subst e
  cases d
  simp only at h
  subst h
  rfl

/-- `SPI_IOC_WR_MODE` and `SPI_IOC_WR_MODE32` that return a negative value
leave the driver data as it was. -/
theorem switch_wr_mode (K : Kernel) (st : State) (spi : spi_device) (cmd arg : Nat)
    (hs : st.dev.spi = some spi) (hc : cmd = SPI_IOC_WR_MODE ∨ cmd = SPI_IOC_WR_MODE32)
    (hneg : (st54spi_ioctl_switch K st spi cmd arg).1 < 0) :
    (st54spi_ioctl_switch K st spi cmd arg).2.dev = st.dev := by
  have h1 : cmd ≠ SPI_IOC_RD_MODE := by rcases hc with rfl | rfl <;> decide
  have h2 : cmd ≠ SPI_IOC_RD_MODE32 := by rcases hc with rfl | rfl <;> decide
  have h3 : cmd ≠ SPI_IOC_RD_LSB_FIRST := by rcases hc with rfl | rfl <;> decide
  have h4 : cmd ≠ SPI_IOC_RD_BITS_PER_WORD := by rcases hc with rfl | rfl <;> decide
  have h5 : cmd ≠ SPI_IOC_RD_MAX_SPEED_HZ := by rcases hc with rfl | rfl <;> decide
  have h6 : cmd ≠ ST54SPI_IOC_RD_POWER := by rcases hc with rfl | rfl <;> decide
  unfold st54spi_ioctl_switch at hneg ⊢
  rw [if_neg h1, if_neg h2, if_neg h3, if_neg h4, if_neg h5, if_neg h6, if_pos hc] at hneg ⊢
  have hg : ∀ n, (get_user_status K st arg n).2.2.dev = st.dev := by
    intro n
    unfold get_user_status
    cases K.get_user arg n <;> rfl
  have hgd : (if cmd = SPI_IOC_WR_MODE then get_user_status K st arg 1
      else get_user_status K st arg 4).2.2.dev = st.dev := by
    split_ifs <;> exact hg _
  generalize (if cmd = SPI_IOC_WR_MODE then get_user_status K st arg 1
    else get_user_status K st arg 4) = g at hneg hgd ⊢
  obtain ⟨retval, tmp, st1⟩ := g
  simp only at hneg hgd ⊢
  split_ifs at hneg ⊢ with a b c
  · exact hgd
  · simp only [spi_setup_status, State.set_spi, hgd]
    exact dev_set_spi st.dev spi _ hs (by cases spi; rfl)
  · simp only [spi_setup_status] at c hneg
    exact absurd hneg c
  · exact hgd

/-- A `__get_user` changes only the trace. -/
theorem get_user_status_dev (K : Kernel) (st : State) (arg n : Nat) :
    (get_user_status K st arg n).2.2.dev = st.dev := by
  unfold get_user_status
  cases K.get_user arg n <;> rfl

/-- `SPI_IOC_WR_LSB_FIRST` that returns a negative value leaves the driver data
as it was. -/
theorem switch_wr_lsb_first (K : Kernel) (st : State) (spi : spi_device) (arg : Nat)
    (hs : st.dev.spi = some spi)
    (hneg : (st54spi_ioctl_switch K st spi SPI_IOC_WR_LSB_FIRST arg).1 < 0) :
    (st54spi_ioctl_switch K st spi SPI_IOC_WR_LSB_FIRST arg).2.dev = st.dev := by
  unfold st54spi_ioctl_switch at hneg ⊢
  rw [if_neg (by decide), if_neg (by decide), if_neg (by decide), if_neg (by decide),
    if_neg (by decide), if_neg (by decide), if_neg (by decide), if_pos rfl] at hneg ⊢
  have hgd := get_user_status_dev K st arg 1
  generalize get_user_status K st arg 1 = g at hneg hgd ⊢
  obtain ⟨retval, tmp, st1⟩ := g
  simp only at hneg hgd ⊢
  split_ifs at hneg ⊢ with a b
  all_goals first
    | exact hgd
    | (simp only [spi_setup_status, State.set_spi, hgd]
       exact dev_set_spi st.dev spi _ hs (by cases spi; rfl))
    | (simp only [spi_setup_status] at *; omega)

/-- `SPI_IOC_WR_BITS_PER_WORD` that returns a negative value leaves the driver
data as it was. -/
theorem switch_wr_bits_per_word (K : Kernel) (st : State) (spi : spi_device) (arg : Nat)
    (hs : st.dev.spi = some spi)
    (hneg : (st54spi_ioctl_switch K st spi SPI_IOC_WR_BITS_PER_WORD arg).1 < 0) :
    (st54spi_ioctl_switch K st spi SPI_IOC_WR_BITS_PER_WORD arg).2.dev = st.dev := by
  unfold st54spi_ioctl_switch at hneg ⊢
  rw [if_neg (by decide), if_neg (by decide), if_neg (by decide), if_neg (by decide),
    if_neg (by decide), if_neg (by decide), if_neg (by decide), if_neg (by decide),
    if_pos rfl] at hneg ⊢
  have hgd := get_user_status_dev K st arg 1
  generalize get_user_status K st arg 1 = g at hneg hgd ⊢
  obtain ⟨retval, tmp, st1⟩ := g
  simp only at hneg hgd ⊢
  split_ifs at hneg ⊢ with a b
  all_goals first
    | exact hgd
    | (simp only [spi_setup_status, State.set_spi, hgd]
       exact dev_set_spi st.dev spi _ hs (by cases spi; rfl))
    | (simp only [spi_setup_status] at *; omega)

/-- `SPI_IOC_WR_MAX_SPEED_HZ` that returns a negative value leaves the driver
data as it was. -/
theorem switch_wr_max_speed_hz (K : Kernel) (st : State) (spi : spi_device) (arg : Nat)
    (hs : st.dev.spi = some spi) :
    ((st54spi_ioctl_switch K st spi SPI_IOC_WR_MAX_SPEED_HZ arg).1 < 0 →
      (st54spi_ioctl_switch K st spi SPI_IOC_WR_MAX_SPEED_HZ arg).2.dev = st.dev) := by
  intro hneg
  unfold st54spi_ioctl_switch at hneg ⊢
  rw [if_neg (by decide), if_neg (by decide), if_neg (by decide), if_neg (by decide),
    if_neg (by decide), if_neg (by decide), if_neg (by decide), if_neg (by decide),
    if_neg (by decide), if_pos rfl] at hneg ⊢
  have hgd := get_user_status_dev K st arg 4
  generalize get_user_status K st arg 4 = g at hneg hgd ⊢
  obtain ⟨retval, tmp, st1⟩ := g
  simp only at hneg hgd ⊢
  simp only [spi_setup_status, State.set_spi] at hneg ⊢
  split_ifs at hneg ⊢ with a b
  · omega
  · simp only [hgd]
    exact dev_set_spi st.dev spi _ hs (by cases spi; rfl)
  · exact hgd

/-- `st54spi_ioctl` either returns before its `switch`, the state unchanged, or
is its `switch` on a non-NULL `spi`. -/
theorem st54spi_ioctl_cases (K : Kernel) (st : State) (cmd arg : Nat) :
    (st54spi_ioctl K st cmd arg).2 = st ∨
    ∃ spi, st.dev.spi = some spi ∧
      st54spi_ioctl K st cmd arg = st54spi_ioctl_switch K st spi cmd arg := by
  unfold st54spi_ioctl
  dsimp only
  cases h : st.dev.spi with
  | none => left; split_ifs <;> rfl
  | some spi =>
    by_cases hsame : (st54spi_ioctl K st cmd arg).2 = st
    · left
      unfold st54spi_ioctl at hsame
      dsimp only at hsame
      rw [h] at hsame
      exact hsame
    · right
      refine ⟨spi, rfl, ?_⟩
      unfold st54spi_ioctl at hsame
      dsimp only at hsame
      rw [h] at hsame
      split_ifs at hsame ⊢ <;> first | rfl | exact absurd rfl hsame

/-- C22. Setting ioctls are atomic on error: for each of `SPI_IOC_WR_MODE`,
`SPI_IOC_WR_MODE32`, `SPI_IOC_WR_LSB_FIRST`, `SPI_IOC_WR_BITS_PER_WORD` and
`SPI_IOC_WR_MAX_SPEED_HZ`, whenever `st54spi_ioctl` returns a negative value
(the access check or the user read faulting, `spi` being NULL, mode bits
outside `SPI_MODE_MASK` giving `-EINVAL`, or `spi_setup` failing), the driver
data is as it was before the call: `spi->mode`, `spi->bits_per_word`,
`spi->max_speed_hz` and `st54spi->speed_hz` all equal their values before the
call; `spi_setup` itself is taken not to modify them. -/
theorem setting_ioctl_atomic (K : Kernel) (st : State) (cmd arg : Nat)
    (hc : cmd = SPI_IOC_WR_MODE ∨ cmd = SPI_IOC_WR_MODE32 ∨ cmd = SPI_IOC_WR_LSB_FIRST ∨
      cmd = SPI_IOC_WR_BITS_PER_WORD ∨ cmd = SPI_IOC_WR_MAX_SPEED_HZ)
    (hneg : (st54spi_ioctl K st cmd arg).1 < 0) :
    (st54spi_ioctl K st cmd arg).2.dev = st.dev ∧
    (st54spi_ioctl K st cmd arg).2.dev.speed_hz = st.dev.speed_hz ∧
    (∀ spi, st.dev.spi = some spi →
      ∃ spi', (st54spi_ioctl K st cmd arg).2.dev.spi = some spi' ∧
        spi'.mode = spi.mode ∧ spi'.bits_per_word = spi.bits_per_word ∧
        spi'.max_speed_hz = spi.max_speed_hz) := by
  have hdev : (st54spi_ioctl K st cmd arg).2.dev = st.dev := by
    rcases st54spi_ioctl_cases K st cmd arg with h | ⟨spi, hs, h⟩
    · rw [h]
    · rw [h] at hneg ⊢
      rcases hc with hc | hc | hc | hc | hc
      · exact switch_wr_mode K st spi cmd arg hs (Or.inl hc) hneg
      · exact switch_wr_mode K st spi cmd arg hs (Or.inr hc) hneg
      · subst hc; exact switch_wr_lsb_first K st spi arg hs hneg
      · subst hc; exact switch_wr_bits_per_word K st spi arg hs hneg
      · subst hc; exact switch_wr_max_speed_hz K st spi arg hs hneg
  refine ⟨hdev, by rw [hdev], ?_⟩
  intro spi hs
  exact ⟨spi, by rw [hdev]; exact hs, rfl, rfl, rfl⟩

/-- What `SPI_IOC_WR_MAX_SPEED_HZ` does once `__get_user` has read `v`. -/
theorem switch_wr_max_speed_hz_read (K : Kernel) (st : State) (spi : spi_device)
    (arg v : Nat) (hv : K.get_user arg 4 = some v) :
    (st54spi_ioctl_switch K st spi SPI_IOC_WR_MAX_SPEED_HZ arg).1
      = K.spi_setup { spi with max_speed_hz := v % 2 ^ 32 } ∧
    (st54spi_ioctl_switch K st spi SPI_IOC_WR_MAX_SPEED_HZ arg).2.dev.spi = some spi ∧
    (st54spi_ioctl_switch K st spi SPI_IOC_WR_MAX_SPEED_HZ arg).2.dev.speed_hz
      = (if 0 ≤ K.spi_setup { spi with max_speed_hz := v % 2 ^ 32 } then v % 2 ^ 32
         else st.dev.speed_hz) := by
  unfold st54spi_ioctl_switch
  rw [if_neg (by decide), if_neg (by decide), if_neg (by decide), if_neg (by decide),
    if_neg (by decide), if_neg (by decide), if_neg (by decide), if_neg (by decide),
    if_neg (by decide), if_pos rfl]
  simp only [get_user_status, hv, spi_setup_status, State.set_spi, if_true]
  refine ⟨trivial, trivial, ?_⟩
  split_ifs <;> rfl

/-- `SPI_IOC_WR_MAX_SPEED_HZ` leaves `spi` as it was on every path. -/
theorem switch_wr_max_speed_hz_spi (K : Kernel) (st : State) (spi : spi_device) (arg : Nat)
    (hs : st.dev.spi = some spi) :
    (st54spi_ioctl_switch K st spi SPI_IOC_WR_MAX_SPEED_HZ arg).2.dev.spi = some spi := by
  cases hv : K.get_user arg 4 with
  | some v => exact (switch_wr_max_speed_hz_read K st spi arg v hv).2.1
  | none =>
    unfold st54spi_ioctl_switch
    rw [if_neg (by decide), if_neg (by decide), if_neg (by decide), if_neg (by decide),
      if_neg (by decide), if_neg (by decide), if_neg (by decide), if_neg (by decide),
      if_neg (by decide), if_pos rfl]
    simp only [get_user_status, hv]
    rw [if_neg (by simp [EFAULT])]
    exact hs

/-- `SPI_IOC_RD_MAX_SPEED_HZ` stores `speed_hz` at the user address. -/
theorem ioctl_rd_max_speed_hz (K : Kernel) (st : State) (spi : spi_device) (arg : Nat)
    (hs : st.dev.spi = some spi) (ha : arg_accessible K SPI_IOC_RD_MAX_SPEED_HZ arg) :
    st54spi_ioctl K st SPI_IOC_RD_MAX_SPEED_HZ arg
      = put_user_status K st st.dev.speed_hz arg 4 := by
  rw [st54spi_ioctl_some K st _ arg spi hs (by decide) ha]
  unfold st54spi_ioctl_switch
  rw [if_neg (by decide), if_neg (by decide), if_neg (by decide), if_neg (by decide),
    if_pos rfl]

/-- C23. `SPI_IOC_WR_MAX_SPEED_HZ` leaves `spi->max_speed_hz` (and the rest of
`*spi`) equal to its prior value on every path; when the ioctl passes the
access check and `__get_user` reads the value `v` (as a `__u32`), it returns
what `spi_setup` returns and `st54spi->speed_hz` is `v` if that is
non-negative and its previous value otherwise; hence a following
`SPI_IOC_RD_MAX_SPEED_HZ` stores `v` at the user address after a successful
write and the previous `speed_hz` (a `u32`) after a failed one. -/
theorem wr_max_speed_hz_effect (K : Kernel) (st : State) (arg : Nat) :
    (st54spi_ioctl K st SPI_IOC_WR_MAX_SPEED_HZ arg).2.dev.spi = st.dev.spi ∧
    (∀ (spi : spi_device) (v : Nat), st.dev.spi = some spi →
      arg_accessible K SPI_IOC_WR_MAX_SPEED_HZ arg → K.get_user arg 4 = some v →
      (st54spi_ioctl K st SPI_IOC_WR_MAX_SPEED_HZ arg).1
        = K.spi_setup { spi with max_speed_hz := v % 2 ^ 32 } ∧
      (st54spi_ioctl K st SPI_IOC_WR_MAX_SPEED_HZ arg).2.dev.speed_hz
        = (if 0 ≤ K.spi_setup { spi with max_speed_hz := v % 2 ^ 32 } then v % 2 ^ 32
           else st.dev.speed_hz) ∧
      ∀ arg2, arg_accessible K SPI_IOC_RD_MAX_SPEED_HZ arg2 →
        (0 ≤ K.spi_setup { spi with max_speed_hz := v % 2 ^ 32 } →
          (st54spi_ioctl K (st54spi_ioctl K st SPI_IOC_WR_MAX_SPEED_HZ arg).2
              SPI_IOC_RD_MAX_SPEED_HZ arg2).2.log
            = (st54spi_ioctl K st SPI_IOC_WR_MAX_SPEED_HZ arg).2.log
              ++ [Event.put_user arg2 4 (v % 2 ^ 32)]) ∧
        (K.spi_setup { spi with max_speed_hz := v % 2 ^ 32 } < 0 →
          st.dev.speed_hz < 2 ^ 32 →
          (st54spi_ioctl K (st54spi_ioctl K st SPI_IOC_WR_MAX_SPEED_HZ arg).2
              SPI_IOC_RD_MAX_SPEED_HZ arg2).2.log
            = (st54spi_ioctl K st SPI_IOC_WR_MAX_SPEED_HZ arg).2.log
              ++ [Event.put_user arg2 4 st.dev.speed_hz])) := by
  constructor
  · rcases st54spi_ioctl_cases K st SPI_IOC_WR_MAX_SPEED_HZ arg with h | ⟨spi, hs, h⟩
    · rw [h]
    · rw [h, switch_wr_max_speed_hz_spi K st spi arg hs, hs]
  · intro spi v hs ha hv
    have e := st54spi_ioctl_some K st SPI_IOC_WR_MAX_SPEED_HZ arg spi hs (by decide) ha
    obtain ⟨r1, r2, r3⟩ := switch_wr_max_speed_hz_read K st spi arg v hv
    rw [e]
    refine ⟨r1, r3, ?_⟩
    intro arg2 ha2
    rw [ioctl_rd_max_speed_hz K _ spi arg2 r2 ha2]
    unfold put_user_status
    simp only [r3]
    constructor
    · intro hok
      rw [if_pos hok, Nat.mod_mod]
    · intro hfail hlt
      rw [if_neg (by omega), Nat.mod_eq_of_lt hlt]

/-- C24. Partial copy in `st54spi_read`: for every `count <= bufsiz`, when the
SPI read transfers `s > 0` bytes and `copy_to_user` leaves `m` bytes uncopied
(`0 <= m <= s`), `st54spi_read` returns `-EFAULT` if and only if `m = s`, and
otherwise returns `s - m`, which lies in `1..s`; when the transfer status is
`<= 0` it is returned unchanged with the state the transfer left: nothing is
copied to the user. -/
theorem read_partial_copy (K : Kernel) (st : State) (buf count : Nat)
    (hc : count ≤ K.bufsiz) :
    (0 < (st54spi_sync_read K st count).1 →
      (K.copy_to_user buf
          (((st54spi_sync_read K st count).2.dev.rx_buffer.getD []).take
            (st54spi_sync_read K st count).1.toNat) : Int)
        ≤ (st54spi_sync_read K st count).1 →
      ((st54spi_read K st buf count).1 = -EFAULT ↔
        (K.copy_to_user buf
          (((st54spi_sync_read K st count).2.dev.rx_buffer.getD []).take
            (st54spi_sync_read K st count).1.toNat) : Int)
          = (st54spi_sync_read K st count).1) ∧
      ((K.copy_to_user buf
          (((st54spi_sync_read K st count).2.dev.rx_buffer.getD []).take
            (st54spi_sync_read K st count).1.toNat) : Int)
          ≠ (st54spi_sync_read K st count).1 →
        (st54spi_read K st buf count).1 = (st54spi_sync_read K st count).1 -
          (K.copy_to_user buf
            (((st54spi_sync_read K st count).2.dev.rx_buffer.getD []).take
              (st54spi_sync_read K st count).1.toNat) : Int) ∧
        1 ≤ (st54spi_read K st buf count).1 ∧
        (st54spi_read K st buf count).1 ≤ (st54spi_sync_read K st count).1)) ∧
    ((st54spi_sync_read K st count).1 ≤ 0 →
      st54spi_read K st buf count = st54spi_sync_read K st count) := by
  unfold st54spi_read
  rw [if_neg (by omega)]
  generalize st54spi_sync_read K st count = r
  obtain ⟨s, st1⟩ := r
  simp only
  constructor
  · intro hpos hm
    rw [if_pos hpos]
    generalize K.copy_to_user buf ((st1.dev.rx_buffer.getD []).take s.toNat) = m at hm ⊢
    by_cases e : (m : Int) = s
    · simp only [e, if_true, true_iff, ne_eq, not_true_eq_false, false_implies, and_true]
    · simp only [e, if_false, ne_eq, not_false_eq_true, true_implies, iff_false]
      simp only [EFAULT]
      exact ⟨by omega, trivial, by omega, by omega⟩
  · intro hle
    rw [if_neg (by omega)]

/-- C22, at concrete inputs: `spi_setup` failing in `SPI_IOC_WR_MAX_SPEED_HZ`,
a mode bit outside the mask in `SPI_IOC_WR_MODE32`, and a faulting user read in
`SPI_IOC_WR_BITS_PER_WORD`. -/
theorem setting_ioctl_atomic_witness :
    (st54spi_ioctl demo_kernel_setup_fails demo_open SPI_IOC_WR_MAX_SPEED_HZ 4096).1 = -EINVAL ∧
    (st54spi_ioctl demo_kernel_setup_fails demo_open SPI_IOC_WR_MAX_SPEED_HZ 4096).2.dev
      = demo_open.dev ∧
    (st54spi_ioctl demo_kernel_bad_mode demo_open SPI_IOC_WR_MODE32 4096).1 = -EINVAL ∧
    (st54spi_ioctl demo_kernel_bad_mode demo_open SPI_IOC_WR_MODE32 4096).2.dev
      = demo_open.dev ∧
    (st54spi_ioctl demo_kernel_fault demo_open SPI_IOC_WR_BITS_PER_WORD 4096).1 = -EFAULT ∧
    (st54spi_ioctl demo_kernel_fault demo_open SPI_IOC_WR_BITS_PER_WORD 4096).2.dev
      = demo_open.dev :=
  ⟨by decide,
    (setting_ioctl_atomic demo_kernel_setup_fails demo_open SPI_IOC_WR_MAX_SPEED_HZ 4096
      (Or.inr (Or.inr (Or.inr (Or.inr rfl)))) (by decide)).1,
    by decide,
    (setting_ioctl_atomic demo_kernel_bad_mode demo_open SPI_IOC_WR_MODE32 4096
      (Or.inr (Or.inl rfl)) (by decide)).1,
    by decide,
    (setting_ioctl_atomic demo_kernel_fault demo_open SPI_IOC_WR_BITS_PER_WORD 4096
      (Or.inr (Or.inr (Or.inr (Or.inl rfl)))) (by decide)).1⟩

/-- C23, at concrete inputs: writing the speed 1 to the opened device, with
`spi_setup` succeeding and with `spi_setup` failing. -/
theorem wr_max_speed_hz_effect_witness :
    (st54spi_ioctl demo_kernel_one demo_open SPI_IOC_WR_MAX_SPEED_HZ 4096).2.dev.speed_hz = 1 ∧
    (st54spi_ioctl demo_kernel_one demo_open SPI_IOC_WR_MAX_SPEED_HZ 4096).2.dev.spi
      = demo_open.dev.spi ∧
    (st54spi_ioctl demo_kernel_setup_fails demo_open SPI_IOC_WR_MAX_SPEED_HZ 4096).2.dev.speed_hz
      = 1000000 :=
  ⟨((wr_max_speed_hz_effect demo_kernel_one demo_open 4096).2 { max_speed_hz := 1000000 } 1
      rfl ⟨fun _ => rfl, fun _ => rfl⟩ rfl).2.1,
    (wr_max_speed_hz_effect demo_kernel_one demo_open 4096).1,
    ((wr_max_speed_hz_effect demo_kernel_setup_fails demo_open 4096).2
      { max_speed_hz := 1000000 } 0 rfl ⟨fun _ => rfl, fun _ => rfl⟩ rfl).2.1⟩

/-- C24, at concrete inputs: a 4-byte read of which one byte is not copied
returns 3; a read of the removed device returns the status of the transfer. -/
theorem read_partial_copy_witness :
    (st54spi_sync_read demo_kernel_partial demo_open 4).1 = 4 ∧
    (st54spi_read demo_kernel_partial demo_open 4096 4).1 = 3 ∧
    (st54spi_read demo_kernel demo_removed 4096 4)
      = st54spi_sync_read demo_kernel demo_removed 4 :=
  ⟨by decide,
    (((read_partial_copy demo_kernel_partial demo_open 4096 4 (by decide)).1 (by decide)
      (by decide)).2 (by decide)).1,
    (read_partial_copy demo_kernel demo_removed 4096 4 (by decide)).2 (by decide)⟩

/-! ### The loopback test -/

set_option maxRecDepth 100000

/-- The inner loop of `spi_loopback_check` reverses the bits of a byte: bit `k`
of its result is bit `7 - k` of the byte, and doing it twice gives the byte
back. -/
theorem loopback_reversed_bits :
    ∀ b : u8, loopback_reversed b.val < 256 ∧
      (∀ k < 8, (loopback_reversed b.val).testBit k = b.val.testBit (7 - k)) ∧
      loopback_reversed (loopback_reversed b.val) = b.val := by
  decide

/-- The error counter of `spi_loopback_check` after the first `n` bytes is at
most `n`, and it is 0 exactly when each of these bytes is the expected one. -/
theorem loopback_err_count (char_signed : Bool) (cfg : mtk_chip_config)
    (tx_buf rx_buf : List u8) (n : Nat) (hn : n < UINT_RANGE) :
    (List.range n).foldl
        (fun err i =>
          if loopback_value cfg (tx_buf.getD i 0)
              ≠ char_of_u8 char_signed (rx_buf.getD i 0) then (err + 1) % UINT_RANGE
          else err) 0 ≤ n ∧
    ((List.range n).foldl
        (fun err i =>
          if loopback_value cfg (tx_buf.getD i 0)
              ≠ char_of_u8 char_signed (rx_buf.getD i 0) then (err + 1) % UINT_RANGE
          else err) 0 = 0 ↔
      ∀ i < n, loopback_value cfg (tx_buf.getD i 0)
        = char_of_u8 char_signed (rx_buf.getD i 0)) := by
  induction n with
  | zero => simp
  | succ n ih =>
    obtain ⟨h1, h2⟩ := ih (by omega)
    rw [List.range_succ, List.foldl_append]
    simp only [List.foldl_cons, List.foldl_nil]
    generalize (List.range n).foldl
        (fun err i =>
          if loopback_value cfg (tx_buf.getD i 0)
              ≠ char_of_u8 char_signed (rx_buf.getD i 0) then (err + 1) % UINT_RANGE
          else err) 0 = e at h1 h2 ⊢
    by_cases hm : loopback_value cfg (tx_buf.getD n 0) = char_of_u8 char_signed (rx_buf.getD n 0)
    · rw [if_neg (by simpa using hm)]
      refine ⟨by omega, ?_⟩
      rw [h2]
      constructor
      · intro h i hi
        by_cases hin : i = n
        · rw [hin]; exact hm
        · exact h i (by omega)
      · intro h i hi
        exact h i (by omega)
    · rw [if_pos hm]
      have e1 : (e + 1) % UINT_RANGE = e + 1 := Nat.mod_eq_of_lt (by omega)
      rw [e1]
      refine ⟨by omega, ?_⟩
      constructor
      · intro h; omega
      · intro h
        exact absurd (h n (by omega)) hm

/-- Reading a byte as an unsigned `char` gives the byte. -/
theorem char_of_u8_unsigned (b : u8) : char_of_u8 false b = (b.val : Int) := by
  unfold char_of_u8
  simp

/-- C25. `spi_loopback_check` (with `char` unsigned, `trans->len` at most
`INT_MAX`) returns 0 if and only if, for every index `i < trans->len`,
`rx_buf[i]` equals `tx_buf[i]` when `tx_mlsb == rx_mlsb`, or equals the 8-bit
reversal of `tx_buf[i]` when `tx_mlsb != rx_mlsb`, whatever the byte values
`0..255`; otherwise it returns -1.  The reversal puts bit `7 - k` of the
transmitted byte at bit `k` of the expected value and is its own inverse. -/
theorem loopback_check_iff (cfg : mtk_chip_config) (len : Nat) (tx_buf rx_buf : List u8)
    (hlen : len ≤ INT_MAX) :
    (spi_loopback_check false cfg len tx_buf rx_buf = 0 ↔
      ∀ i < len, (rx_buf.getD i 0).val =
        if cfg.tx_mlsb = cfg.rx_mlsb then (tx_buf.getD i 0).val
        else loopback_reversed (tx_buf.getD i 0).val) ∧
    (spi_loopback_check false cfg len tx_buf rx_buf ≠ 0 →
      spi_loopback_check false cfg len tx_buf rx_buf = -1) ∧
    (∀ b : u8, loopback_reversed b.val < 256 ∧
      (∀ k < 8, (loopback_reversed b.val).testBit k = b.val.testBit (7 - k)) ∧
      loopback_reversed (loopback_reversed b.val) = b.val) := by
  have hcount := (loopback_err_count false cfg tx_buf rx_buf len
    (by simp only [INT_MAX, UINT_RANGE] at *; omega)).2
  have hval : ∀ i, (loopback_value cfg (tx_buf.getD i 0) = char_of_u8 false (rx_buf.getD i 0)) ↔
      ((rx_buf.getD i 0).val =
        if cfg.tx_mlsb = cfg.rx_mlsb then (tx_buf.getD i 0).val
        else loopback_reversed (tx_buf.getD i 0).val) := by
    intro i
    rw [char_of_u8_unsigned]
    unfold loopback_value
    by_cases he : cfg.tx_mlsb = cfg.rx_mlsb
    · rw [if_neg (by rw [he]; simp), if_pos he]
      omega
    · rw [if_pos (Nat.xor_ne_zero.mpr he), if_neg he]
      omega
  refine ⟨?_, ?_, loopback_reversed_bits⟩
  · unfold spi_loopback_check
    simp only
    by_cases h0 : (List.range len).foldl
        (fun err i =>
          if loopback_value cfg (tx_buf.getD i 0)
              ≠ char_of_u8 false (rx_buf.getD i 0) then (err + 1) % UINT_RANGE
          else err) 0 = 0
    · rw [if_neg (by rw [h0]; simp)]
      simp only [true_iff]
      intro i hi
      exact (hval i).mp (hcount.mp h0 i hi)
    · rw [if_pos h0]
      simp only [show ((-1 : Int) = 0) = False from by decide, false_iff]
      intro hall
      exact h0 (hcount.mpr (fun i hi => (hval i).mpr (hall i hi)))
  · intro hne
    unfold spi_loopback_check at hne ⊢
    simp only at hne ⊢
    split_ifs at hne ⊢ with h0
    · rfl
    · exact absurd rfl hne

/-- Where `char` is signed, the check rejects a received byte from `0x80` on
even when it is the expected one. -/
theorem loopback_check_signed_char :
    spi_loopback_check true { } 1 [128] [128] = -1 ∧
    spi_loopback_check false { } 1 [128] [128] = 0 := by
  decide

/-- C25, at concrete inputs: three reversed bytes pass, one wrong byte fails,
and the 300-byte pattern of `spi_transfer_malloc`, which holds every byte
value, passes when it is received as sent. -/
theorem loopback_check_iff_witness :
    spi_loopback_check false { tx_mlsb := 1 } 3 [1, 2, 128] [128, 64, 1] = 0 ∧
    spi_loopback_check false { } 3 [1, 2, 128] [1, 2, 127] = -1 ∧
    spi_loopback_check false { } 300 (spi_transfer_malloc 300).1 (spi_transfer_malloc 300).1 = 0 :=
  ⟨(loopback_check_iff { tx_mlsb := 1 } 3 [1, 2, 128] [128, 64, 1] (by decide)).1.mpr (by decide),
    (loopback_check_iff { } 3 [1, 2, 128] [1, 2, 127] (by decide)).2.1 (by decide),
    (loopback_check_iff { } 300 (spi_transfer_malloc 300).1 (spi_transfer_malloc 300).1
      (by decide)).1.mpr (fun _ _ => rfl)⟩

/-! ### `st54spi_probe` -/

/-- A probe whose allocation succeeds ends by registering the reset callback,
and frees the driver data exactly when its status is not 0. -/
theorem probe_registers (spi : spi_device) (minor : Nat) (device_create : Int)
    (dt : DtLookup) :
    (st54spi_probe spi true minor device_create dt).registered = true ∧
    ((st54spi_probe spi true minor device_create dt).freed = true ↔
      (st54spi_probe spi true minor device_create dt).status ≠ 0) := by
  unfold st54spi_probe
  simp

/-- On a path of `st54spi_probe` that fails after the allocation, the events
after the `kfree` include a read of `power_gpio` and the registration of the
reset callback. -/
theorem probe_failure_trace (spi : spi_device) (minor : Nat) (device_create : Int)
    (dt : DtLookup)
    (h : (st54spi_probe spi true minor device_create dt).status ≠ 0) :
    ProbeEvent.kfree ∈ (st54spi_probe spi true minor device_create dt).trace ∧
    ProbeEvent.load DataField.power_gpio
      ∈ after_kfree (st54spi_probe spi true minor device_create dt).trace ∧
    ProbeEvent.st21nfc_register_reset_cb
      ∈ after_kfree (st54spi_probe spi true minor device_create dt).trace := by
  unfold st54spi_probe at h ⊢
  simp only [Bool.not_true, Bool.false_eq_true, if_false] at h ⊢
  by_cases hm : minor < N_SPI_MINORS
  · simp only [hm, if_true] at h ⊢
    cases dt with
    | no_node => simp [st54spi_parse_dt, after_kfree, h]
    | no_gpio => simp [st54spi_parse_dt, after_kfree, h]
    | gpio g =>
      by_cases hg : g = 0
      · simp [st54spi_parse_dt, after_kfree, hg, h]
      · simp [st54spi_parse_dt, after_kfree, hg, h]
  · simp only [hm, if_false] at h ⊢
    cases dt with
    | no_node => simp [st54spi_parse_dt, after_kfree, ENODEV]
    | no_gpio => simp [st54spi_parse_dt, after_kfree, ENODEV]
    | gpio g =>
      by_cases hg : g = 0
      · simp [st54spi_parse_dt, after_kfree, hg, ENODEV]
      · simp [st54spi_parse_dt, after_kfree, hg, ENODEV]

/-- On a path of `st54spi_probe` that returns 0 the driver data is not freed. -/
theorem probe_success_trace (spi : spi_device) (minor : Nat) (device_create : Int)
    (dt : DtLookup)
    (h : (st54spi_probe spi true minor device_create dt).status = 0) :
    ProbeEvent.kfree ∉ (st54spi_probe spi true minor device_create dt).trace ∧
    after_kfree (st54spi_probe spi true minor device_create dt).trace = [] := by
  unfold st54spi_probe at h ⊢
  simp only [Bool.not_true, Bool.false_eq_true, if_false] at h ⊢
  by_cases hm : minor < N_SPI_MINORS
  · simp only [hm, if_true] at h ⊢
    cases dt with
    | no_node => simp [st54spi_parse_dt, after_kfree, h]
    | no_gpio => simp [st54spi_parse_dt, after_kfree, h]
    | gpio g =>
      by_cases hg : g = 0
      · simp [st54spi_parse_dt, after_kfree, hg, h]
      · simp [st54spi_parse_dt, after_kfree, hg, h]
  · simp only [hm, if_false, ENODEV] at h
    omega

/-- C26, evaluated on the probe of a device for which no minor number is free
(`find_first_zero_bit` returns `N_SPI_MINORS`), with power GPIO 5 in the device
tree: `st54spi_probe` returns `-ENODEV` and frees the driver data, and after
the `kfree` it writes `power_gpio` in `st54spi_parse_dt`, reads it seven times
and registers the reset callback with the freed data.  On every path that
fails after the allocation (no free minor, or `device_create` failing) the data
is freed, then read, and the callback is registered with it; on the paths that
return 0 nothing is freed. -/
theorem probe_uses_freed_data :
    (st54spi_probe demo_spi true 1 0 (.gpio 5)).status = -ENODEV ∧
    (st54spi_probe demo_spi true 1 0 (.gpio 5)).freed = true ∧
    (st54spi_probe demo_spi true 1 0 (.gpio 5)).registered = true ∧
    (st54spi_probe demo_spi true 1 0 (.gpio 5)).trace =
      [.store .spi, .store .spi_lock, .store .buf_lock, .store .device_entry,
       .store .speed_hz, .load .speed_hz, .kfree,
       .store .power_gpio, .load .power_gpio, .load .power_gpio,
       .load .power_gpio, .gpio_request 5, .load .power_gpio,
       .load .power_gpio, .gpio_direction_output 5 1,
       .load .power_gpio, .gpio_set_value 5 1, .st21nfc_register_reset_cb] ∧
    ((after_kfree (st54spi_probe demo_spi true 1 0 (.gpio 5)).trace).filter
        ProbeEvent.accesses_data).length = 7 ∧
    (∀ (spi : spi_device) (minor : Nat) (device_create : Int) (dt : DtLookup),
      (st54spi_probe spi true minor device_create dt).status ≠ 0 →
      (st54spi_probe spi true minor device_create dt).freed = true ∧
      (st54spi_probe spi true minor device_create dt).registered = true ∧
      ProbeEvent.load DataField.power_gpio
        ∈ after_kfree (st54spi_probe spi true minor device_create dt).trace ∧
      ProbeEvent.st21nfc_register_reset_cb
        ∈ after_kfree (st54spi_probe spi true minor device_create dt).trace) ∧
    (∀ (spi : spi_device) (minor : Nat) (device_create : Int) (dt : DtLookup),
      (st54spi_probe spi true minor device_create dt).status = 0 →
      (st54spi_probe spi true minor device_create dt).freed = false ∧
      after_kfree (st54spi_probe spi true minor device_create dt).trace = []) := by
  refine ⟨by decide, by decide, by decide, by decide, by decide, ?_, ?_⟩
  · intro spi minor dc dt h
    obtain ⟨r1, r2⟩ := probe_registers spi minor dc dt
    obtain ⟨-, t2, t3⟩ := probe_failure_trace spi minor dc dt h
    exact ⟨r2.mpr h, r1, t2, t3⟩
  · intro spi minor dc dt h
    obtain ⟨-, r2⟩ := probe_registers spi minor dc dt
    obtain ⟨-, t2⟩ := probe_success_trace spi minor dc dt h
    refine ⟨?_, t2⟩
    cases hf : (st54spi_probe spi true minor dc dt).freed with
    | false => rfl
    | true => exact absurd h (r2.mp hf)

/-! ### The power ioctls -/

/-- `ST54SPI_IOC_WR_POWER` on a bound device with an accessible argument: the
status of the user read, and the state with that read added to the trace. -/
theorem ioctl_wr_power (K : Kernel) (st : State) (spi : spi_device) (arg : Nat)
    (hs : st.dev.spi = some spi) (ha : arg_accessible K ST54SPI_IOC_WR_POWER arg) :
    st54spi_ioctl K st ST54SPI_IOC_WR_POWER arg
      = ((get_user_status K st arg 4).1,
         { st with log := st.log ++ [Event.get_user arg 4] }) := by
  rw [st54spi_ioctl_some K st _ arg spi hs (by decide) ha]
  unfold st54spi_ioctl_switch
  rw [if_neg (by decide), if_neg (by decide), if_neg (by decide), if_neg (by decide),
    if_neg (by decide), if_neg (by decide), if_neg (by decide), if_neg (by decide),
    if_neg (by decide), if_neg (by decide), if_pos rfl]
  unfold get_user_status st54spi_power_set
  cases K.get_user arg 4 with
  | none => simp [EFAULT]
  | some v => simp

/-- `ST54SPI_IOC_RD_POWER` on a bound device with an accessible argument
stores what `st54spi_power_get` returns, as a `__u32`. -/
theorem ioctl_rd_power (K : Kernel) (st : State) (spi : spi_device) (arg : Nat)
    (hs : st.dev.spi = some spi) (ha : arg_accessible K ST54SPI_IOC_RD_POWER arg) :
    st54spi_ioctl K st ST54SPI_IOC_RD_POWER arg
      = put_user_status K (st54spi_power_get K st).2
          ((st54spi_power_get K st).1 % (UINT_RANGE : Int)).toNat arg 4 := by
  rw [st54spi_ioctl_some K st _ arg spi hs (by decide) ha]
  unfold st54spi_ioctl_switch
  rw [if_neg (by decide), if_neg (by decide), if_neg (by decide), if_neg (by decide),
    if_neg (by decide), if_pos rfl]

/-- C18, as stated, fails. On the device `demo_power_on` (`power_gpio` 5, the
line driven to 1 with `gpio_set_value`, as `st54spi_probe` leaves it),
`ST54SPI_IOC_WR_POWER` with `v = 0` returns 0 but does not drive the GPIO: the
trace gains the user read only, the line still reads 1, and the following
`ST54SPI_IOC_RD_POWER` stores 1 where the claim requires 0. -/
theorem power_set_counterexample :
    demo_power_on.dev.power_gpio = 5 ∧
    gpio_level demo_kernel demo_power_on 5 = 1 ∧
    demo_kernel.get_user 4096 4 = some 0 ∧
    (st54spi_ioctl demo_kernel demo_power_on ST54SPI_IOC_WR_POWER 4096).1 = 0 ∧
    gpio_level demo_kernel
      (st54spi_ioctl demo_kernel demo_power_on ST54SPI_IOC_WR_POWER 4096).2 5 = 1 ∧
    (st54spi_ioctl demo_kernel demo_power_on ST54SPI_IOC_WR_POWER 4096).2.log
      = [Event.gpio_set_value 5 1, Event.get_user 4096 4] ∧
    st54spi_ioctl demo_kernel
      (st54spi_ioctl demo_kernel demo_power_on ST54SPI_IOC_WR_POWER 4096).2
      ST54SPI_IOC_RD_POWER 8192
      = (0, { demo_power_on with
              log := [Event.gpio_set_value 5 1, Event.get_user 4096 4,
                Event.gpio_get_value 5, Event.put_user 8192 4 1] }) := by
  refine ⟨rfl, rfl, rfl, ?_, ?_, ?_, ?_⟩
  · decide
  · decide
  · decide
  · decide

/-- C18, amended. `st54spi_power_set` does not drive the SE power-request
GPIO (the `gpio_set_value` call is disabled in the source): it returns the
state it was given.  On a bound device, `ST54SPI_IOC_WR_POWER` with an
accessible argument only reads `v` from the user (0 if the read succeeds,
`-EFAULT` if not) and leaves the GPIO levels and the driver data unchanged, so
a following `ST54SPI_IOC_RD_POWER` (`st54spi_power_get`) reads the level the
line had before the write when `power_gpio` is configured, and 0 when it is
not. -/
theorem power_set_disabled (K : Kernel) (st : State) (spi : spi_device) (arg : Nat)
    (hs : st.dev.spi = some spi) (ha : arg_accessible K ST54SPI_IOC_WR_POWER arg) :
    (∀ (s : State) (val : Int), st54spi_power_set s val = s) ∧
    (st54spi_ioctl K st ST54SPI_IOC_WR_POWER arg).1
      = (if (K.get_user arg 4).isSome then 0 else -EFAULT) ∧
    (st54spi_ioctl K st ST54SPI_IOC_WR_POWER arg).2
      = { st with log := st.log ++ [Event.get_user arg 4] } ∧
    (∀ gpio, gpio_level K (st54spi_ioctl K st ST54SPI_IOC_WR_POWER arg).2 gpio
      = gpio_level K st gpio) ∧
    (st54spi_power_get K (st54spi_ioctl K st ST54SPI_IOC_WR_POWER arg).2).1
      = (if st.dev.power_gpio ≠ 0 then gpio_level K st st.dev.power_gpio else 0) ∧
    (∀ arg2, arg_accessible K ST54SPI_IOC_RD_POWER arg2 →
      (st54spi_ioctl K (st54spi_ioctl K st ST54SPI_IOC_WR_POWER arg).2
          ST54SPI_IOC_RD_POWER arg2).2.log
        = st.log ++ [Event.get_user arg 4]
          ++ (if st.dev.power_gpio ≠ 0 then [Event.gpio_get_value st.dev.power_gpio] else [])
          ++ [Event.put_user arg2 4
                (((if st.dev.power_gpio ≠ 0 then gpio_level K st st.dev.power_gpio else 0)
                  % (UINT_RANGE : Int)).toNat % 2 ^ (8 * 4))]) := by
  have hw := ioctl_wr_power K st spi arg hs ha
  have hget : (st54spi_power_get K
      ({ st with log := st.log ++ [Event.get_user arg 4] } : State))
      = ((if st.dev.power_gpio ≠ 0 then gpio_level K st st.dev.power_gpio else 0),
         (if st.dev.power_gpio ≠ 0 then
            ({ st with log := st.log ++ [Event.get_user arg 4]
                          ++ [Event.gpio_get_value st.dev.power_gpio] } : State)
          else { st with log := st.log ++ [Event.get_user arg 4] })) := by
    unfold st54spi_power_get
    by_cases hg : st.dev.power_gpio ≠ 0
    · rw [if_pos hg, if_pos hg, if_pos hg]
      rfl
    · rw [if_neg hg, if_neg hg, if_neg hg]
  refine ⟨fun _ _ => rfl, ?_, ?_, ?_, ?_, ?_⟩
  · rw [hw]
    unfold get_user_status
    cases K.get_user arg 4 <;> rfl
  · rw [hw]
  · intro gpio
    rw [hw]
    rfl
  · rw [hw]
    simp only
    rw [hget]
  · intro arg2 ha2
    rw [hw]
    simp only
    rw [ioctl_rd_power K
      ({ st with log := st.log ++ [Event.get_user arg 4] } : State) spi arg2 hs ha2, hget]
    unfold put_user_status
    by_cases hg : st.dev.power_gpio ≠ 0
    · rw [if_pos hg, if_pos hg, if_pos hg]
    · rw [if_neg hg, if_neg hg, if_neg hg, List.append_nil]

/-- C18 amended, at a concrete input: on `demo_power_on`, whose line is high,
`ST54SPI_IOC_WR_POWER` returns 0 and adds the user read to the trace, and
`st54spi_power_get` reads 1 afterwards, whether the user wrote 1 or 0. -/
theorem power_set_disabled_witness :
    (st54spi_ioctl demo_kernel_one demo_power_on ST54SPI_IOC_WR_POWER 4096).1 = 0 ∧
    (st54spi_ioctl demo_kernel_one demo_power_on ST54SPI_IOC_WR_POWER 4096).2
      = { demo_power_on with log := demo_power_on.log ++ [Event.get_user 4096 4] } ∧
    (st54spi_power_get demo_kernel_one
      (st54spi_ioctl demo_kernel_one demo_power_on ST54SPI_IOC_WR_POWER 4096).2).1 = 1 ∧
    (st54spi_power_get demo_kernel
      (st54spi_ioctl demo_kernel demo_power_on ST54SPI_IOC_WR_POWER 4096).2).1 = 1 :=
  ⟨(power_set_disabled demo_kernel_one demo_power_on { max_speed_hz := 1000000 } 4096 rfl
      ⟨fun _ => rfl, fun _ => rfl⟩).2.1,
    (power_set_disabled demo_kernel_one demo_power_on { max_speed_hz := 1000000 } 4096 rfl
      ⟨fun _ => rfl, fun _ => rfl⟩).2.2.1,
    (power_set_disabled demo_kernel_one demo_power_on { max_speed_hz := 1000000 } 4096 rfl
      ⟨fun _ => rfl, fun _ => rfl⟩).2.2.2.2.1,
    (power_set_disabled demo_kernel demo_power_on { max_speed_hz := 1000000 } 4096 rfl
      ⟨fun _ => rfl, fun _ => rfl⟩).2.2.2.2.1⟩

end St54Spi

namespace NtSmcCall

/-! ### The SMC call ID encoding of `nt_smc_call.h` -/

/-- The three upper fields combine into one 8-bit field above the function
number. -/
theorem upper_fields (F W T : Nat) (hF : F < 2) (hW : W < 2) (hT : T < 64) :
    (F <<< 31) ||| (W <<< 30) ||| (T <<< 24) = 2 ^ 24 * (F * 128 + W * 64 + T) := by
  have h : ∀ F < 2, ∀ W < 2, ∀ T < 64,
      (F <<< 31) ||| (W <<< 30) ||| (T <<< 24) = 2 ^ 24 * (F * 128 + W * 64 + T) := by
    decide
  exact h F hF W hW T hT

/-- On its domain the macro adds up the four fields, each in its own bits. -/
theorem make_smc_call_id_eq (F W T FN : Nat) (hF : F < 2) (hW : W < 2) (hT : T < 64)
    (hFN : FN < 2 ^ 24) :
    MAKE_SMC_CALL_ID F W T FN = F * 2 ^ 31 + W * 2 ^ 30 + T * 2 ^ 24 + FN := by
  unfold MAKE_SMC_CALL_ID
  rw [upper_fields F W T hF hW hT, ← Nat.mul_add_lt_is_or hFN]
  rw [Nat.mod_eq_of_lt (by omega)]
  omega

/-- C11. `MAKE_SMC_CALL_ID` is a lossless bit-field encoding: for all `F`, `W`
in {0, 1}, `T < 64` and `FN < 2 ^ 24` the word `MAKE_SMC_CALL_ID(F, W, T, FN)`
fits 32 bits and has bit 31 = `F`, bit 30 = `W`, bits 29..24 = `T` and bits
23..0 = `FN`, so the four fields are recovered from the ID and the encoding is
injective on that domain; every service type the header defines (0..4 and
48..53) is below 64. -/
theorem make_smc_call_id_lossless (F W T FN : Nat) (hF : F < 2) (hW : W < 2)
    (hT : T < 64) (hFN : FN < 2 ^ 24) :
    MAKE_SMC_CALL_ID F W T FN < 2 ^ 32 ∧
    smc_field_F (MAKE_SMC_CALL_ID F W T FN) = F ∧
    smc_field_W (MAKE_SMC_CALL_ID F W T FN) = W ∧
    smc_field_T (MAKE_SMC_CALL_ID F W T FN) = T ∧
    smc_field_FN (MAKE_SMC_CALL_ID F W T FN) = FN ∧
    (∀ F' W' T' FN', F' < 2 → W' < 2 → T' < 64 → FN' < 2 ^ 24 →
      MAKE_SMC_CALL_ID F W T FN = MAKE_SMC_CALL_ID F' W' T' FN' →
      F = F' ∧ W = W' ∧ T = T' ∧ FN = FN') ∧
    (∀ t ∈ service_types, t < 64) := by
  have e := make_smc_call_id_eq F W T FN hF hW hT hFN
  have h63 : (0x3F : Nat) = 2 ^ 6 - 1 := by decide
  have h24 : (0xFFFFFF : Nat) = 2 ^ 24 - 1 := by decide
  refine ⟨by omega, ?_, ?_, ?_, ?_, ?_, by decide⟩
  · simp only [smc_field_F, Nat.shiftRight_eq_div_pow, Nat.and_one_is_mod, e]
    omega
  · simp only [smc_field_W, Nat.shiftRight_eq_div_pow, Nat.and_one_is_mod, e]
    omega
  · rw [smc_field_T, h63, Nat.and_pow_two_sub_one_eq_mod, Nat.shiftRight_eq_div_pow, e]
    omega
  · rw [smc_field_FN, h24, Nat.and_pow_two_sub_one_eq_mod, e]
    omega
  · intro F' W' T' FN' hF' hW' hT' hFN' heq
    rw [e, make_smc_call_id_eq F' W' T' FN' hF' hW' hT' hFN'] at heq
    omega

/-- C11, at a concrete input: a fast 64-bit call of service type 52 with
function number 11 is the ID `0xF400000B`. -/
theorem make_smc_call_id_lossless_witness :
    MAKE_SMC_CALL_ID 1 1 52 11 = 0xF400000B ∧
    smc_field_F 0xF400000B = 1 ∧ smc_field_W 0xF400000B = 1 ∧
    smc_field_T 0xF400000B = 52 ∧ smc_field_FN 0xF400000B = 11 :=
  have h := make_smc_call_id_lossless 1 1 52 11 (by decide) (by decide) (by decide) (by decide)
  ⟨by decide, h.2.1, h.2.2.1, h.2.2.2.1, h.2.2.2.2.1⟩

/-! ### The call IDs of `nt_smc_call.h` -/

/-- C21. The 26 SMC call IDs defined in `nt_smc_call.h` are pairwise distinct
32-bit values, and an ID has bit 31 set exactly when it is defined as a fast
call: the twelve IDs under the Fast Call heading are
`MAKE_SMC_CALL_ID(1, 0, 52, k)` for `k = 0..11`, the ten under the Standard
Call heading are `MAKE_SMC_CALL_ID(0, 0, 53, k)` for `k = 0..9`, and each
64-bit variant (`N_GET_T_FP_DEVICE_ID`, `N_ACK_T_INVOKE_DRV_CMD`,
`N_INVOKE_T_LOAD_TEE_CMD`, `N_INVOKE_T_NQ_CMD`) differs from its 32-bit
counterpart in bit 30 and in no other bit. -/
theorem smc_call_ids_distinct :
    smc_call_ids.length = 26 ∧ smc_call_ids.Nodup ∧
    (∀ id ∈ smc_call_ids, id < 2 ^ 32) ∧
    (∀ id ∈ smc_call_ids, smc_field_F id = 1 ↔ id ∈ fast_smc_call_ids) ∧
    fast_call_ids = (List.range 12).map (MAKE_SMC_CALL_ID 1 0 52) ∧
    standard_call_ids = (List.range 10).map (MAKE_SMC_CALL_ID 0 0 53) ∧
    (∀ p ∈ wide_call_pairs, p.1 ∈ wide_call_ids ∧ p.1 ^^^ p.2 = 2 ^ 30 ∧
      smc_field_W p.1 = 1 ∧ smc_field_W p.2 = 0) := by
  refine ⟨rfl, by decide, by decide, by decide, by decide, by decide, by decide⟩

end NtSmcCall

namespace Mt6370

/-! ### The parameter tables and register fields of `mt6370_pmu_charger.h` -/

set_option maxRecDepth 100000

/-- C27, as stated, fails for the watchdog fast-charge timer table, one of the
sixteen: `MAX - MIN` is a multiple of `STEP`, but `(MAX - MIN) / STEP` is
`(20 - 4) / 2 = 8` while `NUM - 1` is 7; under
`value(code) = MIN + code * STEP` the last code stands for 18 and no code in
`0..NUM-1` stands for `MT6370_WT_FC_MAX = 20`. -/
theorem wt_fc_max_counterexample :
    WT_FC_table ∈ param_tables ∧
    WT_FC_table = ⟨8, 4, 20, 2⟩ ∧
    ¬ (WT_FC_table.max - WT_FC_table.min) / WT_FC_table.step ≤ WT_FC_table.num - 1 ∧
    WT_FC_table.value (WT_FC_table.num - 1) = 18 ∧
    (∀ code < WT_FC_table.num, WT_FC_table.value code ≠ WT_FC_table.max) ∧
    ¬ (∀ t ∈ param_tables,
        t.min ≤ t.max ∧ t.step ∣ t.max - t.min ∧ (t.max - t.min) / t.step ≤ t.num - 1) := by
  refine ⟨by decide, rfl, by decide, rfl, by decide, by decide⟩

/-- C27, amended. For the fifteen MT6370 parameter tables other than `WT_FC`
the `MAX` value is reachable by a valid code: `MAX - MIN` is a non-negative
multiple of `STEP`, `(MAX - MIN) / STEP <= NUM - 1`, and under
`value(code) = MIN + code * STEP` that code stands for `MAX`.  For `WT_FC`,
`MAX - MIN` is a non-negative multiple of `STEP` and `(MAX - MIN) / STEP`
equals `NUM`: `MAX` lies one step above the value of the last code. -/
theorem param_tables_max_reachable :
    param_tables.length = 16 ∧
    (∀ t ∈ param_tables, t = WT_FC_table ∨ t ∈ param_tables_but_WT_FC) ∧
    param_tables_but_WT_FC.length = 15 ∧
    (∀ t ∈ param_tables_but_WT_FC, t ∈ param_tables ∧ t ≠ WT_FC_table) ∧
    (∀ t ∈ param_tables_but_WT_FC,
      t.min ≤ t.max ∧ t.step ∣ t.max - t.min ∧ (t.max - t.min) / t.step ≤ t.num - 1 ∧
      t.value ((t.max - t.min) / t.step) = t.max) ∧
    (WT_FC_table.min ≤ WT_FC_table.max ∧ WT_FC_table.step ∣ WT_FC_table.max - WT_FC_table.min ∧
      (WT_FC_table.max - WT_FC_table.min) / WT_FC_table.step = WT_FC_table.num ∧
      WT_FC_table.value (WT_FC_table.num - 1) + WT_FC_table.step = WT_FC_table.max) := by
  refine ⟨rfl, by decide, rfl, by decide, by decide, by decide⟩

/-- C28. For every MT6370 field that has both a `SHIFT` and a `MASK` macro
(there are 96), the mask is a contiguous bit field inside one 8-bit register
whose lowest set bit is at `SHIFT`: `MASK <= 0xFF`, `MASK` has no bit below
`SHIFT`, bit `SHIFT` is set, and `MASK >> SHIFT` equals `2^k - 1` for some `k`
from 1 to 8; for the 73 masks written as `1 << SHIFT`, `k` is 1. -/
theorem mask_contiguous_at_shift :
    fields.length = 96 ∧ bit_fields.length = 73 ∧
    (∀ f ∈ fields, f.mask ≤ 0xFF ∧ f.mask % 2 ^ f.shift = 0 ∧ f.mask.testBit f.shift = true ∧
      ∃ k < 9, 1 ≤ k ∧ f.mask >>> f.shift = 2 ^ k - 1) ∧
    (∀ f ∈ bit_fields, f ∈ fields ∧ f.mask >>> f.shift = 2 ^ 1 - 1) := by
  refine ⟨rfl, rfl, by decide, by decide⟩

/-- C29. For every MT6370 parameter whose code is stored in a register field
of the same name (all tables but `PEP20_VOLT`, fifteen), the table size `X_NUM`
equals 2 to the number of bits set in `MT6370_MASK_X`; so every code
`0..NUM-1`, shifted to the field, fits the mask and the 8-bit register, and
every value of the field read from a register is a valid table index. -/
theorem table_size_matches_field :
    param_fields.length = 15 ∧
    (∀ p ∈ param_fields, p.1 ∈ param_tables ∧ p.2 ∈ fields) ∧
    (∀ p ∈ param_fields, p.1.num = 2 ^ popcount p.2.mask) ∧
    (∀ p ∈ param_fields, ∀ code < p.1.num,
      (code <<< p.2.shift) &&& p.2.mask = code <<< p.2.shift ∧ code <<< p.2.shift ≤ 0xFF) ∧
    (∀ p ∈ param_fields, ∀ reg < 256, (reg &&& p.2.mask) >>> p.2.shift < p.1.num) := by
  refine ⟨rfl, by decide, by decide, ?_, ?_⟩
  · decide
  · decide

end Mt6370

namespace TeeiId

/-! ### The macro `ROUND_UP` of `teei_id.h` -/

/-- The quotient of the macro brackets `N`: `ROUND_UP(N, S)` is at least `N`
and less than `N + S`. -/
theorem round_up_bounds (N S : Nat) (hS : 0 < S) :
    N ≤ ROUND_UP N S ∧ ROUND_UP N S ≤ N + S - 1 := by
  unfold ROUND_UP
  have h1 : (N + S - 1) / S * S ≤ N + S - 1 := Nat.div_mul_le_self _ _
  have h2 : N + S - 1 < ((N + S - 1) / S + 1) * S := by
    rw [Nat.mul_comm]
    exact Nat.lt_mul_div_succ _ hS
  rw [Nat.succ_mul] at h2
  omega

/-- A multiple of `S` that is at least `N` is at least `ROUND_UP(N, S)`. -/
theorem round_up_le_multiple (N S m : Nat) (hS : 0 < S) (hd : S ∣ m) (hm : N ≤ m) :
    ROUND_UP N S ≤ m := by
  obtain ⟨k, rfl⟩ := hd
  unfold ROUND_UP
  rw [Nat.mul_comm S k]
  apply Nat.mul_le_mul_right
  rw [Nat.div_le_iff_le_mul_add_pred hS]
  omega

/-- Subtracting 1 from a `w`-bit sum that does not overflow. -/
theorem wrapped_pred (P x : Nat) (hx : 0 < x) (h : x - 1 < P) :
    (x % P + (P - 1)) % P = x - 1 := by
  by_cases hlt : x < P
  · rw [Nat.mod_eq_of_lt hlt]
    have e : x + (P - 1) = (x - 1) + P := by omega
    rw [e, Nat.add_mod_right, Nat.mod_eq_of_lt h]
  · have e : x = P := by omega
    subst e
    rw [Nat.mod_self, Nat.zero_add, Nat.mod_eq_of_lt (by omega)]

/-- C30. For all natural numbers `N` and `S` with `S > 0`, `ROUND_UP(N, S)`
is the least multiple of `S` that is at least `N`: it is a multiple of `S`, it
is at least `N`, and every multiple of `S` that is at least `N` is at least
`ROUND_UP(N, S)`; hence `N <= ROUND_UP(N, S) < N + S`,
`ROUND_UP(N, S) = N` when `S` divides `N`, and
`ROUND_UP(ROUND_UP(N, S), S) = ROUND_UP(N, S)`; and on unsigned operands of
any width in which `N + S - 1` does not overflow, the macro computes the same
value. -/
theorem round_up_least_multiple (N S : Nat) (hS : 0 < S) :
    S ∣ ROUND_UP N S ∧ N ≤ ROUND_UP N S ∧
    (∀ m, S ∣ m → N ≤ m → ROUND_UP N S ≤ m) ∧
    ROUND_UP N S < N + S ∧
    (S ∣ N → ROUND_UP N S = N) ∧
    ROUND_UP (ROUND_UP N S) S = ROUND_UP N S ∧
    (∀ w, N + S - 1 < 2 ^ w → ROUND_UP_unsigned w N S = ROUND_UP N S) := by
  obtain ⟨h1, h2⟩ := round_up_bounds N S hS
  have hdvd : S ∣ ROUND_UP N S := ⟨(N + S - 1) / S, by unfold ROUND_UP; rw [Nat.mul_comm]⟩
  have hfix : ∀ M, S ∣ M → ROUND_UP M S = M := by
    intro M hM
    have a := (round_up_bounds M S hS).1
    have b := round_up_le_multiple M S M hS hM (Nat.le_refl _)
    omega
  refine ⟨hdvd, h1, fun m hd hm => round_up_le_multiple N S m hS hd hm, by omega,
    hfix N, hfix _ hdvd, ?_⟩
  intro w hw
  unfold ROUND_UP_unsigned
  rw [wrapped_pred (2 ^ w) (N + S) (by omega) hw]
  exact Nat.mod_eq_of_lt (by unfold ROUND_UP at h2; omega)

/-- C30, at concrete inputs: 33 bytes rounded up to the 32-byte cache line,
and a 32-bit sum that reaches `2 ^ 32` exactly. -/
theorem round_up_least_multiple_witness :
    ROUND_UP 33 32 = 64 ∧ ROUND_UP 64 32 = 64 ∧
    ROUND_UP_unsigned 32 4294967264 32 = 4294967264 :=
  ⟨rfl, (round_up_least_multiple 64 32 (by decide)).2.2.2.2.1 ⟨2, rfl⟩, rfl⟩

end TeeiId
